import Mathlib

/-! ## ODrive `Firmware/MotorControl/controller.cpp`: a shallow embedding

The controller's per-tick `update()`, the anti-cogging learner and the command
handlers are translated into pure functions on an explicit `Controller` state.

Conventions of the embedding:

* A `float` is a rational number (`ℚ`). The rounding of float operations is the
  function `Env.fl`, applied to every operation of the `VEL_RAMP` shaper, whose
  claims depend on it; the other operations are taken exact. `f32_round` is the
  rounding of IEEE 754 binary32 and the identity is exact arithmetic.
* There is no NaN: where the source divides by zero the rational quotient is 0
  (`x / 0 = 0` in `ℚ`), not the float result. The only infinite value of the
  source, the initial `anticogging_error_max_ = -infinity`, is modelled by
  `none : Option ℚ`.
* `std::optional<float>` is `Option ℚ`.
* `return false` inside `update()` is always preceded by one `set_error(bit)`.
  A stage that can fail returns `Except Nat _`, the error being that bit, and
  `assemble` applies `set_error` to the state the stage was entered with (no
  stage writes state before it fails).
* Values that the source takes from other translation units (sampling period,
  number of axes, `pdf`, `interpolate`, the trajectory planner) are fields of
  `Env`; the readings of one tick (estimators, axis, motor) are a `TickInput`.
-/

namespace ODrive

/-! ## Numeric helpers of the C++ standard library -/

/-- The function `std::clamp(v, lo, hi)`: `(v < lo) ? lo : (hi < v) ? hi : v`. -/
def clamp (v lo hi : ℚ) : ℚ :=
  if v < lo then lo else if hi < v then hi else v

/-- The function `std::max(a, b)`: `(a < b) ? b : a`. -/
def fmax (a b : ℚ) : ℚ := if a < b then b else a

/-- The function `std::min(a, b)`: `(b < a) ? b : a`. -/
def fmin (a b : ℚ) : ℚ := if b < a then b else a

/-- The function `std::copysignf(x, y)`: magnitude of `x`, sign of `y`. -/
def copysignf (x y : ℚ) : ℚ := if y < 0 then -|x| else |x|

/-- The conversion `(int)x` of a float: truncation toward zero. -/
def float_to_int (x : ℚ) : ℤ := if 0 ≤ x then ⌊x⌋ else ⌈x⌉

/-- The integer nearest to `q`; the even one of the two when `q` lies half-way. -/
def round_half_even (q : ℚ) : ℤ :=
  if q - ⌊q⌋ < 1 / 2 then ⌊q⌋
  else if 1 / 2 < q - ⌊q⌋ then ⌊q⌋ + 1
  else if ⌊q⌋ % 2 = 0 then ⌊q⌋ else ⌊q⌋ + 1

/-- The rounding of IEEE 754 binary32, the type `float` of the source, in the
default mode (to nearest, ties to even): for `2^e ≤ |x| < 2^(e+1)` the nearest
multiple of `2^(e-23)`, which has a significand of 24 bits. The exponent range
is not modelled (no overflow, no subnormal numbers). -/
def f32_round (x : ℚ) : ℚ :=
  if x = 0 then 0
  else (round_half_even (x / 2 ^ (Int.log 2 |x| - 23)) : ℚ) * 2 ^ (Int.log 2 |x| - 23)

/-- Modelled from the spec: `fmodf_pos` lives in a utility header outside the
source; the spec describes it as the positive modulo wrapping `x` into `[0, y)`. -/
def fmodf_pos (x y : ℚ) : ℚ := x - y * (⌊x / y⌋ : ℤ)

/-- Modelled from the spec: `wrap_pm` lives in a utility header outside the
source; the spec describes it as the representative of `x` in `[-y/2, y/2)`. -/
def wrap_pm (x y : ℚ) : ℚ := x - y * (⌊x / y + 1 / 2⌋ : ℤ)

/-! ## Enumerations and error bits -/

/-- Control modes, ordered: a higher mode includes the lower stages. -/
inductive ControlMode where
  | CONTROL_MODE_VOLTAGE_CONTROL
  | CONTROL_MODE_TORQUE_CONTROL
  | CONTROL_MODE_VELOCITY_CONTROL
  | CONTROL_MODE_POSITION_CONTROL
  deriving DecidableEq, Repr

open ControlMode

/-- Numeric value of a control mode, used by the comparisons `<` and `>=`. -/
def ControlMode.toNat : ControlMode → Nat
  | CONTROL_MODE_VOLTAGE_CONTROL => 0
  | CONTROL_MODE_TORQUE_CONTROL => 1
  | CONTROL_MODE_VELOCITY_CONTROL => 2
  | CONTROL_MODE_POSITION_CONTROL => 3

instance : LT ControlMode := ⟨fun a b => a.toNat < b.toNat⟩
instance : LE ControlMode := ⟨fun a b => a.toNat ≤ b.toNat⟩
instance (a b : ControlMode) : Decidable (a < b) :=
  inferInstanceAs (Decidable (a.toNat < b.toNat))
instance (a b : ControlMode) : Decidable (a ≤ b) :=
  inferInstanceAs (Decidable (a.toNat ≤ b.toNat))

/-- Input modes handled by the `switch` of `update()`; `INPUT_MODE_OTHER` stands
for every value that reaches the `default:` label. -/
inductive InputMode where
  | INPUT_MODE_INACTIVE
  | INPUT_MODE_PASSTHROUGH
  | INPUT_MODE_VEL_RAMP
  | INPUT_MODE_TORQUE_RAMP
  | INPUT_MODE_POS_FILTER
  | INPUT_MODE_MIRROR
  | INPUT_MODE_TRAP_TRAJ
  | INPUT_MODE_OTHER (raw : Nat)
  deriving DecidableEq, Repr

open InputMode

/-- Motor types; only the comparison with `MOTOR_TYPE_ACIM` is used. -/
inductive MotorType where
  | MOTOR_TYPE_HIGH_CURRENT
  | MOTOR_TYPE_GIMBAL
  | MOTOR_TYPE_ACIM
  deriving DecidableEq, Repr

open MotorType

/-- Modelled from the spec: the error kinds of the controller are declared in a
header outside the source; the four kinds used by `update()` are taken as
distinct single bits. This one is `OVERSPEED`. -/
def ERROR_OVERSPEED : Nat := 0x01

/-- Modelled from the spec: error kind `INVALID_INPUT_MODE` (see `ERROR_OVERSPEED`). -/
def ERROR_INVALID_INPUT_MODE : Nat := 0x02

/-- Modelled from the spec: error kind `INVALID_MIRROR_AXIS` (see `ERROR_OVERSPEED`). -/
def ERROR_INVALID_MIRROR_AXIS : Nat := 0x08

/-- Modelled from the spec: error kind `INVALID_ESTIMATE` (see `ERROR_OVERSPEED`). -/
def ERROR_INVALID_ESTIMATE : Nat := 0x20

/-- Modelled from the spec: `Axis::ERROR_NONE`, the empty axis error set. -/
def Axis_ERROR_NONE : Nat := 0

/-- Modelled from the spec: the axis state "closed-loop control"; the numeric
value of the enumerator is declared outside the source. -/
def AXIS_STATE_CLOSED_LOOP_CONTROL : Nat := 8

/-! ## Data model -/

/-- The structure `config_.anticogging`. -/
structure Anticogging_t where
  calib_anticogging : Bool
  pre_calibrated : Bool
  anticogging_enabled : Bool
  start_vel : ℚ
  end_vel : ℚ
  start_gain : ℚ
  end_gain : ℚ
  end_tolerance : ℚ
  vel_ramp_rate : ℚ
  max_torque : ℚ
  cogging_map : List ℚ

/-- The structure `config_`. -/
structure Config_t where
  control_mode : ControlMode
  input_mode : InputMode
  pos_gain : ℚ
  vel_gain : ℚ
  vel_integrator_gain : ℚ
  vel_limit : ℚ
  vel_limit_tolerance : ℚ
  enable_vel_limit : Bool
  enable_overspeed_error : Bool
  enable_current_mode_vel_limit : Bool
  enable_gain_scheduling : Bool
  gain_scheduling_width : ℚ
  vel_ramp_rate : ℚ
  torque_ramp_rate : ℚ
  inertia : ℚ
  input_filter_bandwidth : ℚ
  circular_setpoints : Bool
  circular_setpoint_range : ℚ
  axis_to_mirror : Nat
  mirror_ratio : ℚ
  anticogging : Anticogging_t

/-- One sample `{Y, Yd, Ydd}` of the trapezoidal profile. -/
structure Step_t where
  Y : ℚ
  Yd : ℚ
  Ydd : ℚ

/-- The planner object `axis_->trap_traj_`: its time `t_`, final time `Tf_`, the
three limits of its configuration and the profile planned last (`eval`). -/
structure TrapezoidalTrajectory where
  t_ : ℚ
  Tf_ : ℚ
  vel_limit : ℚ
  accel_limit : ℚ
  decel_limit : ℚ
  eval : ℚ → Step_t

/-- The controller object: configuration, runtime state, learner state, and the
planner it drives. -/
structure Controller where
  config_ : Config_t
  error_ : Nat
  input_pos_ : ℚ
  input_vel_ : ℚ
  input_torque_ : ℚ
  input_pos_updated_ : Bool
  pos_setpoint_ : ℚ
  vel_setpoint_ : ℚ
  torque_setpoint_ : ℚ
  vel_integrator_torque_ : ℚ
  torque_output_ : ℚ
  trajectory_done_ : Bool
  input_filter_kp_ : ℚ
  input_filter_ki_ : ℚ
  anticogging_valid_ : Bool
  anticogging_start_pos_ : ℚ
  old_vel_integrator_gain_ : ℚ
  anticogging_integrator_gain_ : ℚ
  anticogging_bandwidth_ : ℚ
  anticogging_average_error_ : ℚ
  anticogging_turn_count_ : ℤ
  anticogging_vel_error_filtered_ : ℚ
  anticogging_error_max_ : Option ℚ
  trap_traj_ : TrapezoidalTrajectory

/-- Values the source takes from other translation units, and the rounding
`fl` of its float arithmetic: `fl x` is the float stored for an operation whose
exact result is `x`. -/
structure Env where
  current_meas_period : ℚ
  current_meas_hz : ℚ
  fl : ℚ → ℚ
  AXIS_COUNT : Nat
  size_t_bits : Nat
  pdf : ℚ → ℚ → ℚ
  interpolate : ℚ → List ℚ → ℚ
  planTrapezoidal : ℚ → ℚ → ℚ → ℚ → ℚ → ℚ → TrapezoidalTrajectory → TrapezoidalTrajectory

/-- What one tick reads from outside the controller. -/
structure TickInput where
  pos_estimate_linear : Option ℚ
  pos_estimate_circular : Option ℚ
  pos_wrap : Option ℚ
  vel_estimate : Option ℚ
  pos_cpr : Option ℚ
  other_pos : Nat → Option ℚ
  other_vel : Nat → Option ℚ
  axis_error : Nat
  axis_current_state : Nat
  motor_type : MotorType
  rotor_flux : ℚ
  acim_gain_min_flux : ℚ
  max_available_torque : ℚ

/-! ## Small methods -/

/-- The method `Controller::reset`. -/
def Controller.reset (c : Controller) : Controller :=
  { c with pos_setpoint_ := 0, vel_setpoint_ := 0, vel_integrator_torque_ := 0,
           torque_setpoint_ := 0 }

/-- The method `Controller::set_error`: `error_ |= error`. -/
def Controller.set_error (c : Controller) (error : Nat) : Controller :=
  { c with error_ := c.error_ ||| error }

/-- The method `Controller::update_filter_gains`. -/
def Controller.update_filter_gains (env : Env) (c : Controller) : Controller :=
  let bandwidth := fmin c.config_.input_filter_bandwidth (1 / 4 * env.current_meas_hz)
  let ki := 2 * bandwidth
  { c with input_filter_ki_ := ki, input_filter_kp_ := 1 / 4 * (ki * ki) }

/-- The method `Controller::move_to_pos`. -/
def Controller.move_to_pos (env : Env) (c : Controller) (goal_point : ℚ) : Controller :=
  let planned := env.planTrapezoidal goal_point c.pos_setpoint_ c.vel_setpoint_
    c.trap_traj_.vel_limit c.trap_traj_.accel_limit c.trap_traj_.decel_limit c.trap_traj_
  { c with trap_traj_ := { planned with t_ := 0 }, trajectory_done_ := false }

/-- The method `Controller::start_anticogging_calibration`. The encoder reading
`*axis_->encoder_.pos_estimate_.get_current()` is dereferenced without a
presence check in the source; `pos_estimate` is its value. -/
def Controller.start_anticogging_calibration (c : Controller)
    (axis_error axis_current_state : Nat) (pos_estimate : ℚ) : Controller :=
  if axis_error = Axis_ERROR_NONE ∧ axis_current_state = AXIS_STATE_CLOSED_LOOP_CONTROL then
    { c with
      input_vel_ := c.config_.anticogging.start_vel
      anticogging_start_pos_ := pos_estimate
      old_vel_integrator_gain_ := c.config_.vel_integrator_gain
      anticogging_integrator_gain_ :=
        c.config_.anticogging.start_gain * c.config_.vel_integrator_gain
      anticogging_bandwidth_ := c.config_.anticogging.start_vel / (4 / 5)
      anticogging_average_error_ := 0
      anticogging_turn_count_ := 0
      anticogging_vel_error_filtered_ := 0
      anticogging_error_max_ := none
      config_ := { c.config_ with
        vel_integrator_gain := 0
        anticogging := { c.config_.anticogging with calib_anticogging := true } } }
  else c

/-- The method `Controller::stop_anticogging_calibration`. -/
def Controller.stop_anticogging_calibration (c : Controller) : Controller :=
  { c with
    input_vel_ := 0
    config_ := { c.config_ with
      vel_integrator_gain := c.old_vel_integrator_gain_
      anticogging := { c.config_.anticogging with calib_anticogging := false } } }

/-- The method `Controller::anticogging_remove_bias`. -/
def Controller.anticogging_remove_bias (c : Controller) : Controller :=
  let cogmap := c.config_.anticogging.cogging_map
  let mean := cogmap.foldl (· + ·) 0 / (cogmap.length : ℚ)
  { c with config_ := { c.config_ with
      anticogging := { c.config_.anticogging with
        cogging_map := cogmap.map (fun val => val - mean) } } }

/-- The method `Controller::anticogging_get_val`. -/
def Controller.anticogging_get_val (c : Controller) (index : Nat) : ℚ :=
  if index < c.config_.anticogging.cogging_map.length then
    c.config_.anticogging.cogging_map.getD index 0
  else 0

/-- The method `Controller::anticogging_set_val`. -/
def Controller.anticogging_set_val (c : Controller) (index : Nat) (val : ℚ) : Controller :=
  if index < c.config_.anticogging.cogging_map.length then
    { c with config_ := { c.config_ with
        anticogging := { c.config_.anticogging with
          cogging_map := c.config_.anticogging.cogging_map.set index val } } }
  else c

/-- The static function `limitVel`. -/
def limitVel (vel_limit vel_estimate vel_gain torque : ℚ) : ℚ :=
  let Tmax := (vel_limit - vel_estimate) * vel_gain
  let Tmin := (-vel_limit - vel_estimate) * vel_gain
  clamp torque Tmin Tmax

/-! ## The anti-cogging learner -/

/-- The conversion `(size_t)x` of a non-negative float, in a word of
`size_t_bits` bits (a negative `x` is undefined behaviour in the source). -/
def float_to_size_t (env : Env) (x : ℚ) : Nat :=
  (float_to_int x).toNat % 2 ^ env.size_t_bits

/-- The index expression `(idx + offset) % size` of the deposit loop: `offset`
is converted to `size_t`, the sum wraps around the word, then it is reduced. -/
def deposit_index (env : Env) (idx : Nat) (offset : ℤ) (size : Nat) : Nat :=
  (((idx : ℤ) + offset) % 2 ^ env.size_t_bits).toNat % size

/-- The comparison `range < 0.0f` where `range = error_max - end_tolerance` and
`error_max` may still be `-infinity` (`none`). -/
def range_negative (range : Option ℚ) : Bool :=
  match range with
  | none => true
  | some r => decide (r < 0)

/-- The quotient `x / range`, which is a zero when `range` is `-infinity`. -/
def div_range (x : ℚ) (range : Option ℚ) : ℚ :=
  match range with
  | none => 0
  | some r => x / r

/-- The rate-limited, decrease-only update of `input_vel_` (lines 145-153). -/
def ratchet_input_vel (Ts ramp_rate input_vel new_vel : ℚ) : ℚ :=
  if |new_vel| < |input_vel| then
    if input_vel - new_vel > ramp_rate then input_vel - ramp_rate
    else input_vel + 1 / 2 * Ts * (new_vel - input_vel)
  else input_vel

/-- The termination test of lines 104-113: `done` after a new turn, once a
turn is done, when `input_vel_` is within 10% of `end_vel` after more than 10
turns. -/
def termination_check (new_turn one_turn_done : Bool) (input_vel end_vel : ℚ)
    (turn_count : ℤ) : Bool :=
  if new_turn = true ∧ one_turn_done = true then
    if input_vel < 11 / 10 * end_vel ∧ turn_count > 10 then true else false
  else false

/-- The variables the block `if (one_turn) ... else ...` (lines 128-171) may
assign: four members of the controller and the locals `done` and `width`. -/
structure Scheduled where
  anticogging_integrator_gain_ : ℚ
  input_vel_ : ℚ
  anticogging_bandwidth_ : ℚ
  anticogging_error_max_ : Option ℚ
  done : Bool
  width : ℚ

/-- The block `if (one_turn) ... else ...` of `anticogging_calibration`
(lines 128-171), run in state `c` with the locals `done`, `width` and
`ramp_rate`. -/
def anticogging_schedule (env : Env) (c : Controller) (one_turn done : Bool)
    (width ramp_rate : ℚ) : Scheduled :=
  let ac := c.config_.anticogging
  let Ts := env.current_meas_period
  let size : ℚ := (ac.cogging_map.length : ℚ)
  if one_turn then
    let range := c.anticogging_error_max_.map (fun m => m - ac.end_tolerance)
    let done := if range_negative range then true else done
    let scale_factor :=
      clamp (div_range (c.anticogging_average_error_ - ac.end_tolerance) range) 0 1
    let integrator_gain :=
      scale_factor * ((ac.start_gain - ac.end_gain) * c.old_vel_integrator_gain_)
        + ac.end_gain * c.old_vel_integrator_gain_
    let new_vel := scale_factor * (ac.start_vel - ac.end_vel) + ac.end_vel
    let input_vel := ratchet_input_vel Ts ramp_rate c.input_vel_ new_vel
    let end_width := 5 / size
    let start_width := 16 / size
    let new_width := size * scale_factor * (start_width - end_width) + end_width
    let width := width + 1 * Ts * (new_width - width)
    let end_bandwidth := ac.end_vel / 4
    let start_bandwidth := ac.start_vel / 2
    let new_bandwidth := scale_factor * (start_bandwidth - end_bandwidth) + end_bandwidth
    { anticogging_integrator_gain_ := integrator_gain
      input_vel_ := input_vel
      anticogging_bandwidth_ :=
        c.anticogging_bandwidth_ + 1 * Ts * (new_bandwidth - c.anticogging_bandwidth_)
      anticogging_error_max_ := c.anticogging_error_max_
      done := done
      width := width }
  else
    { anticogging_integrator_gain_ := c.anticogging_integrator_gain_
      input_vel_ := c.input_vel_
      anticogging_bandwidth_ := c.anticogging_bandwidth_
      anticogging_error_max_ :=
        match c.anticogging_error_max_ with
        | none => some c.anticogging_average_error_
        | some m => some (fmax m c.anticogging_average_error_)
      done := done
      width := width }

/-- The Gaussian deposit loop of `anticogging_calibration` (lines 183-190). -/
def anticogging_deposit (env : Env) (max_torque width frac cogmap_correction : ℚ)
    (idx : Nat) (cogging_map : List ℚ) : List ℚ :=
  (List.range (float_to_int width).toNat).foldl
    (fun data i =>
      let offset : ℤ := (i : ℤ) - Int.tdiv (float_to_int width) 2
      let x := frac + (offset : ℚ)
      let sigma := width / 6
      let gaussVal := cogmap_correction * env.pdf sigma x
      let k := deposit_index env idx offset data.length
      data.set k (data.getD k 0 + clamp gaussVal (-max_torque) max_torque))
    cogging_map

/-- The body of `anticogging_calibration` while the learner runs (lines 99-197). -/
def anticogging_active_step (env : Env) (c : Controller)
    (pos_estimate pos_cpr vel_estimate vel_setpoint : ℚ) : Controller :=
  let ac := c.config_.anticogging
  let Ts := env.current_meas_period
  let vel_error := vel_setpoint - vel_estimate
  let vel_error_filtered := c.anticogging_vel_error_filtered_
    + 10 * Ts * (vel_error - c.anticogging_vel_error_filtered_)
  let new_turn : Bool :=
    decide (float_to_int (pos_estimate - c.anticogging_start_pos_) ≠ c.anticogging_turn_count_)
  let one_turn_done : Bool := decide (c.anticogging_turn_count_ > 0)
  let done := termination_check new_turn one_turn_done c.input_vel_ ac.end_vel
    c.anticogging_turn_count_
  let turn_count := float_to_int (pos_estimate - c.anticogging_start_pos_)
  let one_turn : Bool := decide (turn_count > 0)
  let average_error := c.anticogging_average_error_
    + c.anticogging_bandwidth_ * Ts
        * (|vel_error_filtered| / c.input_vel_ - c.anticogging_average_error_)
  let width := (ac.cogging_map.length : ℚ) / 64
  let ramp_rate := Ts * ac.vel_ramp_rate
  let c₁ : Controller := { c with
    anticogging_vel_error_filtered_ := vel_error_filtered
    anticogging_turn_count_ := turn_count
    anticogging_average_error_ := average_error }
  let s := anticogging_schedule env c₁ one_turn done width ramp_rate
  let idxf := pos_cpr * (ac.cogging_map.length : ℚ)
  let idx := float_to_size_t env idxf
  let frac := idxf - (idx : ℚ)
  let cogmap_correction_rate := s.anticogging_integrator_gain_ * vel_error
  let cogmap_correction := cogmap_correction_rate * Ts
  let c₃ : Controller := { c₁ with
    anticogging_integrator_gain_ := s.anticogging_integrator_gain_
    input_vel_ := s.input_vel_
    anticogging_bandwidth_ := s.anticogging_bandwidth_
    anticogging_error_max_ := s.anticogging_error_max_
    config_ := { c.config_ with
      anticogging := { ac with
        cogging_map := anticogging_deposit env ac.max_torque s.width frac cogmap_correction idx
          ac.cogging_map } } }
  if s.done then
    let c₄ := c₃.stop_anticogging_calibration
    { c₄ with config_ := { c₄.config_ with
        anticogging := { c₄.config_.anticogging with pre_calibrated := true } } }
  else c₃

/-- The method `Controller::anticogging_calibration`. -/
def Controller.anticogging_calibration (env : Env) (axis_current_state : Nat)
    (c : Controller) (pos_estimate pos_cpr vel_estimate vel_setpoint : ℚ) : Controller :=
  if c.config_.anticogging.calib_anticogging = true ∧
      c.config_.control_mode = CONTROL_MODE_VELOCITY_CONTROL ∧
      axis_current_state = AXIS_STATE_CLOSED_LOOP_CONTROL then
    anticogging_active_step env c pos_estimate pos_cpr vel_estimate vel_setpoint
  else
    let c₁ := c.stop_anticogging_calibration
    { c₁ with config_ := { c₁.config_ with
        anticogging := { c₁.config_.anticogging with pre_calibrated := false } } }

/-! ## The tick: `Controller::update` -/

/-- Lines 226-230: with circular setpoints, `input_pos_` is wrapped first. -/
def wrap_input_pos (c : Controller) : Controller :=
  if c.config_.circular_setpoints then
    { c with input_pos_ := fmodf_pos c.input_pos_ c.config_.circular_setpoint_range }
  else c

/-- Lines 287-290, `case INPUT_MODE_TRAP_TRAJ`: a pending `input_pos_updated_`
plans a new trajectory and is cleared. -/
def trap_traj_replan (env : Env) (c : Controller) : Controller :=
  if c.input_pos_updated_ then
    { c.move_to_pos env c.input_pos_ with input_pos_updated_ := false }
  else c

/-- Lines 291-308, `case INPUT_MODE_TRAP_TRAJ`: nothing once the trajectory is
done, the completion latch when `t_ > Tf_`, one planner sample otherwise. -/
def trap_traj_step (env : Env) (c : Controller) : Controller :=
  if c.trajectory_done_ then c
  else if c.trap_traj_.t_ > c.trap_traj_.Tf_ then
    { c with
      config_ := { c.config_ with control_mode := CONTROL_MODE_POSITION_CONTROL }
      pos_setpoint_ := c.input_pos_
      vel_setpoint_ := 0
      torque_setpoint_ := 0
      trajectory_done_ := true }
  else
    let traj_step := c.trap_traj_.eval c.trap_traj_.t_
    { c with
      pos_setpoint_ := traj_step.Y
      vel_setpoint_ := traj_step.Yd
      torque_setpoint_ := traj_step.Ydd * c.config_.inertia
      trap_traj_ := { c.trap_traj_ with t_ := c.trap_traj_.t_ + env.current_meas_period } }

/-- The reference shaper: the `switch (config_.input_mode)` of lines 233-315. -/
def input_stage (env : Env) (inp : TickInput) (c : Controller) : Except Nat Controller :=
  match c.config_.input_mode with
  | INPUT_MODE_INACTIVE => .ok c
  | INPUT_MODE_PASSTHROUGH =>
    .ok { c with
      pos_setpoint_ := c.input_pos_
      vel_setpoint_ := c.input_vel_
      torque_setpoint_ := c.input_torque_ }
  | INPUT_MODE_VEL_RAMP =>
    let max_step_size := |env.fl (env.current_meas_period * c.config_.vel_ramp_rate)|
    let full_step := env.fl (c.input_vel_ - c.vel_setpoint_)
    let step := clamp full_step (-max_step_size) max_step_size
    .ok { c with
      vel_setpoint_ := env.fl (c.vel_setpoint_ + step)
      torque_setpoint_ := env.fl (env.fl (step / env.current_meas_period) * c.config_.inertia) }
  | INPUT_MODE_TORQUE_RAMP =>
    let max_step_size := |env.current_meas_period * c.config_.torque_ramp_rate|
    let full_step := c.input_torque_ - c.torque_setpoint_
    let step := clamp full_step (-max_step_size) max_step_size
    .ok { c with torque_setpoint_ := c.torque_setpoint_ + step }
  | INPUT_MODE_POS_FILTER =>
    let delta_pos := c.input_pos_ - c.pos_setpoint_
    let delta_vel := c.input_vel_ - c.vel_setpoint_
    let accel := c.input_filter_kp_ * delta_pos + c.input_filter_ki_ * delta_vel
    let vel_setpoint := c.vel_setpoint_ + env.current_meas_period * accel
    .ok { c with
      torque_setpoint_ := accel * c.config_.inertia
      vel_setpoint_ := vel_setpoint
      pos_setpoint_ := c.pos_setpoint_ + env.current_meas_period * vel_setpoint }
  | INPUT_MODE_MIRROR =>
    if c.config_.axis_to_mirror < env.AXIS_COUNT then
      match inp.other_pos c.config_.axis_to_mirror, inp.other_vel c.config_.axis_to_mirror with
      | some other_pos, some other_vel =>
        .ok { c with
          pos_setpoint_ := other_pos * c.config_.mirror_ratio
          vel_setpoint_ := other_vel * c.config_.mirror_ratio }
      | _, _ => .error ERROR_INVALID_ESTIMATE
    else .error ERROR_INVALID_MIRROR_AXIS
  | INPUT_MODE_TRAP_TRAJ => .ok (trap_traj_step env (trap_traj_replan env c))
  | INPUT_MODE_OTHER _ => .error ERROR_INVALID_INPUT_MODE

/-- Lines 317-325: one learner step while `calib_anticogging` is set. -/
def calibration_stage (env : Env) (inp : TickInput) (c : Controller) : Except Nat Controller :=
  if c.config_.anticogging.calib_anticogging then
    match inp.pos_cpr, inp.vel_estimate, inp.pos_estimate_linear with
    | some pos_cpr, some vel_estimate, some pos_estimate_linear =>
      .ok (c.anticogging_calibration env inp.axis_current_state
            pos_estimate_linear pos_cpr vel_estimate c.vel_setpoint_)
    | _, _, _ => .error ERROR_INVALID_ESTIMATE
  else .ok c

/-- Lines 352-357: from `pos_err` to `vel_des` and the gain-scheduling
multiplier. With `gain_scheduling_width = 0` and `pos_err = 0` the source's
quotient is `0/0`, a NaN; the rational quotient is 0 there. -/
def position_gains (c : Controller) (pos_err : ℚ) : ℚ × ℚ :=
  let vel_des := c.vel_setpoint_ + c.config_.pos_gain * pos_err
  let abs_pos_err := |pos_err|
  if c.config_.enable_gain_scheduling = true ∧ abs_pos_err ≤ c.config_.gain_scheduling_width then
    (vel_des, abs_pos_err / c.config_.gain_scheduling_width)
  else (vel_des, 1)

/-- The position stage, lines 329-358. It returns the state, `vel_des` and
`gain_scheduling_multiplier`. -/
def position_stage (inp : TickInput) (c : Controller) : Except Nat (Controller × ℚ × ℚ) :=
  if c.config_.control_mode ≥ CONTROL_MODE_POSITION_CONTROL then
    if c.config_.circular_setpoints then
      match inp.pos_estimate_circular, inp.pos_wrap with
      | some pos_estimate_circular, some pos_wrap =>
        let c₁ : Controller := { c with pos_setpoint_ := fmodf_pos c.pos_setpoint_ pos_wrap }
        let pos_err := wrap_pm (c₁.pos_setpoint_ - pos_estimate_circular) pos_wrap
        .ok (c₁, position_gains c₁ pos_err)
      | _, _ => .error ERROR_INVALID_ESTIMATE
    else
      match inp.pos_estimate_linear with
      | some pos_estimate_linear =>
        .ok (c, position_gains c (c.pos_setpoint_ - pos_estimate_linear))
      | none => .error ERROR_INVALID_ESTIMATE
  else .ok (c, c.vel_setpoint_, 1)

/-- Lines 360-364: velocity limiting of `vel_des`. -/
def velocity_limit (c : Controller) (vel_des : ℚ) : ℚ :=
  let vel_lim := c.config_.vel_limit
  if c.config_.enable_vel_limit then clamp vel_des (-vel_lim) vel_lim else vel_des

/-- Lines 366-376: the overspeed check. -/
def overspeed_check (inp : TickInput) (c : Controller) : Except Nat Unit :=
  if c.config_.enable_overspeed_error then
    match inp.vel_estimate with
    | none => .error ERROR_INVALID_ESTIMATE
    | some vel_estimate =>
      if |vel_estimate| > c.config_.vel_limit_tolerance * c.config_.vel_limit then
        .error ERROR_OVERSPEED
      else .ok ()
  else .ok ()

/-- Lines 380-391: `vel_gain` and `vel_integrator_gain`, rescaled for ACIM motors. -/
def acim_gains (inp : TickInput) (c : Controller) : ℚ × ℚ :=
  if inp.motor_type = MOTOR_TYPE_ACIM then
    let effective_flux :=
      if |inp.rotor_flux| < inp.acim_gain_min_flux then
        copysignf inp.acim_gain_min_flux inp.rotor_flux
      else inp.rotor_flux
    (c.config_.vel_gain / effective_flux, c.config_.vel_integrator_gain / effective_flux)
  else (c.config_.vel_gain, c.config_.vel_integrator_gain)

/-- Lines 394-404: `torque_setpoint_` plus the anti-cogging feed-forward. -/
def feedforward_stage (env : Env) (inp : TickInput) (c : Controller) : Except Nat ℚ :=
  if c.config_.anticogging.calib_anticogging = true ∨
      (c.anticogging_valid_ = true ∧ c.config_.anticogging.anticogging_enabled = true) then
    match inp.pos_cpr with
    | none => .error ERROR_INVALID_ESTIMATE
    | some pos_cpr =>
      .ok (c.torque_setpoint_ + env.interpolate pos_cpr c.config_.anticogging.cogging_map)
  else .ok c.torque_setpoint_

/-- Lines 406-418: the velocity loop. It returns `torque` and `v_err`. -/
def velocity_stage (inp : TickInput) (c : Controller)
    (vel_des vel_gain gain_scheduling_multiplier torque : ℚ) : Except Nat (ℚ × ℚ) :=
  if c.config_.control_mode ≥ CONTROL_MODE_VELOCITY_CONTROL then
    match inp.vel_estimate with
    | none => .error ERROR_INVALID_ESTIMATE
    | some vel_estimate =>
      let v_err := vel_des - vel_estimate
      .ok (torque + (vel_gain * gain_scheduling_multiplier) * v_err + c.vel_integrator_torque_,
           v_err)
  else .ok (torque, 0)

/-- Lines 420-427: velocity limiting in current mode. -/
def current_mode_limit (inp : TickInput) (c : Controller) (vel_gain torque : ℚ) :
    Except Nat ℚ :=
  if c.config_.control_mode < CONTROL_MODE_VELOCITY_CONTROL ∧
      c.config_.enable_current_mode_vel_limit = true then
    match inp.vel_estimate with
    | none => .error ERROR_INVALID_ESTIMATE
    | some vel_estimate => .ok (limitVel c.config_.vel_limit vel_estimate vel_gain torque)
  else .ok torque

/-- Lines 429-439: torque limiting. It returns the limited torque and `limited`. -/
def torque_limit (torque Tlim : ℚ) : ℚ × Bool :=
  let r₁ : ℚ × Bool := if torque > Tlim then (Tlim, true) else (torque, false)
  if r₁.1 < -Tlim then (-Tlim, true) else r₁

/-- What `update()` has computed when it reaches the torque limiter (line 429):
the state, the assembled `torque`, `v_err`, the gain-scheduling multiplier and
the effective `vel_integrator_gain`. -/
structure Assembled where
  c : Controller
  torque : ℚ
  v_err : ℚ
  gain_scheduling_multiplier : ℚ
  vel_integrator_gain : ℚ

/-- Lines 217-358 of `update()`: input wrapping, reference shaper, learner step
and position stage. The result is `.error c` when the tick executed
`return false` in state `c`; otherwise the state, `vel_des` and the
gain-scheduling multiplier. -/
def setpoint_stages (env : Env) (inp : TickInput) (c₀ : Controller) :
    Except Controller (Controller × ℚ × ℚ) :=
  match input_stage env inp (wrap_input_pos c₀) with
  | .error e => .error ((wrap_input_pos c₀).set_error e)
  | .ok c₂ =>
  match calibration_stage env inp c₂ with
  | .error e => .error (c₂.set_error e)
  | .ok c₃ =>
  match position_stage inp c₃ with
  | .error e => .error (c₃.set_error e)
  | .ok r => .ok r

/-- Lines 360-427 of `update()`: velocity limit, overspeed check, ACIM gains,
feed-forward, velocity loop and current-mode velocity limit. -/
def torque_stages (env : Env) (inp : TickInput) (c₄ : Controller)
    (vel_des gain_scheduling_multiplier : ℚ) : Except Controller Assembled :=
  match overspeed_check inp c₄ with
  | .error e => .error (c₄.set_error e)
  | .ok _ =>
  match feedforward_stage env inp c₄ with
  | .error e => .error (c₄.set_error e)
  | .ok torque =>
  match velocity_stage inp c₄ (velocity_limit c₄ vel_des) (acim_gains inp c₄).1
      gain_scheduling_multiplier torque with
  | .error e => .error (c₄.set_error e)
  | .ok r =>
  match current_mode_limit inp c₄ (acim_gains inp c₄).1 r.1 with
  | .error e => .error (c₄.set_error e)
  | .ok torque =>
    .ok { c := c₄, torque := torque, v_err := r.2,
          gain_scheduling_multiplier := gain_scheduling_multiplier,
          vel_integrator_gain := (acim_gains inp c₄).2 }

/-- Lines 217-427 of `update()`: every stage before the torque limiter. -/
def assemble (env : Env) (inp : TickInput) (c₀ : Controller) : Except Controller Assembled :=
  match setpoint_stages env inp c₀ with
  | .error c' => .error c'
  | .ok r => torque_stages env inp r.1 r.2.1 r.2.2

/-- Lines 429-461 of `update()`: torque limiting, integrator anti-windup, the
write of `torque_output_` and the clearing of `ERROR_INVALID_ESTIMATE`. -/
def finish (env : Env) (inp : TickInput) (a : Assembled) : Controller :=
  let lim := torque_limit a.torque inp.max_available_torque
  let vel_integrator_torque :=
    if a.c.config_.control_mode < CONTROL_MODE_VELOCITY_CONTROL then 0
    else if lim.2 then a.c.vel_integrator_torque_ * (99 / 100)
    else a.c.vel_integrator_torque_
      + ((a.vel_integrator_gain * a.gain_scheduling_multiplier) * env.current_meas_period)
          * a.v_err
  { a.c with
    vel_integrator_torque_ := vel_integrator_torque
    torque_output_ := lim.1
    error_ := Nat.ldiff a.c.error_ ERROR_INVALID_ESTIMATE }

/-- The method `Controller::update`: the state after the tick and the returned
`bool`. -/
def Controller.update (env : Env) (inp : TickInput) (c : Controller) : Controller × Bool :=
  match assemble env inp c with
  | .error c' => (c', false)
  | .ok a => (finish env inp a, true)

/-! ## Operator writes and runs of ticks -/

/-- The operator's write `config_.anticogging.calib_anticogging = false`, done
between two ticks. -/
def clear_calib_anticogging (c : Controller) : Controller :=
  { c with config_ := { c.config_ with
      anticogging := { c.config_.anticogging with calib_anticogging := false } } }

/-- Consecutive ticks: the state after `update()` has run once for each element
of the list of readings, in order. -/
def run_ticks (env : Env) : List TickInput → Controller → Controller
  | [], c => c
  | inp :: rest, c => run_ticks env rest (c.update env inp).1

/-- A saturated tick in velocity or position mode: `update()` returns ok, the
control mode at exit is at least `VELOCITY`, and the torque assembled before
the limiter lies outside `[-Tmax, Tmax]`. -/
def saturated_tick (env : Env) (inp : TickInput) (c : Controller) : Prop :=
  (c.update env inp).2 = true ∧
  CONTROL_MODE_VELOCITY_CONTROL ≤ (c.update env inp).1.config_.control_mode ∧
  ∃ a, assemble env inp c = .ok a ∧
    (a.torque > inp.max_available_torque ∨ a.torque < -inp.max_available_torque)

/-- Consecutive saturated ticks: every tick of the run is a saturated tick. -/
def saturated_run (env : Env) : List TickInput → Controller → Prop
  | [], _ => True
  | inp :: rest, c => saturated_tick env inp c ∧ saturated_run env rest (c.update env inp).1

/-! ## Auxiliary predicates -/

/-- The fields no stage before the torque limiter writes: the error set (apart
from `set_error` on failure), `torque_output_` and `vel_integrator_torque_`. -/
def Kept (c c' : Controller) : Prop :=
  c'.error_ = c.error_ ∧ c'.torque_output_ = c.torque_output_ ∧
    c'.vel_integrator_torque_ = c.vel_integrator_torque_

/-- The four error kinds a failing tick can report. -/
def TickError (e : Nat) : Prop :=
  e = ERROR_INVALID_ESTIMATE ∨ e = ERROR_INVALID_INPUT_MODE ∨
    e = ERROR_INVALID_MIRROR_AXIS ∨ e = ERROR_OVERSPEED

/-! ## Scenario fixtures

The concrete scenarios of the specification use `Ts = 1/8000`, `Tmax = 10`,
`inertia = 1e-3` and `vel_ramp_rate = 100`. -/

/-- The environment of the scenarios: 8 kHz tick, exact arithmetic, two axes,
32-bit `size_t`. The external `pdf`, `interpolate` and planner are rational
stand-ins. -/
def scenario_env : Env where
  current_meas_period := 1 / 8000
  current_meas_hz := 8000
  fl := fun x => x
  AXIS_COUNT := 2
  size_t_bits := 32
  pdf := fun sigma x => 1 / (sigma * (1 + x * x))
  interpolate := fun _ cogging_map => cogging_map.headD 0
  planTrapezoidal := fun goal _ _ _ _ _ planner =>
    { planner with Tf_ := 1, eval := fun _ => { Y := goal, Yd := 0, Ydd := 0 } }

/-- The scenario environment in single precision: `fl` is the binary32
rounding and the sampling period is `0.000125f = 8589935 / 2^36`, the float
nearest to `1/8000`. -/
def scenario_f32 : Env :=
  { scenario_env with fl := f32_round, current_meas_period := 8589935 / 68719476736 }

/-- Anti-cogging configuration of the scenarios: learner off, an 8-entry map. -/
def scenario_anticogging : Anticogging_t where
  calib_anticogging := false
  pre_calibrated := false
  anticogging_enabled := false
  start_vel := 1
  end_vel := 1 / 4
  start_gain := 25
  end_gain := 5
  end_tolerance := 1 / 100
  vel_ramp_rate := 1
  max_torque := 1
  cogging_map := [0, 0, 0, 0, 0, 0, 0, 0]

/-- Configuration of scenario 1: `PASSTHROUGH` in torque mode, every limit off. -/
def scenario_config : Config_t where
  control_mode := CONTROL_MODE_TORQUE_CONTROL
  input_mode := INPUT_MODE_PASSTHROUGH
  pos_gain := 10
  vel_gain := 1
  vel_integrator_gain := 0
  vel_limit := 10
  vel_limit_tolerance := 6 / 5
  enable_vel_limit := false
  enable_overspeed_error := false
  enable_current_mode_vel_limit := false
  enable_gain_scheduling := false
  gain_scheduling_width := 1
  vel_ramp_rate := 100
  torque_ramp_rate := 1
  inertia := 1 / 1000
  input_filter_bandwidth := 2
  circular_setpoints := false
  circular_setpoint_range := 1
  axis_to_mirror := 1
  mirror_ratio := 1
  anticogging := scenario_anticogging

/-- A planner at rest: time 0, final time 0, the constant zero profile. -/
def scenario_planner : TrapezoidalTrajectory where
  t_ := 0
  Tf_ := 0
  vel_limit := 2
  accel_limit := 1 / 2
  decel_limit := 1 / 2
  eval := fun _ => { Y := 0, Yd := 0, Ydd := 0 }

/-- Controller state of scenario 1: error-free, at rest, `input_torque = 2`. -/
def scenario_controller : Controller where
  config_ := scenario_config
  error_ := 0
  input_pos_ := 0
  input_vel_ := 0
  input_torque_ := 2
  input_pos_updated_ := false
  pos_setpoint_ := 0
  vel_setpoint_ := 0
  torque_setpoint_ := 0
  vel_integrator_torque_ := 0
  torque_output_ := 0
  trajectory_done_ := true
  input_filter_kp_ := 4
  input_filter_ki_ := 4
  anticogging_valid_ := false
  anticogging_start_pos_ := 0
  old_vel_integrator_gain_ := 0
  anticogging_integrator_gain_ := 0
  anticogging_bandwidth_ := 0
  anticogging_average_error_ := 0
  anticogging_turn_count_ := 0
  anticogging_vel_error_filtered_ := 0
  anticogging_error_max_ := none
  trap_traj_ := scenario_planner

/-- Readings of the scenarios: every estimator present and at zero, the axis
error-free in closed loop, a non-ACIM motor with `Tmax = 10`. -/
def scenario_input : TickInput where
  pos_estimate_linear := some 0
  pos_estimate_circular := some 0
  pos_wrap := some 1
  vel_estimate := some 0
  pos_cpr := some 0
  other_pos := fun _ => some 0
  other_vel := fun _ => some 0
  axis_error := 0
  axis_current_state := AXIS_STATE_CLOSED_LOOP_CONTROL
  motor_type := MOTOR_TYPE_HIGH_CURRENT
  rotor_flux := 0
  acim_gain_min_flux := 10
  max_available_torque := 10

/-- Controller state of scenario 5 (anti-windup): velocity mode, `PASSTHROUGH`
with `input_vel = 100`, integrator `x`; the setpoints and the last output are
`vs`, `ts` and `out`. -/
def scenario_windup (x vs ts out : ℚ) : Controller :=
  { scenario_controller with
    input_vel_ := 100
    vel_setpoint_ := vs
    torque_setpoint_ := ts
    torque_output_ := out
    vel_integrator_torque_ := x
    config_ := { scenario_config with control_mode := CONTROL_MODE_VELOCITY_CONTROL } }

/-- Controller state of scenario 6 (trajectory completion): `TRAP_TRAJ` input
mode, trajectory not done, planner time `t = 1` past the final time `Tf = 1/2`,
a goal `input_pos = 3` and setpoints still on the move. -/
def scenario_trajectory : Controller :=
  { scenario_controller with
    input_pos_ := 3
    pos_setpoint_ := 29 / 10
    vel_setpoint_ := 1 / 5
    torque_setpoint_ := 1 / 100
    trajectory_done_ := false
    trap_traj_ := { scenario_planner with t_ := 1, Tf_ := 1 / 2 }
    config_ := { scenario_config with input_mode := INPUT_MODE_TRAP_TRAJ } }

/-- Controller state of scenario 4 (position mode with gain scheduling):
`PASSTHROUGH` with `input_pos = 1/4` against a position estimate 0, `pos_gain =
10`, `gain_scheduling_width = 1`, `vel_gain = 1`, no integrator gain. -/
def scenario_position : Controller :=
  { scenario_controller with
    input_pos_ := 1 / 4
    input_torque_ := 0
    config_ := { scenario_config with
      control_mode := CONTROL_MODE_POSITION_CONTROL
      enable_gain_scheduling := true } }

/-- Controller state of scenario 2 (`VEL_RAMP` single tick): velocity mode,
`vel_setpoint = 0`, `vel_gain = 0.1`, no integrator gain, ramping toward
`input_vel`. -/
def scenario_ramp (input_vel : ℚ) : Controller :=
  { scenario_controller with
    input_vel_ := input_vel
    config_ := { scenario_config with
      control_mode := CONTROL_MODE_VELOCITY_CONTROL
      input_mode := INPUT_MODE_VEL_RAMP
      vel_gain := 1 / 10 } }

/-- Scenario 2 in the middle of a ramp: `vel_setpoint` already set. -/
def scenario_ramp_from (vel_setpoint input_vel : ℚ) : Controller :=
  { scenario_ramp input_vel with vel_setpoint_ := vel_setpoint }

/-- Controller state for `MIRROR` mode: scenario 1 with `input_mode = MIRROR`,
mirroring axis `axis` with `mirror_ratio = 2`. -/
def scenario_mirror (axis : Nat) : Controller :=
  { scenario_controller with
    config_ := { scenario_config with
      input_mode := INPUT_MODE_MIRROR
      axis_to_mirror := axis
      mirror_ratio := 2 } }

/-- Controller state in the first turn of a calibration: learner running in
velocity mode with `input_vel = 1`, learner gain 10, operator gain 3 saved, and
the cogging map `cogging_map`. -/
def scenario_learning (cogging_map : List ℚ) : Controller :=
  { scenario_controller with
    input_vel_ := 1
    vel_setpoint_ := 1
    old_vel_integrator_gain_ := 3
    anticogging_integrator_gain_ := 10
    anticogging_bandwidth_ := 5 / 4
    config_ := { scenario_config with
      control_mode := CONTROL_MODE_VELOCITY_CONTROL
      anticogging := { scenario_anticogging with
        calib_anticogging := true
        cogging_map := cogging_map } } }

/-- A controller whose operator has tuned `vel_integrator_gain = 2`; the
learner's `start_gain` is 25. -/
def scenario_operator : Controller :=
  { scenario_controller with config_ := { scenario_config with vel_integrator_gain := 2 } }

/-! ## Evaluation lemmas -/

@[simp] theorem ControlMode.le_iff (a b : ControlMode) : a ≤ b ↔ a.toNat ≤ b.toNat := Iff.rfl

@[simp] theorem ControlMode.lt_iff (a b : ControlMode) : a < b ↔ a.toNat < b.toNat := Iff.rfl

/-! ## Frame lemmas: what the stages of a tick leave alone -/

theorem Kept.refl (c : Controller) : Kept c c := ⟨rfl, rfl, rfl⟩

theorem Kept.trans {a b c : Controller} (h₁ : Kept a b) (h₂ : Kept b c) : Kept a c :=
  ⟨h₂.1.trans h₁.1, h₂.2.1.trans h₁.2.1, h₂.2.2.trans h₁.2.2⟩

/-- The learner step replaces only the learner's own members, `input_vel_`,
and in the configuration `vel_integrator_gain` and the anti-cogging block. -/
theorem calibration_writes (env : Env) (st : Nat) (c : Controller) (p q v vs : ℚ) :
    c.anticogging_calibration env st p q v vs =
      { c with
        config_ := { c.config_ with
          vel_integrator_gain :=
            (c.anticogging_calibration env st p q v vs).config_.vel_integrator_gain
          anticogging := (c.anticogging_calibration env st p q v vs).config_.anticogging }
        input_vel_ := (c.anticogging_calibration env st p q v vs).input_vel_
        anticogging_integrator_gain_ :=
          (c.anticogging_calibration env st p q v vs).anticogging_integrator_gain_
        anticogging_bandwidth_ :=
          (c.anticogging_calibration env st p q v vs).anticogging_bandwidth_
        anticogging_average_error_ :=
          (c.anticogging_calibration env st p q v vs).anticogging_average_error_
        anticogging_turn_count_ :=
          (c.anticogging_calibration env st p q v vs).anticogging_turn_count_
        anticogging_vel_error_filtered_ :=
          (c.anticogging_calibration env st p q v vs).anticogging_vel_error_filtered_
        anticogging_error_max_ :=
          (c.anticogging_calibration env st p q v vs).anticogging_error_max_ } := by
  unfold Controller.anticogging_calibration
  by_cases h : c.config_.anticogging.calib_anticogging = true ∧
      c.config_.control_mode = CONTROL_MODE_VELOCITY_CONTROL ∧
      st = AXIS_STATE_CLOSED_LOOP_CONTROL
  · rw [if_pos h]
    unfold anticogging_active_step
    dsimp only
    generalize anticogging_schedule _ _ _ _ _ _ = s
    cases hd : s.done
    · rfl
    · rfl
  · rw [if_neg h]
    rfl

theorem calibration_frame (env : Env) (st : Nat) (c : Controller) (p q v vs : ℚ) :
    (c.anticogging_calibration env st p q v vs).error_ = c.error_ ∧
    (c.anticogging_calibration env st p q v vs).torque_output_ = c.torque_output_ ∧
    (c.anticogging_calibration env st p q v vs).vel_integrator_torque_ =
      c.vel_integrator_torque_ := by
  rw [calibration_writes]
  exact ⟨rfl, rfl, rfl⟩

theorem wrap_input_pos_writes (c : Controller) :
    wrap_input_pos c = { c with input_pos_ := (wrap_input_pos c).input_pos_ } := by
  unfold wrap_input_pos
  split_ifs <;> rfl

theorem trap_traj_replan_writes (env : Env) (c : Controller) :
    trap_traj_replan env c =
      { c with
        trajectory_done_ := (trap_traj_replan env c).trajectory_done_
        input_pos_updated_ := (trap_traj_replan env c).input_pos_updated_
        trap_traj_ := (trap_traj_replan env c).trap_traj_ } := by
  unfold trap_traj_replan
  split_ifs <;> rfl

theorem trap_traj_step_writes (env : Env) (c : Controller) :
    trap_traj_step env c =
      { c with
        config_ := { c.config_ with
          control_mode := (trap_traj_step env c).config_.control_mode }
        pos_setpoint_ := (trap_traj_step env c).pos_setpoint_
        vel_setpoint_ := (trap_traj_step env c).vel_setpoint_
        torque_setpoint_ := (trap_traj_step env c).torque_setpoint_
        trajectory_done_ := (trap_traj_step env c).trajectory_done_
        trap_traj_ := (trap_traj_step env c).trap_traj_ } := by
  unfold trap_traj_step
  split_ifs <;> rfl

/-- The reference shaper replaces only the three setpoints, the control mode
and the trajectory members. -/
theorem input_stage_writes {env : Env} {inp : TickInput} {c c₂ : Controller}
    (h : input_stage env inp c = .ok c₂) :
    c₂ = { c with
      config_ := { c.config_ with control_mode := c₂.config_.control_mode }
      pos_setpoint_ := c₂.pos_setpoint_
      vel_setpoint_ := c₂.vel_setpoint_
      torque_setpoint_ := c₂.torque_setpoint_
      trajectory_done_ := c₂.trajectory_done_
      input_pos_updated_ := c₂.input_pos_updated_
      trap_traj_ := c₂.trap_traj_ } := by
  unfold input_stage at h
  split at h
  case h_6 =>
    split_ifs at h
    split at h
    · injection h with h; subst h; rfl
    · cases h
  case h_7 =>
    injection h with h; subst h
    rw [trap_traj_step_writes, trap_traj_replan_writes]
  case h_8 => cases h
  all_goals (injection h with h; subst h; rfl)

/-- The learner stage replaces only what the learner step replaces. -/
theorem calibration_stage_writes {env : Env} {inp : TickInput} {c c₃ : Controller}
    (h : calibration_stage env inp c = .ok c₃) :
    c₃ = { c with
      config_ := { c.config_ with
        vel_integrator_gain := c₃.config_.vel_integrator_gain
        anticogging := c₃.config_.anticogging }
      input_vel_ := c₃.input_vel_
      anticogging_integrator_gain_ := c₃.anticogging_integrator_gain_
      anticogging_bandwidth_ := c₃.anticogging_bandwidth_
      anticogging_average_error_ := c₃.anticogging_average_error_
      anticogging_turn_count_ := c₃.anticogging_turn_count_
      anticogging_vel_error_filtered_ := c₃.anticogging_vel_error_filtered_
      anticogging_error_max_ := c₃.anticogging_error_max_ } := by
  unfold calibration_stage at h
  split_ifs at h
  · split at h
    · injection h with h; subst h
      exact calibration_writes ..
    · cases h
  · injection h with h; subst h; rfl

/-- The position stage replaces only `pos_setpoint_`. -/
theorem position_stage_writes {inp : TickInput} {c : Controller} {r : Controller × ℚ × ℚ}
    (h : position_stage inp c = .ok r) :
    r.1 = { c with pos_setpoint_ := r.1.pos_setpoint_ } := by
  unfold position_stage at h
  split_ifs at h
  · split at h
    · injection h with h; subst h; rfl
    · cases h
  · split at h
    · injection h with h; subst h; rfl
    · cases h
  · injection h with h; subst h; rfl

theorem wrap_input_pos_kept (c : Controller) : Kept c (wrap_input_pos c) := by
  unfold wrap_input_pos Kept
  split_ifs <;> simp

theorem trap_traj_replan_kept (env : Env) (c : Controller) :
    Kept c (trap_traj_replan env c) := by
  unfold trap_traj_replan Kept
  split_ifs <;> simp [Controller.move_to_pos]

theorem trap_traj_step_kept (env : Env) (c : Controller) :
    Kept c (trap_traj_step env c) := by
  unfold trap_traj_step Kept
  split_ifs <;> simp

theorem input_stage_kept {env : Env} {inp : TickInput} {c c' : Controller}
    (h : input_stage env inp c = .ok c') : Kept c c' := by
  unfold input_stage at h
  split at h
  case h_6 =>
    split_ifs at h
    split at h
    · injection h with h; subst h; exact ⟨rfl, rfl, rfl⟩
    · cases h
  case h_7 =>
    injection h with h; subst h
    exact (trap_traj_replan_kept env c).trans (trap_traj_step_kept env _)
  case h_8 => cases h
  all_goals (injection h with h; subst h; exact ⟨rfl, rfl, rfl⟩)

theorem input_stage_error {env : Env} {inp : TickInput} {c : Controller} {e : Nat}
    (h : input_stage env inp c = .error e) : TickError e := by
  unfold input_stage at h
  unfold TickError
  split at h
  case h_6 =>
    split_ifs at h
    · split at h
      · cases h
      · injection h with h; subst h; simp
    · injection h with h; subst h; simp
  case h_8 => injection h with h; subst h; simp
  all_goals cases h

theorem calibration_stage_kept {env : Env} {inp : TickInput} {c c' : Controller}
    (h : calibration_stage env inp c = .ok c') : Kept c c' := by
  unfold calibration_stage at h
  split_ifs at h
  · split at h
    · injection h with h; subst h
      exact calibration_frame ..
    · cases h
  · injection h with h; subst h; exact Kept.refl c

theorem calibration_stage_error {env : Env} {inp : TickInput} {c : Controller} {e : Nat}
    (h : calibration_stage env inp c = .error e) : e = ERROR_INVALID_ESTIMATE := by
  unfold calibration_stage at h
  split_ifs at h
  split at h
  · cases h
  · injection h with h; exact h.symm

theorem position_stage_kept {inp : TickInput} {c : Controller} {r : Controller × ℚ × ℚ}
    (h : position_stage inp c = .ok r) :
    Kept c r.1 ∧ r.1.config_ = c.config_ ∧ r.1.vel_setpoint_ = c.vel_setpoint_ ∧
      r.1.torque_setpoint_ = c.torque_setpoint_ := by
  unfold position_stage at h
  split_ifs at h
  · split at h
    · injection h with h; subst h
      exact ⟨⟨rfl, rfl, rfl⟩, rfl, rfl, rfl⟩
    · cases h
  · split at h
    · injection h with h; subst h
      exact ⟨⟨rfl, rfl, rfl⟩, rfl, rfl, rfl⟩
    · cases h
  · injection h with h; subst h
    exact ⟨⟨rfl, rfl, rfl⟩, rfl, rfl, rfl⟩

theorem position_stage_error {inp : TickInput} {c : Controller} {e : Nat}
    (h : position_stage inp c = .error e) : e = ERROR_INVALID_ESTIMATE := by
  unfold position_stage at h
  split_ifs at h
  · split at h
    · cases h
    · injection h with h; exact h.symm
  · split at h
    · cases h
    · injection h with h; exact h.symm

theorem overspeed_check_error {inp : TickInput} {c : Controller} {e : Nat}
    (h : overspeed_check inp c = .error e) :
    e = ERROR_INVALID_ESTIMATE ∨ e = ERROR_OVERSPEED := by
  unfold overspeed_check at h
  split_ifs at h
  split at h
  · injection h with h; exact Or.inl h.symm
  · split_ifs at h
    injection h with h; exact Or.inr h.symm

theorem feedforward_stage_error {env : Env} {inp : TickInput} {c : Controller} {e : Nat}
    (h : feedforward_stage env inp c = .error e) : e = ERROR_INVALID_ESTIMATE := by
  unfold feedforward_stage at h
  split_ifs at h
  split at h
  · injection h with h; exact h.symm
  · cases h

theorem velocity_stage_error {inp : TickInput} {c : Controller} {vd vg gs t : ℚ} {e : Nat}
    (h : velocity_stage inp c vd vg gs t = .error e) : e = ERROR_INVALID_ESTIMATE := by
  unfold velocity_stage at h
  split_ifs at h
  split at h
  · injection h with h; exact h.symm
  · cases h

theorem current_mode_limit_error {inp : TickInput} {c : Controller} {vg t : ℚ} {e : Nat}
    (h : current_mode_limit inp c vg t = .error e) : e = ERROR_INVALID_ESTIMATE := by
  unfold current_mode_limit at h
  split_ifs at h
  split at h
  · injection h with h; exact h.symm
  · cases h

theorem setpoint_stages_error {env : Env} {inp : TickInput} {c c' : Controller}
    (h : setpoint_stages env inp c = .error c') :
    ∃ c₁ e, Kept c c₁ ∧ TickError e ∧ c' = c₁.set_error e := by
  unfold setpoint_stages at h
  have k₁ := wrap_input_pos_kept c
  split at h
  · rename_i e he
    injection h with h
    exact ⟨_, e, k₁, input_stage_error he, h.symm⟩
  rename_i c₂ h₂
  have k₂ := k₁.trans (input_stage_kept h₂)
  split at h
  · rename_i e he
    injection h with h
    exact ⟨_, e, k₂, Or.inl (calibration_stage_error he), h.symm⟩
  rename_i c₃ h₃
  have k₃ := k₂.trans (calibration_stage_kept h₃)
  split at h
  · rename_i e he
    injection h with h
    exact ⟨_, e, k₃, Or.inl (position_stage_error he), h.symm⟩
  · cases h

theorem setpoint_stages_ok {env : Env} {inp : TickInput} {c : Controller}
    {r : Controller × ℚ × ℚ} (h : setpoint_stages env inp c = .ok r) : Kept c r.1 := by
  unfold setpoint_stages at h
  have k₁ := wrap_input_pos_kept c
  split at h
  · cases h
  rename_i c₂ h₂
  have k₂ := k₁.trans (input_stage_kept h₂)
  split at h
  · cases h
  rename_i c₃ h₃
  have k₃ := k₂.trans (calibration_stage_kept h₃)
  split at h
  · cases h
  rename_i r' h₄
  injection h with h; subst h
  exact k₃.trans (position_stage_kept h₄).1

theorem torque_stages_error {env : Env} {inp : TickInput} {c c' : Controller} {vd gs : ℚ}
    (h : torque_stages env inp c vd gs = .error c') :
    ∃ e, TickError e ∧ c' = c.set_error e := by
  unfold torque_stages at h
  split at h
  · rename_i e he
    injection h with h
    refine ⟨e, ?_, h.symm⟩
    rcases overspeed_check_error he with h' | h'
    · exact Or.inl h'
    · exact Or.inr (Or.inr (Or.inr h'))
  split at h
  · rename_i e he
    injection h with h
    exact ⟨e, Or.inl (feedforward_stage_error he), h.symm⟩
  split at h
  · rename_i e he
    injection h with h
    exact ⟨e, Or.inl (velocity_stage_error he), h.symm⟩
  split at h
  · rename_i e he
    injection h with h
    exact ⟨e, Or.inl (current_mode_limit_error he), h.symm⟩
  · cases h

theorem torque_stages_ok {env : Env} {inp : TickInput} {c : Controller} {vd gs : ℚ}
    {a : Assembled} (h : torque_stages env inp c vd gs = .ok a) : a.c = c := by
  unfold torque_stages at h
  split at h
  · cases h
  split at h
  · cases h
  split at h
  · cases h
  split at h
  · cases h
  · injection h with h; subst h; rfl

/-- A tick that fails has run `set_error` with one of the four error kinds on a
state whose error set, torque output and integrator are those of the pre-state. -/
theorem assemble_error {env : Env} {inp : TickInput} {c c' : Controller}
    (h : assemble env inp c = .error c') :
    ∃ c₁ e, Kept c c₁ ∧ TickError e ∧ c' = c₁.set_error e := by
  unfold assemble at h
  split at h
  · rename_i c'' h₁
    injection h with h; subst h
    exact setpoint_stages_error h₁
  · rename_i r h₁
    obtain ⟨e, he, hc⟩ := torque_stages_error h
    exact ⟨r.1, e, setpoint_stages_ok h₁, he, hc⟩

/-- A tick that reaches the torque limiter has not touched the error set, the
torque output or the integrator. -/
theorem assemble_ok {env : Env} {inp : TickInput} {c : Controller} {a : Assembled}
    (h : assemble env inp c = .ok a) : Kept c a.c := by
  unfold assemble at h
  split at h
  · cases h
  · rename_i r h₁
    rw [torque_stages_ok h]
    exact setpoint_stages_ok h₁

/-! ## The two outcomes of a tick -/

theorem update_fail {env : Env} {inp : TickInput} {c : Controller}
    (h : (c.update env inp).2 = false) :
    ∃ c₁ e, Kept c c₁ ∧ TickError e ∧ (c.update env inp).1 = c₁.set_error e := by
  unfold Controller.update at h ⊢
  cases ha : assemble env inp c with
  | error c' => simpa using assemble_error ha
  | ok a => simp [ha] at h

theorem update_ok {env : Env} {inp : TickInput} {c : Controller}
    (h : (c.update env inp).2 = true) :
    ∃ a, assemble env inp c = .ok a ∧ (c.update env inp).1 = finish env inp a := by
  unfold Controller.update at h ⊢
  cases ha : assemble env inp c with
  | error c' => simp [ha] at h
  | ok a => exact ⟨a, rfl, rfl⟩

theorem tickError_ne_zero {e : Nat} (h : TickError e) : e ≠ 0 := by
  rcases h with h | h | h | h <;> subst h <;> decide

/-- Stage-wise reasoning about the state after a tick: a property that the
reference shaper establishes (also when it fails), and that the learner stage,
the position stage, `set_error` and the final block preserve, holds after
`update()`. -/
theorem update_cases (Q : Controller → Prop) (env : Env) (inp : TickInput) (c : Controller)
    (hin_err : ∀ e, input_stage env inp (wrap_input_pos c) = .error e →
      Q ((wrap_input_pos c).set_error e))
    (hin : ∀ c₂, input_stage env inp (wrap_input_pos c) = .ok c₂ → Q c₂)
    (hcal : ∀ c₂ c₃, Q c₂ → calibration_stage env inp c₂ = .ok c₃ → Q c₃)
    (hpos : ∀ c₃ r, Q c₃ → position_stage inp c₃ = .ok r → Q r.1)
    (herr : ∀ c' e, Q c' → Q (c'.set_error e))
    (hfin : ∀ a, Q a.c → Q (finish env inp a)) :
    Q (c.update env inp).1 := by
  have hset : ∀ r, setpoint_stages env inp c = .ok r → Q r.1 := by
    intro r hr
    unfold setpoint_stages at hr
    split at hr
    · cases hr
    rename_i c₂ h₂
    split at hr
    · cases hr
    rename_i c₃ h₃
    split at hr
    · cases hr
    rename_i r' h₄
    injection hr with hr; subst hr
    exact hpos c₃ _ (hcal c₂ c₃ (hin c₂ h₂) h₃) h₄
  have hset_err : ∀ c', setpoint_stages env inp c = .error c' → Q c' := by
    intro c' hr
    unfold setpoint_stages at hr
    split at hr
    · rename_i e he
      injection hr with hr; subst hr
      exact hin_err e he
    rename_i c₂ h₂
    split at hr
    · injection hr with hr; subst hr
      exact herr _ _ (hin c₂ h₂)
    rename_i c₃ h₃
    split at hr
    · injection hr with hr; subst hr
      exact herr _ _ (hcal c₂ c₃ (hin c₂ h₂) h₃)
    · cases hr
  unfold Controller.update
  cases ha : assemble env inp c with
  | error c' =>
    show Q c'
    unfold assemble at ha
    split at ha
    · rename_i c'' h₁
      injection ha with ha; subst ha
      exact hset_err _ h₁
    · rename_i r h₁
      obtain ⟨e, -, hc⟩ := torque_stages_error ha
      rw [hc]
      exact herr _ _ (hset r h₁)
  | ok a =>
    show Q (finish env inp a)
    apply hfin
    unfold assemble at ha
    split at ha
    · cases ha
    · rename_i r h₁
      rw [torque_stages_ok ha]
      exact hset r h₁

/-! ## C1: torque bound -/

/-- C2: a tick that returns fail leaves `torque_output` as it was and ORs one of
`INVALID_ESTIMATE`, `INVALID_INPUT_MODE`, `INVALID_MIRROR_AXIS`, `OVERSPEED` into
the error set, which is therefore non-zero; a tick that returns ok sets no
error bit. -/
theorem failing_tick (env : Env) (inp : TickInput) (c : Controller) :
    ((c.update env inp).2 = false →
      (c.update env inp).1.torque_output_ = c.torque_output_ ∧
      (∃ e, (e = ERROR_INVALID_ESTIMATE ∨ e = ERROR_INVALID_INPUT_MODE ∨
              e = ERROR_INVALID_MIRROR_AXIS ∨ e = ERROR_OVERSPEED) ∧
            (c.update env inp).1.error_ = c.error_ ||| e) ∧
      (c.update env inp).1.error_ ≠ 0) ∧
    ((c.update env inp).2 = true →
      ∀ i, (c.update env inp).1.error_.testBit i = true → c.error_.testBit i = true) := by
  constructor
  · intro h
    obtain ⟨c₁, e, hk, he, hc⟩ := update_fail h
    rw [hc]
    refine ⟨hk.2.1, ⟨e, he, ?_⟩, ?_⟩
    · show c₁.error_ ||| e = c.error_ ||| e
      rw [hk.1]
    · show c₁.error_ ||| e ≠ 0
      intro h0
      have : (c₁.error_ ||| e) &&& e = e := by
        apply Nat.eq_of_testBit_eq
        intro i
        simp only [Nat.testBit_and, Nat.testBit_or]
        cases c₁.error_.testBit i <;> cases e.testBit i <;> rfl
      rw [h0, Nat.zero_and] at this
      exact tickError_ne_zero he this.symm
  · intro h i hi
    obtain ⟨a, ha, hfin⟩ := update_ok h
    rw [hfin] at hi
    have hi' : (Nat.ldiff a.c.error_ ERROR_INVALID_ESTIMATE).testBit i = true := hi
    rw [Nat.testBit_ldiff, (assemble_ok ha).1] at hi'
    simp at hi'
    exact hi'.1

/-- C2 witness: scenario 1 with an input mode outside the `switch` fails, keeps
`torque_output` and reports a non-zero error; scenario 1 itself returns ok. -/
theorem failing_tick_witness :
    (({ scenario_controller with
          config_ := { scenario_config with input_mode := INPUT_MODE_OTHER 4 } } :
        Controller).update scenario_env scenario_input).1.error_ ≠ 0 ∧
    ∀ i, (scenario_controller.update scenario_env scenario_input).1.error_.testBit i = true →
      scenario_controller.error_.testBit i = true :=
  ⟨((failing_tick scenario_env scenario_input
        { scenario_controller with
          config_ := { scenario_config with input_mode := INPUT_MODE_OTHER 4 } }).1
      (by simp [Controller.update, assemble, setpoint_stages, wrap_input_pos, input_stage,
            scenario_controller, scenario_config])).2.2,
   (failing_tick scenario_env scenario_input scenario_controller).2
      (by simp [Controller.update, assemble, setpoint_stages, torque_stages, wrap_input_pos,
            input_stage, calibration_stage, position_stage, overspeed_check, feedforward_stage,
            velocity_stage, current_mode_limit, scenario_controller, scenario_config,
            scenario_anticogging, scenario_input, ControlMode.toNat])⟩

/-! ## C3: sticky and transient error bits -/

/-- C3: every error bit other than `INVALID_ESTIMATE` that is set before a tick
is still set after it; after a tick that returns ok the `INVALID_ESTIMATE` bit
is clear and every other bit is as before the tick. -/
theorem sticky_error_bits (env : Env) (inp : TickInput) (c : Controller) :
    (∀ i, ERROR_INVALID_ESTIMATE.testBit i = false → c.error_.testBit i = true →
      (c.update env inp).1.error_.testBit i = true) ∧
    ((c.update env inp).2 = true →
      (∀ i, ERROR_INVALID_ESTIMATE.testBit i = true →
        (c.update env inp).1.error_.testBit i = false) ∧
      (∀ i, ERROR_INVALID_ESTIMATE.testBit i = false →
        (c.update env inp).1.error_.testBit i = c.error_.testBit i)) := by
  have hok : (c.update env inp).2 = true → ∀ i, (c.update env inp).1.error_.testBit i =
      (c.error_.testBit i && !ERROR_INVALID_ESTIMATE.testBit i) := by
    intro h i
    obtain ⟨a, ha, hfin⟩ := update_ok h
    rw [hfin]
    show (Nat.ldiff a.c.error_ ERROR_INVALID_ESTIMATE).testBit i = _
    rw [Nat.testBit_ldiff, (assemble_ok ha).1]
  constructor
  · intro i hi hset
    cases h : (c.update env inp).2 with
    | true => rw [hok h i, hset, hi]; rfl
    | false =>
      obtain ⟨c₁, e, hk, -, hc⟩ := update_fail h
      rw [hc]
      show (c₁.error_ ||| e).testBit i = true
      rw [Nat.testBit_or, hk.1, hset]; rfl
  · intro h
    constructor
    · intro i hi
      rw [hok h i, hi]; simp
    · intro i hi
      rw [hok h i, hi]; simp

/-- C3 witness: scenario 1 started with `OVERSPEED` and `INVALID_ESTIMATE` both
set returns ok; `OVERSPEED` (bit 0) is still set and `INVALID_ESTIMATE` (bit 5)
is clear. -/
theorem sticky_error_bits_witness :
    (({ scenario_controller with error_ := 0x21 } : Controller).update
        scenario_env scenario_input).1.error_.testBit 0 = true ∧
    (({ scenario_controller with error_ := 0x21 } : Controller).update
        scenario_env scenario_input).1.error_.testBit 5 = false :=
  ⟨(sticky_error_bits scenario_env scenario_input
        { scenario_controller with error_ := 0x21 }).1 0 (by decide) (by decide),
   ((sticky_error_bits scenario_env scenario_input
        { scenario_controller with error_ := 0x21 }).2
      (by simp [Controller.update, assemble, setpoint_stages, torque_stages, wrap_input_pos,
            input_stage, calibration_stage, position_stage, overspeed_check, feedforward_stage,
            velocity_stage, current_mode_limit, scenario_controller, scenario_config,
            scenario_anticogging, scenario_input, ControlMode.toNat])).1 5 (by decide)⟩

/-! ## C4: integrator reset -/

/-- C4, as stated, fails: a tick in torque mode that fails the overspeed check
(`vel_estimate = 13`, limit `1.2 * 10`) returns early and leaves a non-zero
`vel_integrator_torque` as it was. -/
theorem integrator_not_reset_by_failing_tick :
    (({ scenario_controller with
          vel_integrator_torque_ := 5
          config_ := { scenario_config with enable_overspeed_error := true } } :
        Controller).update scenario_env
        { scenario_input with vel_estimate := some 13 }).2 = false ∧
    (({ scenario_controller with
          vel_integrator_torque_ := 5
          config_ := { scenario_config with enable_overspeed_error := true } } :
        Controller).update scenario_env
        { scenario_input with vel_estimate := some 13 }).1.config_.control_mode
      < CONTROL_MODE_VELOCITY_CONTROL ∧
    (({ scenario_controller with
          vel_integrator_torque_ := 5
          config_ := { scenario_config with enable_overspeed_error := true } } :
        Controller).update scenario_env
        { scenario_input with vel_estimate := some 13 }).1.vel_integrator_torque_ ≠ 0 := by
  simp [Controller.update, assemble, setpoint_stages, torque_stages, wrap_input_pos, input_stage,
    calibration_stage, position_stage, overspeed_check, feedforward_stage, velocity_stage,
    current_mode_limit, scenario_controller, scenario_config, scenario_anticogging, scenario_input,
    ControlMode.toNat, Controller.set_error]
  norm_num

/-- C4 (amended): for every tick of `update()` that returns ok and at whose exit
`control_mode < VELOCITY`, `vel_integrator_torque` equals 0 after the tick. -/
theorem integrator_reset (env : Env) (inp : TickInput) (c : Controller)
    (hok : (c.update env inp).2 = true)
    (hmode : (c.update env inp).1.config_.control_mode < CONTROL_MODE_VELOCITY_CONTROL) :
    (c.update env inp).1.vel_integrator_torque_ = 0 := by
  obtain ⟨a, -, hfin⟩ := update_ok hok
  rw [hfin] at hmode ⊢
  have hmode' : a.c.config_.control_mode < CONTROL_MODE_VELOCITY_CONTROL := hmode
  unfold finish
  simp only [if_pos hmode']

/-- C4 witness: scenario 1 in torque mode, started with a stale integrator
value 5, returns ok with the integrator reset. -/
theorem integrator_reset_witness :
    (({ scenario_controller with vel_integrator_torque_ := 5 } : Controller).update
        scenario_env scenario_input).1.vel_integrator_torque_ = 0 :=
  integrator_reset scenario_env scenario_input
    { scenario_controller with vel_integrator_torque_ := 5 }
    (by simp [Controller.update, assemble, setpoint_stages, torque_stages, wrap_input_pos,
          input_stage, calibration_stage, position_stage, overspeed_check, feedforward_stage,
          velocity_stage, current_mode_limit, scenario_controller, scenario_config,
          scenario_anticogging, scenario_input, ControlMode.toNat])
    (by simp [Controller.update, assemble, setpoint_stages, torque_stages, wrap_input_pos,
          input_stage, calibration_stage, position_stage, overspeed_check, feedforward_stage,
          velocity_stage, current_mode_limit, scenario_controller, scenario_config,
          scenario_anticogging, scenario_input, ControlMode.toNat, finish])

/-! ## C5: clearing `calib_anticogging` between ticks -/

theorem calibration_stage_idle {env : Env} {inp : TickInput} {c : Controller}
    (h : c.config_.anticogging.calib_anticogging = false) :
    calibration_stage env inp c = .ok c := by
  unfold calibration_stage
  simp [h]

/-- While `calib_anticogging` is clear a tick changes neither the flag, nor
`config_.vel_integrator_gain`, nor the saved gain. -/
theorem idle_learner_gains (env : Env) (inp : TickInput) (c : Controller)
    (h : c.config_.anticogging.calib_anticogging = false) :
    (c.update env inp).1.config_.anticogging.calib_anticogging = false ∧
    (c.update env inp).1.config_.vel_integrator_gain = c.config_.vel_integrator_gain ∧
    (c.update env inp).1.old_vel_integrator_gain_ = c.old_vel_integrator_gain_ := by
  have hw : (wrap_input_pos c).config_ = c.config_ ∧
      (wrap_input_pos c).old_vel_integrator_gain_ = c.old_vel_integrator_gain_ := by
    rw [wrap_input_pos_writes]; exact ⟨rfl, rfl⟩
  refine update_cases (fun c' => c'.config_.anticogging.calib_anticogging = false ∧
    c'.config_.vel_integrator_gain = c.config_.vel_integrator_gain ∧
    c'.old_vel_integrator_gain_ = c.old_vel_integrator_gain_) env inp c ?_ ?_ ?_ ?_ ?_ ?_
  · intro e _
    exact ⟨by rw [← h, ← hw.1]; rfl, by rw [← hw.1]; rfl, hw.2⟩
  · intro c₂ h₂
    rw [input_stage_writes h₂]
    exact ⟨by rw [← h, ← hw.1], by rw [← hw.1], hw.2⟩
  · intro c₂ c₃ hq h₃
    rw [calibration_stage_idle hq.1] at h₃
    injection h₃ with h₃
    subst h₃
    exact hq
  · intro c₃ r hq hr
    rw [position_stage_writes hr]
    exact hq
  · intro c' e hq
    exact hq
  · intro a hq
    exact hq

/-- C5, as stated, fails: after a successful start with operator gain 3 and the
flag cleared between ticks, the next tick leaves `config_.vel_integrator_gain`
at 0; `update()` calls the learner, and with it the stop procedure, only while
the flag is set. -/
theorem cleared_flag_does_not_restore_gain :
    (({ scenario_controller with
          config_ := { scenario_config with vel_integrator_gain := 3 } } :
        Controller).start_anticogging_calibration Axis_ERROR_NONE
          AXIS_STATE_CLOSED_LOOP_CONTROL 0).config_.anticogging.calib_anticogging = true ∧
    ((clear_calib_anticogging
        (({ scenario_controller with
            config_ := { scenario_config with vel_integrator_gain := 3 } } :
          Controller).start_anticogging_calibration Axis_ERROR_NONE
            AXIS_STATE_CLOSED_LOOP_CONTROL 0)).update scenario_env
        scenario_input).1.config_.vel_integrator_gain = 0 ∧
    ((clear_calib_anticogging
        (({ scenario_controller with
            config_ := { scenario_config with vel_integrator_gain := 3 } } :
          Controller).start_anticogging_calibration Axis_ERROR_NONE
            AXIS_STATE_CLOSED_LOOP_CONTROL 0)).update scenario_env
        scenario_input).1.config_.vel_integrator_gain ≠ 3 := by
  simp [Controller.update, assemble, setpoint_stages, torque_stages, wrap_input_pos, input_stage,
    calibration_stage, position_stage, overspeed_check, feedforward_stage, velocity_stage,
    current_mode_limit, scenario_controller, scenario_config, scenario_anticogging, scenario_input,
    ControlMode.toNat, finish, clear_calib_anticogging, Controller.start_anticogging_calibration,
    Axis_ERROR_NONE, AXIS_STATE_CLOSED_LOOP_CONTROL]

/-- C5 (amended): if `start_anticogging_calibration` has succeeded with operator
gain `g` and `calib_anticogging` is then cleared between ticks, then after the
next `update()` tick `config_.vel_integrator_gain` is still 0 and the saved
gain is still `g`; a call of `stop_anticogging_calibration` after that tick
restores `config_.vel_integrator_gain` to `g`. -/
theorem cleared_flag_keeps_gain_saved (env : Env) (inp : TickInput) (c : Controller)
    (axis_error axis_current_state : Nat) (pos_estimate : ℚ)
    (herr : axis_error = Axis_ERROR_NONE)
    (hstate : axis_current_state = AXIS_STATE_CLOSED_LOOP_CONTROL) :
    ((clear_calib_anticogging
        (c.start_anticogging_calibration axis_error axis_current_state pos_estimate)).update
          env inp).1.config_.vel_integrator_gain = 0 ∧
    ((clear_calib_anticogging
        (c.start_anticogging_calibration axis_error axis_current_state pos_estimate)).update
          env inp).1.old_vel_integrator_gain_ = c.config_.vel_integrator_gain ∧
    ((clear_calib_anticogging
        (c.start_anticogging_calibration axis_error axis_current_state pos_estimate)).update
          env inp).1.stop_anticogging_calibration.config_.vel_integrator_gain =
      c.config_.vel_integrator_gain := by
  have hstart : c.start_anticogging_calibration axis_error axis_current_state pos_estimate =
      { c with
        input_vel_ := c.config_.anticogging.start_vel
        anticogging_start_pos_ := pos_estimate
        old_vel_integrator_gain_ := c.config_.vel_integrator_gain
        anticogging_integrator_gain_ :=
          c.config_.anticogging.start_gain * c.config_.vel_integrator_gain
        anticogging_bandwidth_ := c.config_.anticogging.start_vel / (4 / 5)
        anticogging_average_error_ := 0
        anticogging_turn_count_ := 0
        anticogging_vel_error_filtered_ := 0
        anticogging_error_max_ := none
        config_ := { c.config_ with
          vel_integrator_gain := 0
          anticogging := { c.config_.anticogging with calib_anticogging := true } } } := by
    unfold Controller.start_anticogging_calibration
    rw [if_pos ⟨herr, hstate⟩]
  obtain ⟨-, h₂, h₃⟩ := idle_learner_gains env inp
    (clear_calib_anticogging
      (c.start_anticogging_calibration axis_error axis_current_state pos_estimate)) rfl
  rw [hstart] at h₂ h₃ ⊢
  refine ⟨h₂, h₃, ?_⟩
  show (Controller.update env inp _).1.old_vel_integrator_gain_ = _
  exact h₃

/-- C5 witness: the start is allowed for an error-free axis in closed loop; with
operator gain 3 the gain is 0 after the tick and 3 after the stop procedure. -/
theorem cleared_flag_keeps_gain_saved_witness :
    ((clear_calib_anticogging
        (({ scenario_controller with
            config_ := { scenario_config with vel_integrator_gain := 3 } } :
          Controller).start_anticogging_calibration 0 8 0)).update scenario_env
        scenario_input).1.config_.vel_integrator_gain = 0 ∧
    ((clear_calib_anticogging
        (({ scenario_controller with
            config_ := { scenario_config with vel_integrator_gain := 3 } } :
          Controller).start_anticogging_calibration 0 8 0)).update scenario_env
        scenario_input).1.stop_anticogging_calibration.config_.vel_integrator_gain = 3 :=
  ⟨(cleared_flag_keeps_gain_saved scenario_env scenario_input
      { scenario_controller with config_ := { scenario_config with vel_integrator_gain := 3 } }
      0 8 0 (by decide) (by decide)).1,
   (cleared_flag_keeps_gain_saved scenario_env scenario_input
      { scenario_controller with config_ := { scenario_config with vel_integrator_gain := 3 } }
      0 8 0 (by decide) (by decide)).2.2⟩

/-! ## C6: `PASSTHROUGH` identity -/

theorem fmodf_pos_idem (x y : ℚ) : fmodf_pos (fmodf_pos x y) y = fmodf_pos x y := by
  unfold fmodf_pos
  by_cases hy : y = 0
  · subst hy; simp
  · have h : (x - y * (⌊x / y⌋ : ℤ)) / y = Int.fract (x / y) := by
      unfold Int.fract
      field_simp
    rw [h, Int.floor_fract]
    simp

theorem position_stage_pos_setpoint {inp : TickInput} {c : Controller}
    {r : Controller × ℚ × ℚ} (h : position_stage inp c = .ok r) :
    r.1.pos_setpoint_ =
      if CONTROL_MODE_POSITION_CONTROL ≤ c.config_.control_mode ∧
          c.config_.circular_setpoints = true then
        fmodf_pos c.pos_setpoint_ (inp.pos_wrap.getD 0)
      else c.pos_setpoint_ := by
  unfold position_stage at h
  by_cases hm : c.config_.control_mode ≥ CONTROL_MODE_POSITION_CONTROL
  · rw [if_pos hm] at h
    by_cases hc : c.config_.circular_setpoints = true
    · rw [if_pos hc] at h
      rw [if_pos ⟨hm, hc⟩]
      split at h
      · rename_i pc w hpc hw
        injection h with h; subst h
        simp [hw]
      · cases h
    · rw [if_neg hc] at h
      rw [if_neg (fun hh => hc hh.2)]
      split at h
      · injection h with h; subst h; rfl
      · cases h
  · rw [if_neg hm] at h
    rw [if_neg (fun hh => hm hh.1)]
    injection h with h; subst h; rfl

theorem passthrough_stage {env : Env} {inp : TickInput} {c : Controller}
    (hmode : c.config_.input_mode = INPUT_MODE_PASSTHROUGH) :
    input_stage env inp (wrap_input_pos c) =
      .ok { wrap_input_pos c with
        pos_setpoint_ := (wrap_input_pos c).input_pos_
        vel_setpoint_ := c.input_vel_
        torque_setpoint_ := c.input_torque_ } := by
  have hw : (wrap_input_pos c).config_.input_mode = INPUT_MODE_PASSTHROUGH ∧
      (wrap_input_pos c).input_vel_ = c.input_vel_ ∧
      (wrap_input_pos c).input_torque_ = c.input_torque_ := by
    rw [wrap_input_pos_writes]; exact ⟨hmode, rfl, rfl⟩
  unfold input_stage
  rw [hw.1]
  dsimp only
  rw [hw.2.1, hw.2.2]

theorem passthrough_torque (env : Env) (inp : TickInput) (c : Controller)
    (hmode : c.config_.input_mode = INPUT_MODE_PASSTHROUGH) :
    (c.update env inp).1.torque_setpoint_ = (c.update env inp).1.input_torque_ := by
  refine (update_cases (fun c' => c'.torque_setpoint_ = c'.input_torque_ ∧
    c'.input_torque_ = c.input_torque_) env inp c ?_ ?_ ?_ ?_ ?_ ?_).1
  · intro e he
    rw [passthrough_stage hmode] at he
    cases he
  · intro c₂ h₂
    rw [passthrough_stage hmode] at h₂
    injection h₂ with h₂; subst h₂
    exact ⟨by rw [wrap_input_pos_writes], by rw [wrap_input_pos_writes]⟩
  · intro c₂ c₃ hq h₃
    rw [calibration_stage_writes h₃]
    exact hq
  · intro c₃ r hq hr
    rw [position_stage_writes hr]
    exact hq
  · intro c' e hq
    exact hq
  · intro a hq
    exact hq

theorem passthrough_vel (env : Env) (inp : TickInput) (c : Controller)
    (hmode : c.config_.input_mode = INPUT_MODE_PASSTHROUGH)
    (hidle : c.config_.anticogging.calib_anticogging = false) :
    (c.update env inp).1.vel_setpoint_ = (c.update env inp).1.input_vel_ := by
  refine (update_cases (fun c' => c'.vel_setpoint_ = c'.input_vel_ ∧
    c'.config_.anticogging.calib_anticogging = false) env inp c ?_ ?_ ?_ ?_ ?_ ?_).1
  · intro e he
    rw [passthrough_stage hmode] at he
    cases he
  · intro c₂ h₂
    rw [passthrough_stage hmode] at h₂
    injection h₂ with h₂; subst h₂
    exact ⟨by rw [wrap_input_pos_writes], by rw [wrap_input_pos_writes]; exact hidle⟩
  · intro c₂ c₃ hq h₃
    rw [calibration_stage_idle hq.2] at h₃
    injection h₃ with h₃
    subst h₃
    exact hq
  · intro c₃ r hq hr
    rw [position_stage_writes hr]
    exact hq
  · intro c' e hq
    exact hq
  · intro a hq
    exact hq

theorem passthrough_pos (env : Env) (inp : TickInput) (c : Controller)
    (hmode : c.config_.input_mode = INPUT_MODE_PASSTHROUGH)
    (hwrap : ¬ (c.config_.circular_setpoints = true ∧
        CONTROL_MODE_POSITION_CONTROL ≤ c.config_.control_mode) ∨
      (inp.pos_wrap = some c.config_.circular_setpoint_range ∧
        0 < c.config_.circular_setpoint_range)) :
    (c.update env inp).1.pos_setpoint_ = (c.update env inp).1.input_pos_ := by
  refine (update_cases (fun c' => c'.pos_setpoint_ = c'.input_pos_ ∧
    c'.config_.circular_setpoints = c.config_.circular_setpoints ∧
    c'.config_.control_mode = c.config_.control_mode ∧
    c'.input_pos_ = (wrap_input_pos c).input_pos_) env inp c ?_ ?_ ?_ ?_ ?_ ?_).1
  · intro e he
    rw [passthrough_stage hmode] at he
    cases he
  · intro c₂ h₂
    rw [passthrough_stage hmode] at h₂
    injection h₂ with h₂; subst h₂
    exact ⟨rfl, by rw [wrap_input_pos_writes], by rw [wrap_input_pos_writes], rfl⟩
  · intro c₂ c₃ hq h₃
    rw [calibration_stage_writes h₃]
    exact hq
  · intro c₃ r hq hr
    have hp := position_stage_pos_setpoint hr
    have hr' := position_stage_writes hr
    have hi : r.1.input_pos_ = c₃.input_pos_ := by rw [hr']
    have hc : r.1.config_ = c₃.config_ := by rw [hr']
    refine ⟨?_, by rw [hc]; exact hq.2.1, by rw [hc]; exact hq.2.2.1, by rw [hi]; exact hq.2.2.2⟩
    rw [hp, hi]
    split_ifs with hcond
    · rw [hq.2.1, hq.2.2.1] at hcond
      rcases hwrap with hno | ⟨hw, -⟩
      · exact absurd ⟨hcond.2, hcond.1⟩ hno
      · rw [hw, hq.1, hq.2.2.2]
        unfold wrap_input_pos
        rw [if_pos hcond.2]
        exact fmodf_pos_idem _ _
    · exact hq.1
  · intro c' e hq
    exact hq
  · intro a hq
    exact hq

theorem floor_one_half : ⌊(2⁻¹ : ℚ)⌋ = 0 := by
  rw [Int.floor_eq_iff]; norm_num

theorem floor_three_halves : ⌊(3 / 2 : ℚ)⌋ = 1 := by
  rw [Int.floor_eq_iff]; norm_num

/-- C6, as stated, fails in two ways, both on ticks that return ok with every
estimator present and the limits off.
With an active learner: in velocity mode, one turn into a calibration, the
shaper copies `input_vel = 1` into `vel_setpoint`; the learner step of the same
tick then ramps `input_vel` down by `Ts * vel_ramp_rate` to `7999/8000`.
With circular setpoints in position mode: `input_pos = 3/2` is wrapped with
`circular_setpoint_range = 3` and copied, then the position stage re-wraps
`pos_setpoint` with `pos_wrap = 1` to `1/2`. -/
theorem passthrough_identity_fails :
    ((({ scenario_controller with
          input_vel_ := 1
          anticogging_turn_count_ := 1
          anticogging_error_max_ := some 1
          old_vel_integrator_gain_ := 3
          config_ := { scenario_config with
            control_mode := CONTROL_MODE_VELOCITY_CONTROL
            anticogging := { scenario_anticogging with calib_anticogging := true } } } :
        Controller).update scenario_env
        { scenario_input with pos_estimate_linear := some 1 }).2 = true ∧
    (({ scenario_controller with
          input_vel_ := 1
          anticogging_turn_count_ := 1
          anticogging_error_max_ := some 1
          old_vel_integrator_gain_ := 3
          config_ := { scenario_config with
            control_mode := CONTROL_MODE_VELOCITY_CONTROL
            anticogging := { scenario_anticogging with calib_anticogging := true } } } :
        Controller).update scenario_env
        { scenario_input with pos_estimate_linear := some 1
          }).1.config_.anticogging.calib_anticogging = true ∧
    (({ scenario_controller with
          input_vel_ := 1
          anticogging_turn_count_ := 1
          anticogging_error_max_ := some 1
          old_vel_integrator_gain_ := 3
          config_ := { scenario_config with
            control_mode := CONTROL_MODE_VELOCITY_CONTROL
            anticogging := { scenario_anticogging with calib_anticogging := true } } } :
        Controller).update scenario_env
        { scenario_input with pos_estimate_linear := some 1 }).1.vel_setpoint_ = 1 ∧
    (({ scenario_controller with
          input_vel_ := 1
          anticogging_turn_count_ := 1
          anticogging_error_max_ := some 1
          old_vel_integrator_gain_ := 3
          config_ := { scenario_config with
            control_mode := CONTROL_MODE_VELOCITY_CONTROL
            anticogging := { scenario_anticogging with calib_anticogging := true } } } :
        Controller).update scenario_env
        { scenario_input with pos_estimate_linear := some 1 }).1.input_vel_ = 7999 / 8000 ∧
    (({ scenario_controller with
          input_vel_ := 1
          anticogging_turn_count_ := 1
          anticogging_error_max_ := some 1
          old_vel_integrator_gain_ := 3
          config_ := { scenario_config with
            control_mode := CONTROL_MODE_VELOCITY_CONTROL
            anticogging := { scenario_anticogging with calib_anticogging := true } } } :
        Controller).update scenario_env
        { scenario_input with pos_estimate_linear := some 1 }).1.vel_setpoint_ ≠
      (({ scenario_controller with
          input_vel_ := 1
          anticogging_turn_count_ := 1
          anticogging_error_max_ := some 1
          old_vel_integrator_gain_ := 3
          config_ := { scenario_config with
            control_mode := CONTROL_MODE_VELOCITY_CONTROL
            anticogging := { scenario_anticogging with calib_anticogging := true } } } :
        Controller).update scenario_env
        { scenario_input with pos_estimate_linear := some 1 }).1.input_vel_) ∧
    ((({ scenario_controller with
          input_pos_ := 3 / 2
          config_ := { scenario_config with
            control_mode := CONTROL_MODE_POSITION_CONTROL
            circular_setpoints := true
            circular_setpoint_range := 3 } } : Controller).update scenario_env scenario_input).2 = true ∧
    (({ scenario_controller with
          input_pos_ := 3 / 2
          config_ := { scenario_config with
            control_mode := CONTROL_MODE_POSITION_CONTROL
            circular_setpoints := true
            circular_setpoint_range := 3 } } : Controller).update scenario_env scenario_input).1.input_pos_ = 3 / 2 ∧
    (({ scenario_controller with
          input_pos_ := 3 / 2
          config_ := { scenario_config with
            control_mode := CONTROL_MODE_POSITION_CONTROL
            circular_setpoints := true
            circular_setpoint_range := 3 } } : Controller).update scenario_env scenario_input).1.pos_setpoint_ = 1 / 2 ∧
    (({ scenario_controller with
          input_pos_ := 3 / 2
          config_ := { scenario_config with
            control_mode := CONTROL_MODE_POSITION_CONTROL
            circular_setpoints := true
            circular_setpoint_range := 3 } } : Controller).update scenario_env scenario_input).1.pos_setpoint_ ≠
      (({ scenario_controller with
          input_pos_ := 3 / 2
          config_ := { scenario_config with
            control_mode := CONTROL_MODE_POSITION_CONTROL
            circular_setpoints := true
            circular_setpoint_range := 3 } } : Controller).update scenario_env scenario_input).1.input_pos_) := by
  constructor
  · simp [Controller.update, assemble, setpoint_stages, torque_stages, wrap_input_pos,
      input_stage, calibration_stage, position_stage, overspeed_check, feedforward_stage,
      velocity_stage, current_mode_limit, scenario_controller, scenario_config,
      scenario_anticogging, scenario_input, ControlMode.toNat, finish,
      Controller.anticogging_calibration, anticogging_active_step, anticogging_schedule,
      range_negative, float_to_int, Controller.stop_anticogging_calibration,
      AXIS_STATE_CLOSED_LOOP_CONTROL, termination_check, div_range, clamp, ratchet_input_vel,
      scenario_env]
    norm_num [abs_lt]
  · have h1 : ((3 : ℚ) / 2 / 3) = 2⁻¹ := by norm_num
    simp [Controller.update, assemble, setpoint_stages, torque_stages, wrap_input_pos,
      input_stage, calibration_stage, position_stage, overspeed_check, feedforward_stage,
      velocity_stage, current_mode_limit, scenario_controller, scenario_config,
      scenario_anticogging, scenario_input, ControlMode.toNat, finish, fmodf_pos, h1,
      floor_one_half, floor_three_halves]
    norm_num [floor_three_halves]

/-- C6 (amended): for every tick with `input_mode = PASSTHROUGH`, in every
control mode, at the end of the tick `torque_setpoint = input_torque`;
`vel_setpoint = input_vel` when the learner is not active (`calib_anticogging`
clear); and `pos_setpoint = input_pos` when the position stage does not re-wrap
it (circular setpoints off, or `control_mode < POSITION`) or re-wraps it with
`pos_wrap = circular_setpoint_range > 0`. -/
theorem passthrough_identity (env : Env) (inp : TickInput) (c : Controller)
    (hmode : c.config_.input_mode = INPUT_MODE_PASSTHROUGH) :
    (c.update env inp).1.torque_setpoint_ = (c.update env inp).1.input_torque_ ∧
    (c.config_.anticogging.calib_anticogging = false →
      (c.update env inp).1.vel_setpoint_ = (c.update env inp).1.input_vel_) ∧
    (¬ (c.config_.circular_setpoints = true ∧
          CONTROL_MODE_POSITION_CONTROL ≤ c.config_.control_mode) ∨
        (inp.pos_wrap = some c.config_.circular_setpoint_range ∧
          0 < c.config_.circular_setpoint_range) →
      (c.update env inp).1.pos_setpoint_ = (c.update env inp).1.input_pos_) :=
  ⟨passthrough_torque env inp c hmode, passthrough_vel env inp c hmode,
    passthrough_pos env inp c hmode⟩

/-- C6 witness: scenario 1 is a `PASSTHROUGH` tick with the learner off and
linear setpoints; the three setpoints equal the three inputs at tick end. -/
theorem passthrough_identity_witness :
    (scenario_controller.update scenario_env scenario_input).1.torque_setpoint_ =
      (scenario_controller.update scenario_env scenario_input).1.input_torque_ ∧
    (scenario_controller.update scenario_env scenario_input).1.vel_setpoint_ =
      (scenario_controller.update scenario_env scenario_input).1.input_vel_ ∧
    (scenario_controller.update scenario_env scenario_input).1.pos_setpoint_ =
      (scenario_controller.update scenario_env scenario_input).1.input_pos_ :=
  ⟨(passthrough_identity scenario_env scenario_input scenario_controller rfl).1,
   (passthrough_identity scenario_env scenario_input scenario_controller rfl).2.1 rfl,
   (passthrough_identity scenario_env scenario_input scenario_controller rfl).2.2
     (Or.inl (by simp [scenario_controller, scenario_config]))⟩

/-! ## C7: `VEL_RAMP` bound -/

/-- A rational within one half of the integer `n` rounds to `n`. -/
theorem round_half_even_of_near (q : ℚ) (n : ℤ) (h₁ : (n : ℚ) - 1 / 2 < q)
    (h₂ : q < (n : ℚ) + 1 / 2) : round_half_even q = n := by
  unfold round_half_even
  rcases le_or_lt (n : ℚ) q with h | h
  · have hf : ⌊q⌋ = n := by
      rw [Int.floor_eq_iff]
      constructor
      · exact h
      · linarith
    rw [hf, if_pos (by linarith)]
  · have hf : ⌊q⌋ = n - 1 := by
      rw [Int.floor_eq_iff]
      push_cast
      constructor <;> linarith
    rw [hf]
    push_cast
    rw [if_neg (by linarith), if_pos (by linarith)]
    ring

/-- The binary32 rounding of `x` in the binade `2^e ≤ |x| < 2^(e+1)`: the
multiple `n * 2^(e-23)` within half a unit in the last place of `x`. -/
theorem f32_round_eq (x : ℚ) (e n : ℤ) (h₁ : (2 : ℚ) ^ e ≤ |x|) (h₂ : |x| < (2 : ℚ) ^ (e + 1))
    (h₃ : (n : ℚ) - 1 / 2 < x / 2 ^ (e - 23)) (h₄ : x / 2 ^ (e - 23) < (n : ℚ) + 1 / 2) :
    f32_round x = (n : ℚ) * 2 ^ (e - 23) := by
  have hpos : 0 < |x| := lt_of_lt_of_le (zpow_pos (by norm_num) e) h₁
  have hx : x ≠ 0 := abs_pos.mp hpos
  have hlog : Int.log 2 |x| = e := by
    apply le_antisymm
    · have := (Int.lt_zpow_iff_log_lt (by norm_num : 1 < 2) hpos).mp (by exact_mod_cast h₂)
      omega
    · exact (Int.zpow_le_iff_le_log (by norm_num : 1 < 2) hpos).mp (by exact_mod_cast h₁)
  unfold f32_round
  rw [if_neg hx, hlog, round_half_even_of_near _ n h₃ h₄]

/-- The sampling period of `scenario_f32` is the float nearest to `1/8000`. -/
theorem f32_round_period : f32_round (1 / 8000) = scenario_f32.current_meas_period := by
  rw [f32_round_eq (1 / 8000) (-13) 8589935 (by norm_num [abs_of_pos])
    (by norm_num [abs_of_pos]) (by norm_num) (by norm_num)]
  show _ = (8589935 / 68719476736 : ℚ)
  norm_num

/-- The float product `0.000125f * 100.0f`. -/
theorem f32_round_max_step :
    f32_round (8589935 / 68719476736 * 100) = 13421773 / 1073741824 := by
  rw [f32_round_eq _ (-7) 13421773 (by norm_num [abs_of_pos]) (by norm_num [abs_of_pos])
    (by norm_num) (by norm_num)]
  norm_num

theorem vel_ramp_stage {env : Env} {inp : TickInput} {c : Controller}
    (hmode : c.config_.input_mode = INPUT_MODE_VEL_RAMP) :
    input_stage env inp (wrap_input_pos c) =
      .ok { wrap_input_pos c with
        vel_setpoint_ := env.fl (c.vel_setpoint_ + clamp (env.fl (c.input_vel_ - c.vel_setpoint_))
          (-|env.fl (env.current_meas_period * c.config_.vel_ramp_rate)|)
          |env.fl (env.current_meas_period * c.config_.vel_ramp_rate)|)
        torque_setpoint_ :=
          env.fl (env.fl (clamp (env.fl (c.input_vel_ - c.vel_setpoint_))
          (-|env.fl (env.current_meas_period * c.config_.vel_ramp_rate)|)
          |env.fl (env.current_meas_period * c.config_.vel_ramp_rate)| / env.current_meas_period) * c.config_.inertia) } := by
  have hw : (wrap_input_pos c).config_ = c.config_ ∧
      (wrap_input_pos c).input_vel_ = c.input_vel_ ∧
      (wrap_input_pos c).vel_setpoint_ = c.vel_setpoint_ := by
    rw [wrap_input_pos_writes]; exact ⟨rfl, rfl, rfl⟩
  unfold input_stage
  rw [hw.1, hmode]
  dsimp only
  rw [hw.1, hw.2.1, hw.2.2]

/-- The velocity setpoint after a `VEL_RAMP` tick: the float sum of the old one
and the clamped step, whatever happens after the shaper. -/
theorem vel_ramp_setpoint (env : Env) (inp : TickInput) (c : Controller)
    (hmode : c.config_.input_mode = INPUT_MODE_VEL_RAMP) :
    (c.update env inp).1.vel_setpoint_ = env.fl (c.vel_setpoint_ + clamp (env.fl (c.input_vel_ - c.vel_setpoint_))
          (-|env.fl (env.current_meas_period * c.config_.vel_ramp_rate)|)
          |env.fl (env.current_meas_period * c.config_.vel_ramp_rate)|) := by
  refine update_cases (fun c' => c'.vel_setpoint_ = env.fl (c.vel_setpoint_ + clamp (env.fl (c.input_vel_ - c.vel_setpoint_))
          (-|env.fl (env.current_meas_period * c.config_.vel_ramp_rate)|)
          |env.fl (env.current_meas_period * c.config_.vel_ramp_rate)|))
    env inp c ?_ ?_ ?_ ?_ ?_ ?_
  · intro e he
    rw [vel_ramp_stage hmode] at he
    cases he
  · intro c₂ h₂
    rw [vel_ramp_stage hmode] at h₂
    injection h₂ with h₂; subst h₂
    rfl
  · intro c₂ c₃ hq h₃
    rw [calibration_stage_writes h₃]
    exact hq
  · intro c₃ r hq hr
    rw [position_stage_writes hr]
    exact hq
  · intro c' e hq
    exact hq
  · intro a hq
    exact hq

theorem torque_limit_limited (torque Tlim : ℚ) (h : torque > Tlim ∨ torque < -Tlim) :
    (torque_limit torque Tlim).2 = true := by
  unfold torque_limit
  dsimp only
  by_cases h₁ : torque > Tlim
  · rw [if_pos h₁]
    split_ifs <;> rfl
  · rw [if_neg h₁]
    have h₂ : torque < -Tlim := h.resolve_left h₁
    rw [if_pos h₂]

theorem saturated_tick_decay {env : Env} {inp : TickInput} {c : Controller}
    (h : saturated_tick env inp c) :
    (c.update env inp).1.vel_integrator_torque_ = 99 / 100 * c.vel_integrator_torque_ := by
  obtain ⟨hok, hmode, a, ha, hsat⟩ := h
  obtain ⟨a', ha', hfin⟩ := update_ok hok
  rw [ha] at ha'
  injection ha' with ha'
  subst ha'
  rw [hfin] at hmode ⊢
  have hmode' : ¬ a.c.config_.control_mode < CONTROL_MODE_VELOCITY_CONTROL := by
    have : CONTROL_MODE_VELOCITY_CONTROL ≤ a.c.config_.control_mode := hmode
    simp only [ControlMode.le_iff, ControlMode.lt_iff] at this ⊢
    omega
  unfold finish
  simp only [if_neg hmode', torque_limit_limited _ _ hsat, if_true]
  rw [(assemble_ok ha).2.2]
  ring

/-- C8: in a tick that returns ok with `control_mode ≥ VELOCITY` and the
assembled torque above `Tmax` or below `-Tmax`, `vel_integrator_torque` after
the tick is 0.99 times its value before, so its magnitude does not increase;
over `k` consecutive such ticks it is `0.99^k` times the starting value. -/
theorem antiwindup_decay (env : Env) :
    (∀ inp c, saturated_tick env inp c →
      (c.update env inp).1.vel_integrator_torque_ = 99 / 100 * c.vel_integrator_torque_ ∧
      |(c.update env inp).1.vel_integrator_torque_| ≤ |c.vel_integrator_torque_|) ∧
    (∀ inps c, saturated_run env inps c →
      (run_ticks env inps c).vel_integrator_torque_ =
        (99 / 100) ^ inps.length * c.vel_integrator_torque_) := by
  constructor
  · intro inp c h
    have hd := saturated_tick_decay h
    refine ⟨hd, ?_⟩
    rw [hd, abs_mul, abs_of_pos (by norm_num : (0 : ℚ) < 99 / 100)]
    have := abs_nonneg c.vel_integrator_torque_
    linarith
  · intro inps
    induction inps with
    | nil => intro c _; simp [run_ticks]
    | cons inp rest ih =>
      intro c h
      obtain ⟨h₁, h₂⟩ := h
      show (run_ticks env rest (c.update env inp).1).vel_integrator_torque_ = _
      rw [ih _ h₂, saturated_tick_decay h₁, List.length_cons]
      ring

/-- Scenario 5, one tick: with integrator `x > -10` the assembled torque
`2 + 100 + x` exceeds `Tmax = 10`, and the tick is a saturated tick. -/
theorem scenario_saturated_tick (x vs ts out : ℚ) (hx : -10 < x) :
    saturated_tick scenario_env scenario_input (scenario_windup x vs ts out) ∧
    (scenario_windup x vs ts out).update scenario_env scenario_input =
      (scenario_windup (x * (99 / 100)) 100 2 10, true) := by
  have hx' : (10 : ℚ) < 2 + 100 + x := by linarith
  have hx'' : ¬ (2 + 100 + x < -10) := by linarith
  have hx3 : ¬ ((10 : ℚ) < -10) := by norm_num
  simp [saturated_tick, Controller.update, assemble, setpoint_stages, torque_stages,
    wrap_input_pos, input_stage, calibration_stage, position_stage, overspeed_check,
    feedforward_stage, velocity_stage, current_mode_limit, scenario_controller, scenario_config,
    scenario_anticogging, scenario_input, ControlMode.toNat, finish, torque_limit, acim_gains,
    velocity_limit, hx', hx'', hx3, Nat.ldiff, scenario_windup]

/-- C8 witness: scenario 5 (velocity mode, `v_err = 100`, output saturated at
`Tmax = 10`) started with `vel_integrator_torque = 1`: two consecutive ticks
leave `0.99^2`. -/
theorem antiwindup_decay_witness :
    (run_ticks scenario_env [scenario_input, scenario_input]
        (scenario_windup 1 0 0 0)).vel_integrator_torque_ =
      (99 / 100) ^ 2 * (scenario_windup 1 0 0 0).vel_integrator_torque_ :=
  (antiwindup_decay scenario_env).2 [scenario_input, scenario_input] (scenario_windup 1 0 0 0)
    ⟨(scenario_saturated_tick 1 0 0 0 (by norm_num)).1,
     by rw [(scenario_saturated_tick 1 0 0 0 (by norm_num)).2]
        exact (scenario_saturated_tick (1 * (99 / 100)) 100 2 10 (by norm_num)).1,
     trivial⟩

/-! ## C9: overspeed guard -/

theorem disjoint_bits {b m : Nat} (h : b &&& m = 0) (i : Nat) :
    (b.testBit i && m.testBit i) = false := by
  rw [← Nat.testBit_and, h, Nat.zero_testBit]

theorem or_and_of_disjoint (x : Nat) {b m : Nat} (h : b &&& m = 0) :
    (x ||| b) &&& m = x &&& m := by
  apply Nat.eq_of_testBit_eq; intro i
  have hd := disjoint_bits h i
  simp only [Nat.testBit_and, Nat.testBit_or]
  cases x.testBit i <;> cases hb : b.testBit i <;> cases hm : m.testBit i <;> simp_all

theorem ldiff_and_of_disjoint (x : Nat) {b m : Nat} (h : b &&& m = 0) :
    (Nat.ldiff x b) &&& m = x &&& m := by
  apply Nat.eq_of_testBit_eq; intro i
  have hd := disjoint_bits h i
  simp only [Nat.testBit_and, Nat.testBit_ldiff]
  cases x.testBit i <;> cases hb : b.testBit i <;> cases hm : m.testBit i <;> simp_all

theorem or_and_self (x m : Nat) : (x ||| m) &&& m = m := by
  apply Nat.eq_of_testBit_eq; intro i
  simp only [Nat.testBit_and, Nat.testBit_or]
  cases x.testBit i <;> cases m.testBit i <;> rfl

/-- The stages up to the position stage leave the configuration alone, apart
from the control mode (trajectory completion) and what the learner writes. -/
theorem setpoint_stages_config {env : Env} {inp : TickInput} {c : Controller}
    {r : Controller × ℚ × ℚ} (h : setpoint_stages env inp c = .ok r) :
    r.1.config_ = { c.config_ with
      control_mode := r.1.config_.control_mode
      vel_integrator_gain := r.1.config_.vel_integrator_gain
      anticogging := r.1.config_.anticogging } := by
  unfold setpoint_stages at h
  split at h
  · cases h
  rename_i c₂ h₂
  split at h
  · cases h
  rename_i c₃ h₃
  split at h
  · cases h
  rename_i r' h₄
  injection h with h; subst h
  rw [position_stage_writes h₄, calibration_stage_writes h₃, input_stage_writes h₂,
    wrap_input_pos_writes]

theorem overspeed_check_trip {inp : TickInput} {c : Controller} {v : ℚ}
    (hvel : inp.vel_estimate = some v) (hen : c.config_.enable_overspeed_error = true)
    (hv : |v| > c.config_.vel_limit_tolerance * c.config_.vel_limit) :
    overspeed_check inp c = .error ERROR_OVERSPEED := by
  unfold overspeed_check
  rw [if_pos hen, hvel]
  dsimp only
  rw [if_pos hv]

theorem overspeed_check_pass {inp : TickInput} {c : Controller} {v : ℚ}
    (hvel : inp.vel_estimate = some v)
    (h : ¬ (c.config_.enable_overspeed_error = true ∧
      |v| > c.config_.vel_limit_tolerance * c.config_.vel_limit)) :
    overspeed_check inp c = .ok () := by
  unfold overspeed_check
  by_cases hen : c.config_.enable_overspeed_error = true
  · rw [if_pos hen, hvel]
    dsimp only
    rw [if_neg (fun hv => h ⟨hen, hv⟩)]
  · rw [if_neg hen]

theorem torque_stages_after_check {env : Env} {inp : TickInput} {c c' : Controller}
    {vd gs : ℚ} (hcheck : overspeed_check inp c = .ok ())
    (h : torque_stages env inp c vd gs = .error c') :
    c' = c.set_error ERROR_INVALID_ESTIMATE := by
  unfold torque_stages at h
  rw [hcheck] at h
  dsimp only at h
  split at h
  · rename_i e he
    injection h with h
    rw [← h, feedforward_stage_error he]
  split at h
  · rename_i e he
    injection h with h
    rw [← h, velocity_stage_error he]
  split at h
  · rename_i e he
    injection h with h
    rw [← h, current_mode_limit_error he]
  · cases h

/-- C9: in a tick in which the shaper, the learner stage and the position stage
do not fail and the velocity estimate is present, `update()` returns fail with
the `OVERSPEED` bit set and `torque_output` unchanged if
`enable_overspeed_error` is set and `|vel_estimate| > vel_limit_tolerance *
vel_limit`; otherwise the tick leaves the `OVERSPEED` bit as it was. -/
theorem overspeed_guard (env : Env) (inp : TickInput) (c : Controller)
    (r : Controller × ℚ × ℚ) (v : ℚ)
    (hset : setpoint_stages env inp c = .ok r) (hvel : inp.vel_estimate = some v) :
    (c.config_.enable_overspeed_error = true ∧
        |v| > c.config_.vel_limit_tolerance * c.config_.vel_limit →
      (c.update env inp).2 = false ∧
      (c.update env inp).1.error_ &&& ERROR_OVERSPEED = ERROR_OVERSPEED ∧
      (c.update env inp).1.torque_output_ = c.torque_output_) ∧
    (¬ (c.config_.enable_overspeed_error = true ∧
        |v| > c.config_.vel_limit_tolerance * c.config_.vel_limit) →
      (c.update env inp).1.error_ &&& ERROR_OVERSPEED = c.error_ &&& ERROR_OVERSPEED) := by
  have hcfg := setpoint_stages_config hset
  have hen : r.1.config_.enable_overspeed_error = c.config_.enable_overspeed_error := by
    rw [hcfg]
  have htol : r.1.config_.vel_limit_tolerance = c.config_.vel_limit_tolerance := by rw [hcfg]
  have hlim : r.1.config_.vel_limit = c.config_.vel_limit := by rw [hcfg]
  have hk := setpoint_stages_ok hset
  have hasm : assemble env inp c = torque_stages env inp r.1 r.2.1 r.2.2 := by
    unfold assemble
    rw [hset]
  constructor
  · intro hcond
    have htrip : overspeed_check inp r.1 = .error ERROR_OVERSPEED :=
      overspeed_check_trip hvel (hen ▸ hcond.1) (by rw [htol, hlim]; exact hcond.2)
    have hts : torque_stages env inp r.1 r.2.1 r.2.2 =
        .error (r.1.set_error ERROR_OVERSPEED) := by
      unfold torque_stages
      rw [htrip]
    unfold Controller.update
    rw [hasm, hts]
    refine ⟨rfl, ?_, hk.2.1⟩
    show (r.1.error_ ||| ERROR_OVERSPEED) &&& ERROR_OVERSPEED = ERROR_OVERSPEED
    exact or_and_self _ _
  · intro hcond
    have hpass : overspeed_check inp r.1 = .ok () :=
      overspeed_check_pass hvel (by rw [hen, htol, hlim]; exact hcond)
    have hdisj : ERROR_INVALID_ESTIMATE &&& ERROR_OVERSPEED = 0 := by decide
    unfold Controller.update
    rw [hasm]
    cases hts : torque_stages env inp r.1 r.2.1 r.2.2 with
    | error c' =>
      rw [torque_stages_after_check hpass hts]
      show (r.1.error_ ||| ERROR_INVALID_ESTIMATE) &&& ERROR_OVERSPEED = _
      rw [or_and_of_disjoint _ hdisj, hk.1]
    | ok a =>
      show (Nat.ldiff a.c.error_ ERROR_INVALID_ESTIMATE) &&& ERROR_OVERSPEED = _
      rw [ldiff_and_of_disjoint _ hdisj, torque_stages_ok hts, hk.1]

/-- C9 witness: scenario 3 (`enable_overspeed_error`, `vel_limit = 10`,
`vel_limit_tolerance = 1.2`, `vel_estimate = 13`) fails with `OVERSPEED`. -/
theorem overspeed_guard_witness :
    (({ scenario_controller with
          config_ := { scenario_config with enable_overspeed_error := true } } : Controller).update scenario_env { scenario_input with vel_estimate := some 13 }).2 = false ∧
    (({ scenario_controller with
          config_ := { scenario_config with enable_overspeed_error := true } } : Controller).update scenario_env
        { scenario_input with vel_estimate := some 13 }).1.error_ &&& ERROR_OVERSPEED
      = ERROR_OVERSPEED ∧
    (({ scenario_controller with
          config_ := { scenario_config with enable_overspeed_error := true } } : Controller).update scenario_env
        { scenario_input with vel_estimate := some 13 }).1.torque_output_
      = ({ scenario_controller with
          config_ := { scenario_config with enable_overspeed_error := true } } : Controller).torque_output_ :=
  (overspeed_guard scenario_env { scenario_input with vel_estimate := some 13 } ({ scenario_controller with
          config_ := { scenario_config with enable_overspeed_error := true } } : Controller)
      ({ ({ scenario_controller with
          config_ := { scenario_config with enable_overspeed_error := true } } : Controller) with torque_setpoint_ := 2 }, 0, 1) 13
      (by simp [setpoint_stages, wrap_input_pos, input_stage, calibration_stage, position_stage,
            scenario_controller, scenario_config, scenario_anticogging, scenario_input,
            ControlMode.toNat])
      rfl).1
    ⟨rfl, by
      simp [scenario_config]
      norm_num [abs_of_pos]⟩

/-! ## C10: trajectory completion latch -/

/-- After the reference shaper, a tick changes none of: control mode, input
mode, velocity and torque setpoints, `trajectory_done_`, `input_pos_updated_`
and the planner. -/
theorem update_after_shaper {env : Env} {inp : TickInput} {c c₂ : Controller}
    (h : input_stage env inp (wrap_input_pos c) = .ok c₂) :
    (c.update env inp).1.config_.control_mode = c₂.config_.control_mode ∧
    (c.update env inp).1.config_.input_mode = c₂.config_.input_mode ∧
    (c.update env inp).1.vel_setpoint_ = c₂.vel_setpoint_ ∧
    (c.update env inp).1.torque_setpoint_ = c₂.torque_setpoint_ ∧
    (c.update env inp).1.trajectory_done_ = c₂.trajectory_done_ ∧
    (c.update env inp).1.input_pos_updated_ = c₂.input_pos_updated_ ∧
    (c.update env inp).1.trap_traj_ = c₂.trap_traj_ := by
  refine update_cases (fun c' => c'.config_.control_mode = c₂.config_.control_mode ∧
    c'.config_.input_mode = c₂.config_.input_mode ∧
    c'.vel_setpoint_ = c₂.vel_setpoint_ ∧
    c'.torque_setpoint_ = c₂.torque_setpoint_ ∧
    c'.trajectory_done_ = c₂.trajectory_done_ ∧
    c'.input_pos_updated_ = c₂.input_pos_updated_ ∧
    c'.trap_traj_ = c₂.trap_traj_) env inp c ?_ ?_ ?_ ?_ ?_ ?_
  · intro e he
    rw [h] at he
    cases he
  · intro c₂' h₂
    rw [h] at h₂
    injection h₂ with h₂; subst h₂
    exact ⟨rfl, rfl, rfl, rfl, rfl, rfl, rfl⟩
  · intro c₂' c₃ hq h₃
    rw [calibration_stage_writes h₃]
    exact hq
  · intro c₃ r hq hr
    rw [position_stage_writes hr]
    exact hq
  · intro c' e hq
    exact hq
  · intro a hq
    exact hq

/-- The shaper in `TRAP_TRAJ` mode at the completion tick: no replanning, the
latch branch of lines 295-301. -/
theorem trap_traj_latch_stage (env : Env) (inp : TickInput) (c : Controller)
    (hmode : c.config_.input_mode = INPUT_MODE_TRAP_TRAJ)
    (hupd : c.input_pos_updated_ = false) (hdone : c.trajectory_done_ = false)
    (ht : c.trap_traj_.t_ > c.trap_traj_.Tf_) :
    input_stage env inp (wrap_input_pos c) =
      .ok { wrap_input_pos c with
        config_ := { c.config_ with control_mode := CONTROL_MODE_POSITION_CONTROL }
        pos_setpoint_ := (wrap_input_pos c).input_pos_
        vel_setpoint_ := 0
        torque_setpoint_ := 0
        trajectory_done_ := true } := by
  have hw : (wrap_input_pos c).config_ = c.config_ ∧
      (wrap_input_pos c).input_pos_updated_ = false ∧
      (wrap_input_pos c).trajectory_done_ = false ∧
      (wrap_input_pos c).trap_traj_ = c.trap_traj_ := by
    rw [wrap_input_pos_writes]; exact ⟨rfl, hupd, hdone, rfl⟩
  unfold input_stage
  rw [hw.1, hmode]
  dsimp only
  have hre : trap_traj_replan env (wrap_input_pos c) = wrap_input_pos c := by
    unfold trap_traj_replan
    rw [hw.2.1]
    rfl
  rw [hre]
  unfold trap_traj_step
  rw [hw.2.2.1, hw.2.2.2, if_pos ht, hw.1]
  rfl

/-- The shaper in `TRAP_TRAJ` mode once the trajectory is done and no new
position came in: it writes nothing. -/
theorem trap_traj_done_stage (env : Env) (inp : TickInput) (c : Controller)
    (hmode : c.config_.input_mode = INPUT_MODE_TRAP_TRAJ)
    (hupd : c.input_pos_updated_ = false) (hdone : c.trajectory_done_ = true) :
    input_stage env inp (wrap_input_pos c) = .ok (wrap_input_pos c) := by
  have hw : (wrap_input_pos c).config_ = c.config_ ∧
      (wrap_input_pos c).input_pos_updated_ = false ∧
      (wrap_input_pos c).trajectory_done_ = true := by
    rw [wrap_input_pos_writes]; exact ⟨rfl, hupd, hdone⟩
  unfold input_stage
  rw [hw.1, hmode]
  dsimp only
  have hre : trap_traj_replan env (wrap_input_pos c) = wrap_input_pos c := by
    unfold trap_traj_replan
    rw [hw.2.1]
    rfl
  rw [hre]
  unfold trap_traj_step
  rw [hw.2.2]
  rfl

theorem trap_traj_done_tick {env : Env} {inp : TickInput} {c : Controller}
    (hmode : c.config_.input_mode = INPUT_MODE_TRAP_TRAJ)
    (hupd : c.input_pos_updated_ = false) (hdone : c.trajectory_done_ = true) :
    (c.update env inp).1.config_.input_mode = INPUT_MODE_TRAP_TRAJ ∧
    (c.update env inp).1.input_pos_updated_ = false ∧
    (c.update env inp).1.trajectory_done_ = true ∧
    (c.update env inp).1.trap_traj_ = c.trap_traj_ ∧
    (c.update env inp).1.vel_setpoint_ = c.vel_setpoint_ ∧
    (c.update env inp).1.torque_setpoint_ = c.torque_setpoint_ := by
  obtain ⟨-, h₂, h₃, h₄, h₅, h₆, h₇⟩ :=
    update_after_shaper (trap_traj_done_stage env inp c hmode hupd hdone)
  have hw : wrap_input_pos c = { c with input_pos_ := (wrap_input_pos c).input_pos_ } :=
    wrap_input_pos_writes c
  rw [hw] at h₂ h₃ h₄ h₅ h₆ h₇
  exact ⟨h₂.trans hmode, h₆.trans hupd, h₅.trans hdone, h₇, h₃, h₄⟩

theorem trap_traj_done_run (env : Env) (inps : List TickInput) :
    ∀ c : Controller, c.config_.input_mode = INPUT_MODE_TRAP_TRAJ →
      c.input_pos_updated_ = false → c.trajectory_done_ = true →
      (run_ticks env inps c).trajectory_done_ = true ∧
      (run_ticks env inps c).trap_traj_ = c.trap_traj_ ∧
      (run_ticks env inps c).vel_setpoint_ = c.vel_setpoint_ ∧
      (run_ticks env inps c).torque_setpoint_ = c.torque_setpoint_ := by
  induction inps with
  | nil => intro c _ _ hdone; exact ⟨hdone, rfl, rfl, rfl⟩
  | cons inp rest ih =>
    intro c hmode hupd hdone
    obtain ⟨h₁, h₂, h₃, h₄, h₅, h₆⟩ := @trap_traj_done_tick env inp c hmode hupd hdone
    obtain ⟨k₁, k₂, k₃, k₄⟩ := ih _ h₁ h₂ h₃
    exact ⟨k₁, k₂.trans h₄, k₃.trans h₅, k₄.trans h₆⟩

/-- C10: in `TRAP_TRAJ` mode with `input_pos_updated` false, (a) a tick that
starts with `trajectory_done` false and planner time `t > Tf` has the shaper
write `pos_setpoint = input_pos`, `vel_setpoint = 0`, `torque_setpoint = 0`,
`control_mode = POSITION` and `trajectory_done = true` without reading the
planner profile, and ends with these values and the planner (so `t`) unchanged, still in
`TRAP_TRAJ` mode with `input_pos_updated` false;
(b) a tick that starts with `trajectory_done` true has the shaper write
nothing, and any number of consecutive such ticks keep `trajectory_done` true
and leave the planner, `vel_setpoint` and `torque_setpoint` unchanged. -/
theorem trajectory_completion_latch (env : Env) :
    (∀ inp c, c.config_.input_mode = INPUT_MODE_TRAP_TRAJ → c.input_pos_updated_ = false →
      c.trajectory_done_ = false → c.trap_traj_.t_ > c.trap_traj_.Tf_ →
      input_stage env inp (wrap_input_pos c) =
        .ok { wrap_input_pos c with
          config_ := { c.config_ with control_mode := CONTROL_MODE_POSITION_CONTROL }
          pos_setpoint_ := (wrap_input_pos c).input_pos_
          vel_setpoint_ := 0
          torque_setpoint_ := 0
          trajectory_done_ := true } ∧
      (c.update env inp).1.config_.control_mode = CONTROL_MODE_POSITION_CONTROL ∧
      (c.update env inp).1.vel_setpoint_ = 0 ∧
      (c.update env inp).1.torque_setpoint_ = 0 ∧
      (c.update env inp).1.trajectory_done_ = true ∧
      (c.update env inp).1.trap_traj_ = c.trap_traj_ ∧
      (c.update env inp).1.config_.input_mode = INPUT_MODE_TRAP_TRAJ ∧
      (c.update env inp).1.input_pos_updated_ = false) ∧
    (∀ inp c, c.config_.input_mode = INPUT_MODE_TRAP_TRAJ → c.input_pos_updated_ = false →
      c.trajectory_done_ = true →
      input_stage env inp (wrap_input_pos c) = .ok (wrap_input_pos c)) ∧
    (∀ inps c, c.config_.input_mode = INPUT_MODE_TRAP_TRAJ → c.input_pos_updated_ = false →
      c.trajectory_done_ = true →
      (run_ticks env inps c).trajectory_done_ = true ∧
      (run_ticks env inps c).trap_traj_ = c.trap_traj_ ∧
      (run_ticks env inps c).vel_setpoint_ = c.vel_setpoint_ ∧
      (run_ticks env inps c).torque_setpoint_ = c.torque_setpoint_) := by
  refine ⟨?_, ?_, ?_⟩
  · intro inp c hmode hupd hdone ht
    have hst := trap_traj_latch_stage env inp c hmode hupd hdone ht
    obtain ⟨h₁, h₂, h₃, h₄, h₅, h₆, h₇⟩ := update_after_shaper hst
    have hw : (wrap_input_pos c).trap_traj_ = c.trap_traj_ ∧
        (wrap_input_pos c).input_pos_updated_ = c.input_pos_updated_ := by
      rw [wrap_input_pos_writes]; exact ⟨rfl, rfl⟩
    exact ⟨hst, h₁, h₃, h₄, h₅, h₇.trans hw.1, h₂.trans hmode, (h₆.trans hw.2).trans hupd⟩
  · intro inp c hmode hupd hdone
    exact trap_traj_done_stage env inp c hmode hupd hdone
  · intro inps c hmode hupd hdone
    exact trap_traj_done_run env inps c hmode hupd hdone

/-- C10 witness: scenario 6. The completion tick latches (`control_mode =
POSITION`, zero velocity and torque setpoints, `trajectory_done`, planner time
still 1), and three more ticks from the latched state change none of it. -/
theorem trajectory_completion_latch_witness :
    ((scenario_trajectory.update scenario_env scenario_input).1.config_.control_mode =
        CONTROL_MODE_POSITION_CONTROL ∧
      (scenario_trajectory.update scenario_env scenario_input).1.vel_setpoint_ = 0 ∧
      (scenario_trajectory.update scenario_env scenario_input).1.torque_setpoint_ = 0 ∧
      (scenario_trajectory.update scenario_env scenario_input).1.trajectory_done_ = true ∧
      (scenario_trajectory.update scenario_env scenario_input).1.trap_traj_ =
        scenario_trajectory.trap_traj_ ∧
      (scenario_trajectory.update scenario_env scenario_input).1.config_.input_mode =
        INPUT_MODE_TRAP_TRAJ ∧
      (scenario_trajectory.update scenario_env scenario_input).1.input_pos_updated_ = false) ∧
    ((run_ticks scenario_env [scenario_input, scenario_input, scenario_input]
        { scenario_trajectory with trajectory_done_ := true }).trajectory_done_ = true ∧
      (run_ticks scenario_env [scenario_input, scenario_input, scenario_input]
        { scenario_trajectory with trajectory_done_ := true }).trap_traj_ =
        scenario_trajectory.trap_traj_ ∧
      (run_ticks scenario_env [scenario_input, scenario_input, scenario_input]
        { scenario_trajectory with trajectory_done_ := true }).vel_setpoint_ = 1 / 5 ∧
      (run_ticks scenario_env [scenario_input, scenario_input, scenario_input]
        { scenario_trajectory with trajectory_done_ := true }).torque_setpoint_ = 1 / 100) :=
  ⟨((trajectory_completion_latch scenario_env).1 scenario_input scenario_trajectory rfl rfl rfl
      (by simp [scenario_trajectory]; norm_num)).2,
   (trajectory_completion_latch scenario_env).2.2
      [scenario_input, scenario_input, scenario_input]
      { scenario_trajectory with trajectory_done_ := true } rfl rfl rfl⟩

/-! ## The stages of a tick that returns ok -/

theorem setpoint_stages_trace {env : Env} {inp : TickInput} {c : Controller}
    {r : Controller × ℚ × ℚ} (h : setpoint_stages env inp c = .ok r) :
    ∃ c₂ c₃, input_stage env inp (wrap_input_pos c) = .ok c₂ ∧
      calibration_stage env inp c₂ = .ok c₃ ∧ position_stage inp c₃ = .ok r := by
  unfold setpoint_stages at h
  split at h
  · cases h
  rename_i c₂ h₂
  split at h
  · cases h
  rename_i c₃ h₃
  split at h
  · cases h
  rename_i r' h₄
  injection h with h; subst h
  exact ⟨c₂, c₃, h₂, h₃, h₄⟩

/-- A tick that returns ok has passed every stage: `r` is what the stages up to
the position stage hand on, `a` what is assembled before the torque limiter,
and the state after the tick is `finish` of `a`. -/
theorem update_ok_trace {env : Env} {inp : TickInput} {c : Controller}
    (h : (c.update env inp).2 = true) :
    ∃ r a, setpoint_stages env inp c = .ok r ∧
      torque_stages env inp r.1 r.2.1 r.2.2 = .ok a ∧ a.c = r.1 ∧
      (c.update env inp).1 = finish env inp a := by
  obtain ⟨a, ha, hfin⟩ := update_ok h
  unfold assemble at ha
  split at ha
  · cases ha
  · rename_i r hr
    exact ⟨r, a, hr, ha, torque_stages_ok ha, hfin⟩

/-- The values the position stage hands on: below `POSITION` mode `vel_des` is
`vel_setpoint` and the multiplier is 1; in `POSITION` mode they are
`position_gains` of the position error, which is `pos_setpoint -
pos_estimate_linear` for linear setpoints and `wrap_pm (pos_setpoint -
pos_estimate_circular, pos_wrap)` for circular ones (`pos_setpoint` being the
value at stage exit). -/
theorem position_stage_result {inp : TickInput} {c : Controller} {r : Controller × ℚ × ℚ}
    (h : position_stage inp c = .ok r) :
    (¬ CONTROL_MODE_POSITION_CONTROL ≤ r.1.config_.control_mode →
      r.2 = (r.1.vel_setpoint_, 1)) ∧
    (CONTROL_MODE_POSITION_CONTROL ≤ r.1.config_.control_mode →
      ∃ pos_err, r.2 = position_gains r.1 pos_err ∧
        (r.1.config_.circular_setpoints = false →
          ∃ p, inp.pos_estimate_linear = some p ∧ pos_err = r.1.pos_setpoint_ - p) ∧
        (r.1.config_.circular_setpoints = true →
          ∃ pc w, inp.pos_estimate_circular = some pc ∧ inp.pos_wrap = some w ∧
            pos_err = wrap_pm (r.1.pos_setpoint_ - pc) w)) := by
  unfold position_stage at h
  by_cases hm : c.config_.control_mode ≥ CONTROL_MODE_POSITION_CONTROL
  · rw [if_pos hm] at h
    by_cases hc : c.config_.circular_setpoints = true
    · rw [if_pos hc] at h
      split at h
      · rename_i pc w hpc hw
        injection h with h; subst h
        refine ⟨fun hno => absurd hm hno, fun _ => ⟨_, rfl, ?_, ?_⟩⟩
        · intro hf
          have hf' : c.config_.circular_setpoints = false := hf
          rw [hf'] at hc
          cases hc
        · intro _
          exact ⟨pc, w, hpc, hw, rfl⟩
      · cases h
    · rw [if_neg hc] at h
      split at h
      · rename_i p hp
        injection h with h; subst h
        refine ⟨fun hno => absurd hm hno, fun _ => ⟨_, rfl, ?_, ?_⟩⟩
        · intro _
          exact ⟨p, hp, rfl⟩
        · intro ht
          exact absurd ht hc
      · cases h
  · rw [if_neg hm] at h
    injection h with h; subst h
    exact ⟨fun _ => rfl, fun hyes => absurd hyes hm⟩

/-- The torque assembled by the stages after the position stage, from the
feed-forward torque `ff`: in velocity and position mode the velocity loop adds
its proportional and integral terms; below, the current-mode limiter applies
when enabled. -/
theorem torque_stages_torque {env : Env} {inp : TickInput} {c : Controller} {vd gs : ℚ}
    {a : Assembled} (h : torque_stages env inp c vd gs = .ok a) :
    ∃ ff, feedforward_stage env inp c = .ok ff ∧
      a.gain_scheduling_multiplier = gs ∧
      (CONTROL_MODE_VELOCITY_CONTROL ≤ c.config_.control_mode →
        ∃ v, inp.vel_estimate = some v ∧
          a.torque = ff + ((acim_gains inp c).1 * gs) * (velocity_limit c vd - v)
            + c.vel_integrator_torque_) ∧
      (c.config_.control_mode < CONTROL_MODE_VELOCITY_CONTROL →
        (c.config_.enable_current_mode_vel_limit = true →
          ∃ v, inp.vel_estimate = some v ∧
            a.torque = limitVel c.config_.vel_limit v (acim_gains inp c).1 ff) ∧
        (c.config_.enable_current_mode_vel_limit = false → a.torque = ff)) := by
  unfold torque_stages at h
  split at h
  · cases h
  split at h
  · cases h
  rename_i ff hff
  split at h
  · cases h
  rename_i rv hrv
  split at h
  · cases h
  rename_i t ht
  injection h with h; subst h
  refine ⟨ff, hff, rfl, ?_, ?_⟩
  · intro hmode
    have hnot : ¬ (c.config_.control_mode < CONTROL_MODE_VELOCITY_CONTROL ∧
        c.config_.enable_current_mode_vel_limit = true) := by
      intro hh
      have h₁ := hh.1
      simp only [ControlMode.le_iff, ControlMode.lt_iff] at hmode h₁
      omega
    unfold current_mode_limit at ht
    rw [if_neg hnot] at ht
    injection ht with ht
    unfold velocity_stage at hrv
    rw [if_pos hmode] at hrv
    split at hrv
    · cases hrv
    · rename_i v hv
      injection hrv with hrv
      refine ⟨v, hv, ?_⟩
      show t = _
      rw [← ht, ← hrv]
  · intro hmode
    have hnot : ¬ c.config_.control_mode ≥ CONTROL_MODE_VELOCITY_CONTROL := by
      intro hh
      have hh' : CONTROL_MODE_VELOCITY_CONTROL ≤ c.config_.control_mode := hh
      simp only [ControlMode.le_iff, ControlMode.lt_iff] at hmode hh'
      omega
    unfold velocity_stage at hrv
    rw [if_neg hnot] at hrv
    injection hrv with hrv
    subst hrv
    unfold current_mode_limit at ht
    constructor
    · intro hen
      rw [if_pos ⟨hmode, hen⟩] at ht
      split at ht
      · cases ht
      · rename_i v hv
        injection ht with ht
        exact ⟨v, hv, ht.symm⟩
    · intro hen
      have hnot' : ¬ (c.config_.control_mode < CONTROL_MODE_VELOCITY_CONTROL ∧
          c.config_.enable_current_mode_vel_limit = true) := by
        intro hh
        rw [hen] at hh
        exact absurd hh.2 (by decide)
      rw [if_neg hnot'] at ht
      injection ht with ht
      exact ht.symm

theorem torque_limit_eq_clamp (torque Tlim : ℚ) (hT : 0 ≤ Tlim) :
    (torque_limit torque Tlim).1 = clamp torque (-Tlim) Tlim := by
  unfold torque_limit clamp
  dsimp only
  split_ifs <;> first | rfl | (exfalso; linarith)

/-! ## C11: cascade torque law -/

theorem feedforward_inactive {env : Env} {inp : TickInput} {c : Controller} {ff : ℚ}
    (h : feedforward_stage env inp c = .ok ff)
    (hoff : c.config_.anticogging.calib_anticogging = false ∧
      ¬ (c.anticogging_valid_ = true ∧ c.config_.anticogging.anticogging_enabled = true)) :
    ff = c.torque_setpoint_ := by
  unfold feedforward_stage at h
  have hnot : ¬ (c.config_.anticogging.calib_anticogging = true ∨
      (c.anticogging_valid_ = true ∧ c.config_.anticogging.anticogging_enabled = true)) := by
    rintro (h₁ | h₂)
    · rw [hoff.1] at h₁; cases h₁
    · exact hoff.2 h₂
  rw [if_neg hnot] at h
  injection h with h
  exact h.symm

theorem acim_gains_other {inp : TickInput} (c : Controller)
    (h : inp.motor_type ≠ MOTOR_TYPE_ACIM) :
    acim_gains inp c = (c.config_.vel_gain, c.config_.vel_integrator_gain) := by
  unfold acim_gains
  rw [if_neg h]

/-- C11: for a tick that returns ok with a non-ACIM motor, the anti-cogging
feed-forward inactive, `enable_vel_limit` and `enable_current_mode_vel_limit`
off and `Tmax ≥ 0`, `torque_output = clamp(tau, -Tmax, Tmax)`, where `tau` is
`torque_setpoint` below `VELOCITY` mode, and `torque_setpoint + (vel_gain * gs)
* (vel_des - vel_estimate) + vel_integrator_torque` (pre-tick integrator)
otherwise; in `VELOCITY` mode `vel_des = vel_setpoint` and `gs = 1`, in
`POSITION` mode `vel_des = vel_setpoint + pos_gain * pos_err` and `gs` is the
gain-scheduling multiplier of `pos_err`, with `pos_err = pos_setpoint -
pos_estimate_linear` for linear setpoints. The setpoints and the control mode
are those at tick exit (written by the shaper of the same tick). -/
theorem cascade_torque_law (env : Env) (inp : TickInput) (c : Controller)
    (hok : (c.update env inp).2 = true)
    (hmotor : inp.motor_type ≠ MOTOR_TYPE_ACIM)
    (hoff : (c.update env inp).1.config_.anticogging.calib_anticogging = false ∧
      ¬ ((c.update env inp).1.anticogging_valid_ = true ∧
        (c.update env inp).1.config_.anticogging.anticogging_enabled = true))
    (hvl : c.config_.enable_vel_limit = false)
    (hcl : c.config_.enable_current_mode_vel_limit = false)
    (hT : 0 ≤ inp.max_available_torque) :
    ((c.update env inp).1.config_.control_mode < CONTROL_MODE_VELOCITY_CONTROL →
      (c.update env inp).1.torque_output_ =
        clamp (c.update env inp).1.torque_setpoint_
          (-inp.max_available_torque) inp.max_available_torque) ∧
    ((c.update env inp).1.config_.control_mode = CONTROL_MODE_VELOCITY_CONTROL →
      ∃ v, inp.vel_estimate = some v ∧
        (c.update env inp).1.torque_output_ =
          clamp ((c.update env inp).1.torque_setpoint_
              + (c.config_.vel_gain * 1) * ((c.update env inp).1.vel_setpoint_ - v)
              + c.vel_integrator_torque_)
            (-inp.max_available_torque) inp.max_available_torque) ∧
    ((c.update env inp).1.config_.control_mode = CONTROL_MODE_POSITION_CONTROL →
      ∃ v pos_err, inp.vel_estimate = some v ∧
        (c.config_.circular_setpoints = false →
          ∃ p, inp.pos_estimate_linear = some p ∧
            pos_err = (c.update env inp).1.pos_setpoint_ - p) ∧
        (c.config_.circular_setpoints = true →
          ∃ pc w, inp.pos_estimate_circular = some pc ∧ inp.pos_wrap = some w ∧
            pos_err = wrap_pm ((c.update env inp).1.pos_setpoint_ - pc) w) ∧
        (c.update env inp).1.torque_output_ =
          clamp ((c.update env inp).1.torque_setpoint_
              + (c.config_.vel_gain * (position_gains (c.update env inp).1 pos_err).2)
                * ((c.update env inp).1.vel_setpoint_ + c.config_.pos_gain * pos_err - v)
              + c.vel_integrator_torque_)
            (-inp.max_available_torque) inp.max_available_torque) := by
  obtain ⟨r, a, hr, hts, hac, hfin⟩ := update_ok_trace hok
  obtain ⟨c₂, c₃, -, -, h₄⟩ := setpoint_stages_trace hr
  obtain ⟨ff, hffs, -, hvel, hcur⟩ := torque_stages_torque hts
  obtain ⟨hbelow, hpos⟩ := position_stage_result h₄
  have hcfg := setpoint_stages_config hr
  have hvit : r.1.vel_integrator_torque_ = c.vel_integrator_torque_ :=
    (setpoint_stages_ok hr).2.2
  rw [hfin] at hoff ⊢
  have hout : (finish env inp a).torque_output_ =
      clamp a.torque (-inp.max_available_torque) inp.max_available_torque :=
    torque_limit_eq_clamp a.torque inp.max_available_torque hT
  have hcfg' : (finish env inp a).config_ = r.1.config_ := by rw [← hac]; rfl
  have hts' : (finish env inp a).torque_setpoint_ = r.1.torque_setpoint_ := by rw [← hac]; rfl
  have hvs' : (finish env inp a).vel_setpoint_ = r.1.vel_setpoint_ := by rw [← hac]; rfl
  have hps' : (finish env inp a).pos_setpoint_ = r.1.pos_setpoint_ := by rw [← hac]; rfl
  have hval' : (finish env inp a).anticogging_valid_ = r.1.anticogging_valid_ := by
    rw [← hac]; rfl
  have hgain : (acim_gains inp r.1).1 = c.config_.vel_gain := by
    rw [acim_gains_other r.1 hmotor, hcfg]
  have hlimit : ∀ vd, velocity_limit r.1 vd = vd := by
    intro vd
    have : r.1.config_.enable_vel_limit = false := by rw [hcfg]; exact hvl
    unfold velocity_limit
    simp [this]
  have hff : ff = r.1.torque_setpoint_ := by
    apply feedforward_inactive hffs
    rw [hcfg', hval'] at hoff
    exact hoff
  have hcl' : r.1.config_.enable_current_mode_vel_limit = false := by rw [hcfg]; exact hcl
  have hpg : ∀ pe, position_gains (finish env inp a) pe = position_gains r.1 pe := by
    intro pe
    unfold position_gains
    rw [hcfg', hvs']
  have hcirc : r.1.config_.circular_setpoints = c.config_.circular_setpoints := by rw [hcfg]
  have hpgain : r.1.config_.pos_gain = c.config_.pos_gain := by rw [hcfg]
  rw [hout, hcfg', hts', hvs', hps']
  refine ⟨?_, ?_, ?_⟩
  · intro hmode
    rw [(hcur hmode).2 hcl', hff]
  · intro hmode
    have hge : CONTROL_MODE_VELOCITY_CONTROL ≤ r.1.config_.control_mode := by
      rw [hmode]; decide
    have hnp : ¬ CONTROL_MODE_POSITION_CONTROL ≤ r.1.config_.control_mode := by
      rw [hmode]; decide
    obtain ⟨v, hv, ht⟩ := hvel hge
    refine ⟨v, hv, ?_⟩
    have h2 := hbelow hnp
    have hvd : r.2.1 = r.1.vel_setpoint_ := by rw [h2]
    have hgs : r.2.2 = 1 := by rw [h2]
    rw [ht, hff, hgain, hlimit, hvd, hgs, hvit]
  · intro hmode
    have hge : CONTROL_MODE_VELOCITY_CONTROL ≤ r.1.config_.control_mode := by
      rw [hmode]; decide
    have hp : CONTROL_MODE_POSITION_CONTROL ≤ r.1.config_.control_mode := by
      rw [hmode]; decide
    obtain ⟨v, hv, ht⟩ := hvel hge
    obtain ⟨pos_err, h2, hlin, hcir⟩ := hpos hp
    refine ⟨v, pos_err, hv, fun hc => hlin (hcirc.trans hc), fun hc => hcir (hcirc.trans hc), ?_⟩
    have hvd : r.2.1 = r.1.vel_setpoint_ + c.config_.pos_gain * pos_err := by
      rw [h2, ← hpgain]
      unfold position_gains
      dsimp only
      split_ifs <;> rfl
    have hgs : r.2.2 = (position_gains r.1 pos_err).2 := by rw [h2]
    rw [ht, hff, hgain, hlimit, hvd, hgs, hvit, hpg]

/-- C11 witnesses: scenario 1 (`PASSTHROUGH`, torque mode, `input_torque = 2`,
`Tmax = 10`) gives `torque_output = 2`; scenario 4 (position mode, `pos_gain =
10`, `gain_scheduling_width = 1`, `pos_err = 1/4`, `vel_gain = 1`,
`vel_estimate = 0`, zero integrator) gives `torque_output = 5/8`. -/
theorem cascade_torque_law_witness :
    (scenario_controller.update scenario_env scenario_input).1.torque_output_ = 2 ∧
    (∃ v pos_err, scenario_input.vel_estimate = some v ∧
      (∃ p, scenario_input.pos_estimate_linear = some p ∧
        pos_err = (scenario_position.update scenario_env scenario_input).1.pos_setpoint_ - p) ∧
      (scenario_position.update scenario_env scenario_input).1.torque_output_ =
        clamp ((scenario_position.update scenario_env scenario_input).1.torque_setpoint_
            + (scenario_position.config_.vel_gain *
                (position_gains (scenario_position.update scenario_env scenario_input).1
                  pos_err).2)
              * ((scenario_position.update scenario_env scenario_input).1.vel_setpoint_
                  + scenario_position.config_.pos_gain * pos_err - v)
            + scenario_position.vel_integrator_torque_)
          (-scenario_input.max_available_torque) scenario_input.max_available_torque) ∧
    (scenario_position.update scenario_env scenario_input).1.torque_output_ = 5 / 8 :=
  ⟨((cascade_torque_law scenario_env scenario_input scenario_controller
        (by simp [Controller.update, assemble, setpoint_stages, torque_stages, wrap_input_pos,
              input_stage, calibration_stage, position_stage, overspeed_check,
              feedforward_stage, velocity_stage, current_mode_limit, scenario_controller,
              scenario_config, scenario_anticogging, scenario_input, ControlMode.toNat])
        (by simp [scenario_input])
        (by simp [Controller.update, assemble, setpoint_stages, torque_stages, wrap_input_pos,
              input_stage, calibration_stage, position_stage, overspeed_check,
              feedforward_stage, velocity_stage, current_mode_limit, scenario_controller,
              scenario_config, scenario_anticogging, scenario_input, ControlMode.toNat, finish])
        rfl rfl (by simp [scenario_input])).1
      (by simp [Controller.update, assemble, setpoint_stages, torque_stages, wrap_input_pos,
            input_stage, calibration_stage, position_stage, overspeed_check,
            feedforward_stage, velocity_stage, current_mode_limit, scenario_controller,
            scenario_config, scenario_anticogging, scenario_input, ControlMode.toNat,
            finish])).trans
      (by simp [Controller.update, assemble, setpoint_stages, torque_stages, wrap_input_pos,
            input_stage, calibration_stage, position_stage, overspeed_check,
            feedforward_stage, velocity_stage, current_mode_limit, scenario_controller,
            scenario_config, scenario_anticogging, scenario_input, ControlMode.toNat,
            finish, clamp]
          norm_num),
   by
    obtain ⟨v, pos_err, hv, hlin, -, hout⟩ :=
      (cascade_torque_law scenario_env scenario_input scenario_position
        (by simp [Controller.update, assemble, setpoint_stages, torque_stages, wrap_input_pos,
              input_stage, calibration_stage, position_stage, overspeed_check,
              feedforward_stage, velocity_stage, current_mode_limit, scenario_controller,
              scenario_config, scenario_anticogging, scenario_input, ControlMode.toNat,
              scenario_position])
        (by simp [scenario_input])
        (by simp [Controller.update, assemble, setpoint_stages, torque_stages, wrap_input_pos,
              input_stage, calibration_stage, position_stage, overspeed_check,
              feedforward_stage, velocity_stage, current_mode_limit, scenario_controller,
              scenario_config, scenario_anticogging, scenario_input, ControlMode.toNat, finish,
              scenario_position])
        rfl rfl (by simp [scenario_input])).2.2
        (by simp [Controller.update, assemble, setpoint_stages, torque_stages, wrap_input_pos,
              input_stage, calibration_stage, position_stage, overspeed_check,
              feedforward_stage, velocity_stage, current_mode_limit, scenario_controller,
              scenario_config, scenario_anticogging, scenario_input, ControlMode.toNat, finish,
              scenario_position])
    exact ⟨v, pos_err, hv, hlin rfl, hout⟩,
   by
    simp [Controller.update, assemble, setpoint_stages, torque_stages, wrap_input_pos,
      input_stage, calibration_stage, position_stage, overspeed_check, feedforward_stage,
      velocity_stage, current_mode_limit, scenario_controller, scenario_config,
      scenario_anticogging, scenario_input, ControlMode.toNat, finish, scenario_position,
      position_gains, velocity_limit, acim_gains, torque_limit]
    norm_num [abs_of_pos]⟩

/-! ## C12: `VEL_RAMP` shaping -/

theorem clamp_of_abs_le (x m : ℚ) (h : |x| ≤ m) : clamp x (-m) m = x := by
  unfold clamp
  rw [abs_le] at h
  rw [if_neg (by linarith [h.1]), if_neg (by linarith [h.2])]

/-- The float difference `input_vel - vel_setpoint` for `vel_setpoint = 1/128`
and `input_vel = -(2^23 + 1) / 2^32`: the exact difference `-41943041 / 2^32`
needs 26 bits and rounds to `-5/512`. -/
theorem f32_round_full_step : f32_round (-8388609 / 4294967296 - 1 / 128) = -5 / 512 := by
  rw [f32_round_eq _ (-7) (-10485760) (by norm_num [abs_of_neg]) (by norm_num [abs_of_neg])
    (by norm_num) (by norm_num)]
  norm_num

/-- C12, as stated, fails in single precision: with `Ts = 0.000125f`,
`vel_ramp_rate = 100`, `vel_setpoint = 1/128` and `input_vel = -(2^23 + 1) /
2^32` the difference `input_vel - vel_setpoint` is within `|Ts *
vel_ramp_rate|`, exact or rounded, but the float difference rounds to `-5/512`
and the new `vel_setpoint` is `-1/512`, not `input_vel`. -/
theorem vel_ramp_misses_input_vel :
    |(scenario_ramp_from (1 / 128) (-8388609 / 4294967296)).input_vel_
        - (scenario_ramp_from (1 / 128) (-8388609 / 4294967296)).vel_setpoint_|
      ≤ |scenario_f32.current_meas_period
          * (scenario_ramp_from (1 / 128) (-8388609 / 4294967296)).config_.vel_ramp_rate| ∧
    |scenario_f32.fl ((scenario_ramp_from (1 / 128) (-8388609 / 4294967296)).input_vel_
        - (scenario_ramp_from (1 / 128) (-8388609 / 4294967296)).vel_setpoint_)|
      ≤ |scenario_f32.fl (scenario_f32.current_meas_period
          * (scenario_ramp_from (1 / 128) (-8388609 / 4294967296)).config_.vel_ramp_rate)| ∧
    ((scenario_ramp_from (1 / 128) (-8388609 / 4294967296)).update scenario_f32
        scenario_input).1.vel_setpoint_ = -1 / 512 ∧
    ((scenario_ramp_from (1 / 128) (-8388609 / 4294967296)).update scenario_f32
        scenario_input).1.vel_setpoint_ ≠ (scenario_ramp_from (1 / 128) (-8388609 / 4294967296)).input_vel_ := by
  have hset : ((scenario_ramp_from (1 / 128) (-8388609 / 4294967296)).update scenario_f32
      scenario_input).1.vel_setpoint_ = -1 / 512 := by
    rw [vel_ramp_setpoint _ _ _ rfl]
    show f32_round (1 / 128 + clamp (f32_round (-8388609 / 4294967296 - 1 / 128))
        (-|f32_round (8589935 / 68719476736 * 100)|)
        |f32_round (8589935 / 68719476736 * 100)|) = -1 / 512
    have hstep : clamp (-5 / 512 : ℚ) (-|(13421773 / 1073741824 : ℚ)|)
        |(13421773 / 1073741824 : ℚ)| = -5 / 512 := by
      unfold clamp
      norm_num [abs_of_pos]
    rw [f32_round_full_step, f32_round_max_step, hstep,
      f32_round_eq _ (-9) (-8388608) (by norm_num [abs_of_neg]) (by norm_num [abs_of_neg])
        (by norm_num) (by norm_num)]
    norm_num
  refine ⟨?_, ?_, hset, ?_⟩
  · show |(-8388609 / 4294967296 : ℚ) - 1 / 128| ≤ |(8589935 / 68719476736 : ℚ) * 100|
    norm_num [abs_of_pos, abs_of_neg]
  · show |f32_round (-8388609 / 4294967296 - 1 / 128)|
        ≤ |f32_round (8589935 / 68719476736 * 100)|
    rw [f32_round_full_step, f32_round_max_step]
    norm_num [abs_of_pos, abs_of_neg]
  · rw [hset]
    show (-1 / 512 : ℚ) ≠ -8388609 / 4294967296
    norm_num

/-- C12 (amended): in a tick with `input_mode = VEL_RAMP`, with `step =
clamp(input_vel - vel_setpoint, -|Ts * vel_ramp_rate|, |Ts * vel_ramp_rate|)`,
the shaper sets `vel_setpoint` to `vel_setpoint + step` and `torque_setpoint` to
`(step / Ts) * inertia`, every operation being the float operation, and leaves
`pos_setpoint` as it was; these two setpoints are still there at tick end; when
`|input_vel - vel_setpoint| ≤ |Ts * vel_ramp_rate|` the new `vel_setpoint` is
the float sum `vel_setpoint + (input_vel - vel_setpoint)`, which is `input_vel`
when the float difference is exact. -/
theorem vel_ramp_shaping (env : Env) (inp : TickInput) (c : Controller)
    (hmode : c.config_.input_mode = INPUT_MODE_VEL_RAMP) :
    (∃ c₂, input_stage env inp (wrap_input_pos c) = .ok c₂ ∧
      c₂.vel_setpoint_ = env.fl (c.vel_setpoint_ + clamp (env.fl (c.input_vel_ - c.vel_setpoint_))
          (-|env.fl (env.current_meas_period * c.config_.vel_ramp_rate)|)
          |env.fl (env.current_meas_period * c.config_.vel_ramp_rate)|) ∧
      c₂.torque_setpoint_ =
        env.fl (env.fl (clamp (env.fl (c.input_vel_ - c.vel_setpoint_))
          (-|env.fl (env.current_meas_period * c.config_.vel_ramp_rate)|)
          |env.fl (env.current_meas_period * c.config_.vel_ramp_rate)| / env.current_meas_period) * c.config_.inertia) ∧
      c₂.pos_setpoint_ = c.pos_setpoint_) ∧
    (c.update env inp).1.vel_setpoint_ = env.fl (c.vel_setpoint_ + clamp (env.fl (c.input_vel_ - c.vel_setpoint_))
          (-|env.fl (env.current_meas_period * c.config_.vel_ramp_rate)|)
          |env.fl (env.current_meas_period * c.config_.vel_ramp_rate)|) ∧
    (c.update env inp).1.torque_setpoint_ =
      env.fl (env.fl (clamp (env.fl (c.input_vel_ - c.vel_setpoint_))
          (-|env.fl (env.current_meas_period * c.config_.vel_ramp_rate)|)
          |env.fl (env.current_meas_period * c.config_.vel_ramp_rate)| / env.current_meas_period) * c.config_.inertia) ∧
    (|env.fl (c.input_vel_ - c.vel_setpoint_)|
        ≤ |env.fl (env.current_meas_period * c.config_.vel_ramp_rate)| →
      (c.update env inp).1.vel_setpoint_ =
        env.fl (c.vel_setpoint_ + env.fl (c.input_vel_ - c.vel_setpoint_)) ∧
      (env.fl (c.input_vel_ - c.vel_setpoint_) = c.input_vel_ - c.vel_setpoint_ →
        env.fl c.input_vel_ = c.input_vel_ →
        (c.update env inp).1.vel_setpoint_ = c.input_vel_)) := by
  have hst := @vel_ramp_stage env inp c hmode
  have hend := update_after_shaper hst
  have hpos : (wrap_input_pos c).pos_setpoint_ = c.pos_setpoint_ := by
    rw [wrap_input_pos_writes]
  refine ⟨⟨_, hst, rfl, rfl, hpos⟩, hend.2.2.1, hend.2.2.2.1, ?_⟩
  intro hsmall
  have hland : (c.update env inp).1.vel_setpoint_ =
      env.fl (c.vel_setpoint_ + env.fl (c.input_vel_ - c.vel_setpoint_)) := by
    rw [hend.2.2.1]
    show env.fl (c.vel_setpoint_ + clamp _ _ _) = _
    rw [clamp_of_abs_le _ _ hsmall]
  refine ⟨hland, fun hexact hfloat => ?_⟩
  rw [hland, hexact, add_sub_cancel, hfloat]

/-- C12 witness: scenario 2 in exact arithmetic (`Ts = 1/8000`, `vel_ramp_rate =
100`, `inertia = 1e-3`, velocity mode, `vel_setpoint = 0`, `input_vel = 5`,
`vel_gain = 0.1`, `vel_estimate = 0`, `Tmax = 10`) ends with `vel_setpoint =
0.0125`, `torque_setpoint = 0.1` and `torque_output = 0.10125`; with `input_vel
= 0.01`, within one step, the new `vel_setpoint` is `input_vel`. -/
theorem vel_ramp_shaping_witness :
    ((scenario_ramp 5).update scenario_env scenario_input).1.vel_setpoint_ = 1 / 80 ∧
    ((scenario_ramp 5).update scenario_env scenario_input).1.torque_setpoint_ = 1 / 10 ∧
    ((scenario_ramp 5).update scenario_env scenario_input).1.torque_output_ = 81 / 800 ∧
    ((scenario_ramp (1 / 100)).update scenario_env scenario_input).1.vel_setpoint_ =
      (scenario_ramp (1 / 100)).input_vel_ :=
  ⟨(vel_ramp_shaping scenario_env scenario_input (scenario_ramp 5) rfl).2.1.trans
      (by simp [scenario_ramp, scenario_controller, scenario_config, scenario_env, clamp]
          norm_num [abs_of_pos]),
   (vel_ramp_shaping scenario_env scenario_input (scenario_ramp 5) rfl).2.2.1.trans
      (by simp [scenario_ramp, scenario_controller, scenario_config, scenario_env, clamp]
          norm_num [abs_of_pos]),
   by
    simp [Controller.update, assemble, setpoint_stages, torque_stages, wrap_input_pos,
      input_stage, calibration_stage, position_stage, overspeed_check, feedforward_stage,
      velocity_stage, current_mode_limit, scenario_controller, scenario_config,
      scenario_anticogging, scenario_input, ControlMode.toNat, finish, scenario_ramp,
      velocity_limit, acim_gains, torque_limit, scenario_env, clamp]
    norm_num [abs_of_pos],
   ((vel_ramp_shaping scenario_env scenario_input (scenario_ramp (1 / 100)) rfl).2.2.2
      (by simp [scenario_ramp, scenario_controller, scenario_config, scenario_env]
          norm_num [abs_of_pos])).2 rfl rfl⟩

/-! ## C13: gain-scheduling V shape -/

/-- The multiplier computed by lines 354-357 from a position error. -/
theorem position_gains_multiplier (c : Controller) (pos_err : ℚ) :
    (c.config_.enable_gain_scheduling = true → 0 < c.config_.gain_scheduling_width →
      (pos_err = 0 → (position_gains c pos_err).2 = 0) ∧
      (c.config_.gain_scheduling_width ≤ |pos_err| → (position_gains c pos_err).2 = 1) ∧
      (|pos_err| ≤ c.config_.gain_scheduling_width →
        (position_gains c pos_err).2 = |pos_err| / c.config_.gain_scheduling_width) ∧
      0 ≤ (position_gains c pos_err).2 ∧ (position_gains c pos_err).2 ≤ 1) ∧
    (c.config_.enable_gain_scheduling = false → (position_gains c pos_err).2 = 1) := by
  unfold position_gains
  dsimp only
  constructor
  · intro hen hw
    by_cases hle : |pos_err| ≤ c.config_.gain_scheduling_width
    · rw [if_pos ⟨hen, hle⟩]
      dsimp only
      refine ⟨?_, ?_, fun _ => rfl, ?_, ?_⟩
      · intro h0
        rw [h0, abs_zero, zero_div]
      · intro hge
        rw [le_antisymm hle hge, div_self (ne_of_gt hw)]
      · exact div_nonneg (abs_nonneg _) (le_of_lt hw)
      · rw [div_le_one hw]
        exact hle
    · rw [if_neg (fun hh => hle hh.2)]
      dsimp only
      refine ⟨?_, fun _ => rfl, fun h => absurd h hle, by norm_num, le_refl _⟩
      intro h0
      rw [h0, abs_zero] at hle
      exact absurd (le_of_lt hw) hle
  · intro hen
    rw [if_neg (fun hh => by rw [hen] at hh; exact absurd hh.1 (by decide))]

/-- C13: in a tick that reaches the position stage in `POSITION` mode with
`enable_gain_scheduling` set and `gain_scheduling_width > 0`, the multiplier
`gs` handed to the velocity loop is 0 when `pos_err = 0`, 1 when `|pos_err| ≥
gain_scheduling_width`, `|pos_err| / gain_scheduling_width` when `|pos_err| ≤
gain_scheduling_width`, and always in `[0, 1]`; with `enable_gain_scheduling`
off, or below `POSITION` mode, `gs = 1`. Here `pos_err` is `pos_setpoint -
pos_estimate_linear` for linear setpoints and the wrapped circular difference
otherwise, and `gs` is the multiplier the later stages apply. -/
theorem gain_scheduling_shape (env : Env) (inp : TickInput) (c : Controller)
    (r : Controller × ℚ × ℚ) (hset : setpoint_stages env inp c = .ok r) :
    (CONTROL_MODE_POSITION_CONTROL ≤ r.1.config_.control_mode →
      c.config_.enable_gain_scheduling = true → 0 < c.config_.gain_scheduling_width →
      ∃ pos_err,
        (c.config_.circular_setpoints = false →
          ∃ p, inp.pos_estimate_linear = some p ∧ pos_err = r.1.pos_setpoint_ - p) ∧
        (c.config_.circular_setpoints = true →
          ∃ pc w, inp.pos_estimate_circular = some pc ∧ inp.pos_wrap = some w ∧
            pos_err = wrap_pm (r.1.pos_setpoint_ - pc) w) ∧
        (pos_err = 0 → r.2.2 = 0) ∧
        (c.config_.gain_scheduling_width ≤ |pos_err| → r.2.2 = 1) ∧
        (|pos_err| ≤ c.config_.gain_scheduling_width →
          r.2.2 = |pos_err| / c.config_.gain_scheduling_width) ∧
        0 ≤ r.2.2 ∧ r.2.2 ≤ 1) ∧
    (c.config_.enable_gain_scheduling = false ∨
        ¬ CONTROL_MODE_POSITION_CONTROL ≤ r.1.config_.control_mode → r.2.2 = 1) ∧
    (∀ a, torque_stages env inp r.1 r.2.1 r.2.2 = .ok a →
      a.gain_scheduling_multiplier = r.2.2) := by
  obtain ⟨c₂, c₃, -, -, h₄⟩ := setpoint_stages_trace hset
  obtain ⟨hbelow, hpos⟩ := position_stage_result h₄
  have hcfg := setpoint_stages_config hset
  have hen : r.1.config_.enable_gain_scheduling = c.config_.enable_gain_scheduling := by
    rw [hcfg]
  have hwd : r.1.config_.gain_scheduling_width = c.config_.gain_scheduling_width := by
    rw [hcfg]
  have hcirc : r.1.config_.circular_setpoints = c.config_.circular_setpoints := by rw [hcfg]
  refine ⟨?_, ?_, ?_⟩
  · intro hmode hon hw
    obtain ⟨pos_err, h2, hlin, hcir⟩ := hpos hmode
    have hgs : r.2.2 = (position_gains r.1 pos_err).2 := by rw [h2]
    obtain ⟨k₁, k₂, k₃, k₄, k₅⟩ :=
      (position_gains_multiplier r.1 pos_err).1 (hen.trans hon) (by rw [hwd]; exact hw)
    rw [hwd] at k₂ k₃
    rw [← hgs] at k₁ k₂ k₃ k₄ k₅
    exact ⟨pos_err, fun hc => hlin (hcirc.trans hc), fun hc => hcir (hcirc.trans hc),
      k₁, k₂, k₃, k₄, k₅⟩
  · rintro (hoff | hmode)
    · by_cases hm : CONTROL_MODE_POSITION_CONTROL ≤ r.1.config_.control_mode
      · obtain ⟨pos_err, h2, -, -⟩ := hpos hm
        rw [h2]
        exact (position_gains_multiplier r.1 pos_err).2 (hen.trans hoff)
      · rw [hbelow hm]
    · rw [hbelow hmode]
  · intro a ha
    obtain ⟨-, -, hgs, -, -⟩ := torque_stages_torque ha
    exact hgs

/-- C13 witness: scenario 4 reaches the position stage with `pos_err = 1/4` and
`gain_scheduling_width = 1`; the multiplier handed on is `1/4`. -/
theorem gain_scheduling_shape_witness :
    ∃ pos_err : ℚ,
      (∃ p, scenario_input.pos_estimate_linear = some p ∧ pos_err = 1 / 4 - p) ∧
      (|pos_err| ≤ 1 → (1 / 4 : ℚ) = |pos_err| / 1) ∧ (0 : ℚ) ≤ 1 / 4 ∧ (1 / 4 : ℚ) ≤ 1 := by
  obtain ⟨pos_err, hlin, -, -, -, h₃, h₄, h₅⟩ :=
    (gain_scheduling_shape scenario_env scenario_input scenario_position
      (({ scenario_position with
          pos_setpoint_ := 1 / 4
          vel_setpoint_ := 0
          torque_setpoint_ := 0 } : Controller), 5 / 2, 1 / 4)
      (by
        simp [setpoint_stages, wrap_input_pos, input_stage, calibration_stage, position_stage,
          position_gains, scenario_position, scenario_controller, scenario_config,
          scenario_anticogging, scenario_input, ControlMode.toNat]
        norm_num [abs_of_pos])).1
      (by simp [scenario_position, scenario_config, ControlMode.toNat])
      rfl (by simp [scenario_position, scenario_config])
  exact ⟨pos_err, hlin rfl, h₃, h₄, h₅⟩

/-! ## C14: `MIRROR` mode outcomes -/

/-- A tick whose reference shaper fails ends in the wrapped pre-state with the
shaper's error bit set. -/
theorem update_of_input_error {env : Env} {inp : TickInput} {c : Controller} {e : Nat}
    (h : input_stage env inp (wrap_input_pos c) = .error e) :
    c.update env inp = ((wrap_input_pos c).set_error e, false) := by
  unfold Controller.update assemble setpoint_stages
  rw [h]

theorem mirror_stage (env : Env) (inp : TickInput) (c : Controller)
    (hmode : c.config_.input_mode = INPUT_MODE_MIRROR) :
    input_stage env inp (wrap_input_pos c) =
      if c.config_.axis_to_mirror < env.AXIS_COUNT then
        match inp.other_pos c.config_.axis_to_mirror,
            inp.other_vel c.config_.axis_to_mirror with
        | some other_pos, some other_vel =>
          .ok { wrap_input_pos c with
            pos_setpoint_ := other_pos * c.config_.mirror_ratio
            vel_setpoint_ := other_vel * c.config_.mirror_ratio }
        | _, _ => .error ERROR_INVALID_ESTIMATE
      else .error ERROR_INVALID_MIRROR_AXIS := by
  have hw : (wrap_input_pos c).config_ = c.config_ := by rw [wrap_input_pos_writes]
  have hm : (wrap_input_pos c).config_.input_mode = INPUT_MODE_MIRROR := by
    rw [hw]; exact hmode
  unfold input_stage
  rw [hm]
  dsimp only
  rw [hw]

theorem wrapped_error_state (c : Controller) (e : Nat) :
    ((wrap_input_pos c).set_error e).error_ = c.error_ ||| e ∧
    ((wrap_input_pos c).set_error e).pos_setpoint_ = c.pos_setpoint_ ∧
    ((wrap_input_pos c).set_error e).vel_setpoint_ = c.vel_setpoint_ ∧
    ((wrap_input_pos c).set_error e).torque_setpoint_ = c.torque_setpoint_ ∧
    ((wrap_input_pos c).set_error e).torque_output_ = c.torque_output_ := by
  rw [wrap_input_pos_writes]
  exact ⟨rfl, rfl, rfl, rfl, rfl⟩

/-- C14: in a tick with `input_mode = MIRROR`, (a) if `axis_to_mirror ≥
AXIS_COUNT` the tick fails, sets `INVALID_MIRROR_AXIS` and leaves the
`INVALID_ESTIMATE` bit as it was; (b) if the axis is in range and its position
or velocity estimate is absent the tick fails and sets `INVALID_ESTIMATE`; in
both cases the three setpoints and `torque_output` are unchanged; (c) otherwise
the shaper sets `pos_setpoint = other_pos * mirror_ratio`, `vel_setpoint =
other_vel * mirror_ratio` and leaves `torque_setpoint` unchanged. -/
theorem mirror_outcomes (env : Env) (inp : TickInput) (c : Controller)
    (hmode : c.config_.input_mode = INPUT_MODE_MIRROR) :
    (env.AXIS_COUNT ≤ c.config_.axis_to_mirror →
      (c.update env inp).2 = false ∧
      (c.update env inp).1.error_ = c.error_ ||| ERROR_INVALID_MIRROR_AXIS ∧
      (c.update env inp).1.error_ &&& ERROR_INVALID_ESTIMATE =
        c.error_ &&& ERROR_INVALID_ESTIMATE ∧
      (c.update env inp).1.pos_setpoint_ = c.pos_setpoint_ ∧
      (c.update env inp).1.vel_setpoint_ = c.vel_setpoint_ ∧
      (c.update env inp).1.torque_setpoint_ = c.torque_setpoint_ ∧
      (c.update env inp).1.torque_output_ = c.torque_output_) ∧
    (c.config_.axis_to_mirror < env.AXIS_COUNT →
      inp.other_pos c.config_.axis_to_mirror = none ∨
        inp.other_vel c.config_.axis_to_mirror = none →
      (c.update env inp).2 = false ∧
      (c.update env inp).1.error_ = c.error_ ||| ERROR_INVALID_ESTIMATE ∧
      (c.update env inp).1.pos_setpoint_ = c.pos_setpoint_ ∧
      (c.update env inp).1.vel_setpoint_ = c.vel_setpoint_ ∧
      (c.update env inp).1.torque_setpoint_ = c.torque_setpoint_ ∧
      (c.update env inp).1.torque_output_ = c.torque_output_) ∧
    (∀ other_pos other_vel, c.config_.axis_to_mirror < env.AXIS_COUNT →
      inp.other_pos c.config_.axis_to_mirror = some other_pos →
      inp.other_vel c.config_.axis_to_mirror = some other_vel →
      ∃ c₂, input_stage env inp (wrap_input_pos c) = .ok c₂ ∧
        c₂.pos_setpoint_ = other_pos * c.config_.mirror_ratio ∧
        c₂.vel_setpoint_ = other_vel * c.config_.mirror_ratio ∧
        c₂.torque_setpoint_ = c.torque_setpoint_) := by
  have hst := mirror_stage env inp c hmode
  refine ⟨?_, ?_, ?_⟩
  · intro hout
    rw [if_neg (Nat.not_lt.mpr hout)] at hst
    rw [update_of_input_error hst]
    obtain ⟨h₁, h₂, h₃, h₄, h₅⟩ := wrapped_error_state c ERROR_INVALID_MIRROR_AXIS
    refine ⟨rfl, h₁, ?_, h₂, h₃, h₄, h₅⟩
    show ((wrap_input_pos c).set_error ERROR_INVALID_MIRROR_AXIS).error_ &&& _ = _
    rw [h₁]
    exact or_and_of_disjoint _ (by decide)
  · intro hin habs
    rw [if_pos hin] at hst
    have hst' : input_stage env inp (wrap_input_pos c) = .error ERROR_INVALID_ESTIMATE := by
      rw [hst]
      rcases habs with h | h
      · rw [h]
      · rw [h]
        cases inp.other_pos c.config_.axis_to_mirror <;> rfl
    rw [update_of_input_error hst']
    obtain ⟨h₁, h₂, h₃, h₄, h₅⟩ := wrapped_error_state c ERROR_INVALID_ESTIMATE
    exact ⟨rfl, h₁, h₂, h₃, h₄, h₅⟩
  · intro other_pos other_vel hin hp hv
    rw [if_pos hin, hp, hv] at hst
    refine ⟨_, hst, rfl, rfl, ?_⟩
    show (wrap_input_pos c).torque_setpoint_ = c.torque_setpoint_
    rw [wrap_input_pos_writes]

/-- C14 witness, with two axes: mirroring axis 2 fails with
`INVALID_MIRROR_AXIS`; mirroring axis 1 whose position estimate is absent fails
with `INVALID_ESTIMATE`; mirroring axis 1 at position 3 and velocity 2 with
`mirror_ratio = 2` has the shaper write `pos_setpoint = 6`, `vel_setpoint = 4`. -/
theorem mirror_outcomes_witness :
    (((scenario_mirror 2).update scenario_env scenario_input).2 = false ∧
      ((scenario_mirror 2).update scenario_env scenario_input).1.error_ =
        (scenario_mirror 2).error_ ||| ERROR_INVALID_MIRROR_AXIS) ∧
    (((scenario_mirror 1).update scenario_env
        { scenario_input with other_pos := fun _ => none }).2 = false ∧
      ((scenario_mirror 1).update scenario_env
        { scenario_input with other_pos := fun _ => none }).1.error_ =
        (scenario_mirror 1).error_ ||| ERROR_INVALID_ESTIMATE) ∧
    (∃ c₂, input_stage scenario_env
        { scenario_input with other_pos := fun _ => some 3, other_vel := fun _ => some 2 }
        (wrap_input_pos (scenario_mirror 1)) = .ok c₂ ∧
      c₂.pos_setpoint_ = 3 * 2 ∧ c₂.vel_setpoint_ = 2 * 2) :=
  ⟨⟨((mirror_outcomes scenario_env scenario_input (scenario_mirror 2) rfl).1
        (by decide)).1,
     ((mirror_outcomes scenario_env scenario_input (scenario_mirror 2) rfl).1
        (by decide)).2.1⟩,
   ⟨((mirror_outcomes scenario_env { scenario_input with other_pos := fun _ => none }
        (scenario_mirror 1) rfl).2.1 (by decide) (Or.inl rfl)).1,
     ((mirror_outcomes scenario_env { scenario_input with other_pos := fun _ => none }
        (scenario_mirror 1) rfl).2.1 (by decide) (Or.inl rfl)).2.1⟩,
   by
    obtain ⟨c₂, h₁, h₂, h₃, -⟩ :=
      (mirror_outcomes scenario_env
        { scenario_input with other_pos := fun _ => some 3, other_vel := fun _ => some 2 }
        (scenario_mirror 1) rfl).2.2 3 2 (by decide) rfl rfl
    exact ⟨c₂, h₁, h₂, h₃⟩⟩

/-! ## C15: calibration start/stop round trip -/

/-- No tick writes the saved operator gain `old_vel_integrator_gain_`. -/
theorem update_keeps_saved_gain (env : Env) (inp : TickInput) (c : Controller) :
    (c.update env inp).1.old_vel_integrator_gain_ = c.old_vel_integrator_gain_ := by
  refine update_cases
    (fun c' => c'.old_vel_integrator_gain_ = c.old_vel_integrator_gain_) env inp c
    ?_ ?_ ?_ ?_ ?_ ?_
  · intro e _
    show (wrap_input_pos c).old_vel_integrator_gain_ = _
    rw [wrap_input_pos_writes]
  · intro c₂ h₂
    rw [input_stage_writes h₂, wrap_input_pos_writes]
  · intro c₂ c₃ hq h₃
    rw [calibration_stage_writes h₃]
    exact hq
  · intro c₃ r hq hr
    rw [position_stage_writes hr]
    exact hq
  · intro c' e hq
    exact hq
  · intro a hq
    exact hq

theorem run_ticks_keeps_saved_gain (env : Env) (inps : List TickInput) :
    ∀ c : Controller,
      (run_ticks env inps c).old_vel_integrator_gain_ = c.old_vel_integrator_gain_ := by
  induction inps with
  | nil => intro c; rfl
  | cons inp rest ih =>
    intro c
    show (run_ticks env rest (c.update env inp).1).old_vel_integrator_gain_ = _
    rw [ih, update_keeps_saved_gain]

/-- C15: when the start is allowed (axis error-free and in closed loop) with
operator gain `g = config_.vel_integrator_gain`, after
`start_anticogging_calibration`, any finite run of `update()` ticks with
arbitrary readings, and `stop_anticogging_calibration`, the configuration has
`vel_integrator_gain = g`, `calib_anticogging` is false and `input_vel` is 0;
when the start is not allowed, `start_anticogging_calibration` changes
nothing. -/
theorem calibration_round_trip (env : Env) (c : Controller)
    (axis_error axis_current_state : Nat) (pos_estimate : ℚ) (inps : List TickInput) :
    (axis_error = Axis_ERROR_NONE ∧ axis_current_state = AXIS_STATE_CLOSED_LOOP_CONTROL →
      (run_ticks env inps
          (c.start_anticogging_calibration axis_error axis_current_state pos_estimate)
        ).stop_anticogging_calibration.config_.vel_integrator_gain =
        c.config_.vel_integrator_gain ∧
      (run_ticks env inps
          (c.start_anticogging_calibration axis_error axis_current_state pos_estimate)
        ).stop_anticogging_calibration.config_.anticogging.calib_anticogging = false ∧
      (run_ticks env inps
          (c.start_anticogging_calibration axis_error axis_current_state pos_estimate)
        ).stop_anticogging_calibration.input_vel_ = 0) ∧
    (¬ (axis_error = Axis_ERROR_NONE ∧
          axis_current_state = AXIS_STATE_CLOSED_LOOP_CONTROL) →
      c.start_anticogging_calibration axis_error axis_current_state pos_estimate = c) := by
  constructor
  · intro hallowed
    refine ⟨?_, rfl, rfl⟩
    show (run_ticks env inps _).old_vel_integrator_gain_ = _
    rw [run_ticks_keeps_saved_gain]
    unfold Controller.start_anticogging_calibration
    rw [if_pos hallowed]
  · intro hno
    unfold Controller.start_anticogging_calibration
    rw [if_neg hno]

/-- C15 witness: operator gain 3, start allowed, two ticks, stop: the gain is 3
again; with an axis error the start changes nothing. -/
theorem calibration_round_trip_witness :
    (run_ticks scenario_env [scenario_input, scenario_input]
        (({ scenario_controller with
            config_ := { scenario_config with vel_integrator_gain := 3 } } :
          Controller).start_anticogging_calibration 0 8 0)
      ).stop_anticogging_calibration.config_.vel_integrator_gain = 3 ∧
    scenario_controller.start_anticogging_calibration 1 8 0 = scenario_controller :=
  ⟨((calibration_round_trip scenario_env
        { scenario_controller with
          config_ := { scenario_config with vel_integrator_gain := 3 } }
        0 8 0 [scenario_input, scenario_input]).1 ⟨by decide, by decide⟩).1,
   (calibration_round_trip scenario_env scenario_controller 1 8 0 []).2
      (fun h => absurd h.1 (by decide))⟩

/-! ## C16: circular deposit index -/

/-- While `idx + offset` is not negative (and fits the word) the deposit index
is the mathematical remainder. -/
theorem deposit_index_of_nonneg (env : Env) (idx : Nat) (offset : ℤ) (size : Nat)
    (h₀ : 0 ≤ (idx : ℤ) + offset) (h₁ : (idx : ℤ) + offset < 2 ^ env.size_t_bits) :
    (deposit_index env idx offset size : ℤ) = ((idx : ℤ) + offset) % (size : ℤ) := by
  unfold deposit_index
  rw [Int.emod_eq_of_lt h₀ h₁]
  obtain ⟨n, hn⟩ := Int.eq_ofNat_of_zero_le h₀
  rw [hn, Int.toNat_ofNat]
  norm_cast

/-- The deposit loop on a 192-entry map with `width = 3`, `idx = 0`, `frac = 0`
and a correction of `1/800`: the first iteration (`offset = -1`) adds to entry
63 and leaves entry 191 alone. -/
theorem deposit_small_map (m : List ℚ) (hlen : m.length = 192) :
    (anticogging_deposit scenario_env 1 3 0 (1 / 800) 0 m).getD 63 0
      = m.getD 63 0 + 1 / 800 ∧
    (anticogging_deposit scenario_env 1 3 0 (1 / 800) 0 m).getD 191 0
      = m.getD 191 0 := by
  have h3 : float_to_int 3 = 3 := by simp [float_to_int]
  have hr : List.range 3 = [0, 1, 2] := by decide
  have hd0 : deposit_index scenario_env 0 (-1) 192 = 63 := by decide
  have hd1 : deposit_index scenario_env 0 0 192 = 0 := by decide
  have hd2 : deposit_index scenario_env 0 1 192 = 1 := by decide
  have ht : Int.tdiv 3 2 = 1 := by decide
  have hpdf : ∀ sigma x, scenario_env.pdf sigma x = 1 / (sigma * (1 + x * x)) :=
    fun _ _ => rfl
  unfold anticogging_deposit
  rw [h3]
  simp [hr, ht, hlen, hd0, hd1, hd2, hpdf, List.getD_eq_getElem?_getD, List.getElem?_set,
    clamp]
  norm_num

/-- The learner step of `scenario_learning` at `pos_cpr = 0` with velocity
error 1 runs the deposit loop with `width = 192/64 = 3`, `idx = 0`, `frac = 0`
and correction `10 * 1 * Ts = 1/800`. -/
theorem learning_step_map (m : List ℚ) (hlen : m.length = 192) :
    ((scenario_learning m).anticogging_calibration scenario_env
        AXIS_STATE_CLOSED_LOOP_CONTROL 0 0 0 1).config_.anticogging.cogging_map =
      anticogging_deposit scenario_env 1 3 0 (1 / 800) 0 m := by
  have hTs : scenario_env.current_meas_period = 1 / 8000 := rfl
  have hbits : scenario_env.size_t_bits = 32 := rfl
  simp [Controller.anticogging_calibration, anticogging_active_step, anticogging_schedule,
    termination_check, scenario_learning, scenario_controller, scenario_config,
    scenario_anticogging, float_to_int, float_to_size_t, hlen, hTs, hbits]
  norm_num

/-- C16 (code at the failing input): with a 192-entry map and `pos_cpr = 0`
the first deposit of a learner step has `idx = 0` and `offset = -1`; the code
computes `(idx + offset) % N` in 32-bit unsigned arithmetic, `(2^32 - 1) % 192
= 63`, and adds the correction to entry 63, while the circular neighbour
`(idx + offset) mod N` is entry 191, which stays untouched. For a 3600-entry
map the first offset is `-28` and the code's index is 1668 instead of 3572. -/
theorem deposit_wraps_unsigned :
    deposit_index scenario_env 0 (0 - Int.tdiv 3 2) 192 = 63 ∧
    ((0 : ℤ) + (0 - Int.tdiv 3 2)) % 192 = 191 ∧
    (((scenario_learning (List.replicate 192 0)).anticogging_calibration scenario_env
        AXIS_STATE_CLOSED_LOOP_CONTROL 0 0 0 1).config_.anticogging.cogging_map).getD 63 0
      = 1 / 800 ∧
    (((scenario_learning (List.replicate 192 0)).anticogging_calibration scenario_env
        AXIS_STATE_CLOSED_LOOP_CONTROL 0 0 0 1).config_.anticogging.cogging_map).getD 191 0
      = 0 ∧
    deposit_index scenario_env 0 (0 - Int.tdiv 56 2) 3600 = 1668 ∧
    ((0 : ℤ) + (0 - Int.tdiv 56 2)) % 3600 = 3572 := by
  have hlen : (List.replicate 192 (0 : ℚ)).length = 192 := List.length_replicate _ _
  have h63 : (List.replicate 192 (0 : ℚ)).getD 63 0 = 0 := by
    rw [List.getD_eq_getElem?_getD, List.getElem?_replicate]
    simp
  have h191 : (List.replicate 192 (0 : ℚ)).getD 191 0 = 0 := by
    rw [List.getD_eq_getElem?_getD, List.getElem?_replicate]
    simp
  refine ⟨by decide, by decide, ?_, ?_, by decide, by decide⟩
  · rw [learning_step_map _ hlen, (deposit_small_map _ hlen).1, h63]
    norm_num
  · rw [learning_step_map _ hlen, (deposit_small_map _ hlen).2, h191]

/-! ## C17: de-bias -/

theorem sum_map_sub_const (m : List ℚ) (μ : ℚ) :
    (m.map (fun val => val - μ)).sum = m.sum - (m.length : ℚ) * μ := by
  induction m with
  | nil => simp
  | cons a t ih =>
    simp only [List.map_cons, List.sum_cons, List.length_cons, ih]
    push_cast
    ring

/-- The map written by `anticogging_remove_bias`: every entry minus the mean. -/
theorem remove_bias_map (c : Controller) :
    c.anticogging_remove_bias.config_.anticogging.cogging_map =
      c.config_.anticogging.cogging_map.map
        (fun val => val - c.config_.anticogging.cogging_map.sum /
          (c.config_.anticogging.cogging_map.length : ℚ)) := by
  unfold Controller.anticogging_remove_bias
  dsimp only
  rw [← List.sum_eq_foldl]

theorem remove_bias_sum (c : Controller) (hne : c.config_.anticogging.cogging_map ≠ []) :
    c.anticogging_remove_bias.config_.anticogging.cogging_map.sum = 0 := by
  rw [remove_bias_map, sum_map_sub_const]
  have hlen : (c.config_.anticogging.cogging_map.length : ℚ) ≠ 0 := by
    have := List.length_pos.mpr hne
    exact_mod_cast (Nat.pos_iff_ne_zero.mp this)
  field_simp

/-- C17: for a non-empty cogging map, after `anticogging_remove_bias` the map
has the same length, every entry is its previous value minus the arithmetic
mean of the previous map, the entries sum to 0, and a second
`anticogging_remove_bias` changes nothing. -/
theorem remove_bias_spec (c : Controller) (hne : c.config_.anticogging.cogging_map ≠ []) :
    c.anticogging_remove_bias.config_.anticogging.cogging_map.length =
      c.config_.anticogging.cogging_map.length ∧
    (∀ i, i < c.config_.anticogging.cogging_map.length →
      c.anticogging_remove_bias.config_.anticogging.cogging_map.getD i 0 =
        c.config_.anticogging.cogging_map.getD i 0 -
          c.config_.anticogging.cogging_map.sum /
            (c.config_.anticogging.cogging_map.length : ℚ)) ∧
    c.anticogging_remove_bias.config_.anticogging.cogging_map.sum = 0 ∧
    c.anticogging_remove_bias.anticogging_remove_bias = c.anticogging_remove_bias := by
  have hsum := remove_bias_sum c hne
  refine ⟨?_, ?_, hsum, ?_⟩
  · rw [remove_bias_map, List.length_map]
  · intro i hi
    rw [remove_bias_map, List.getD_eq_getElem?_getD, List.getD_eq_getElem?_getD,
      List.getElem?_map, List.getElem?_eq_getElem hi]
    rfl
  · have hmap : c.anticogging_remove_bias.anticogging_remove_bias.config_.anticogging.cogging_map
        = c.anticogging_remove_bias.config_.anticogging.cogging_map := by
      rw [remove_bias_map c.anticogging_remove_bias, hsum, zero_div]
      exact List.map_id'' (fun x => sub_zero x) _
    have hshape : ∀ d : Controller, d.anticogging_remove_bias =
        { d with config_ := { d.config_ with
            anticogging := { d.config_.anticogging with
              cogging_map := d.anticogging_remove_bias.config_.anticogging.cogging_map } } } :=
      fun _ => rfl
    rw [hshape c.anticogging_remove_bias, hmap]

/-- C17 witness: the map `[1, 2, 3]` (mean 2) sums to 0 after the de-bias. -/
theorem remove_bias_spec_witness :
    (({ scenario_controller with
        config_ := { scenario_config with
          anticogging := { scenario_anticogging with cogging_map := [1, 2, 3] } } } :
      Controller).anticogging_remove_bias).config_.anticogging.cogging_map.sum = 0 :=
  (remove_bias_spec
    { scenario_controller with
      config_ := { scenario_config with
        anticogging := { scenario_anticogging with cogging_map := [1, 2, 3] } } }
    (by simp)).2.2.1

/-! ## C18: learner error averaging -/

/-- The running statistics written by an active learner step (lines 99-120):
the filtered velocity error, the turn count and the average error. None of the
three writes is conditional. -/
theorem active_step_statistics (env : Env) (c : Controller) (p q v vs : ℚ) :
    (anticogging_active_step env c p q v vs).anticogging_vel_error_filtered_ =
      c.anticogging_vel_error_filtered_
        + 10 * env.current_meas_period * ((vs - v) - c.anticogging_vel_error_filtered_) ∧
    (anticogging_active_step env c p q v vs).anticogging_turn_count_ =
      float_to_int (p - c.anticogging_start_pos_) ∧
    (anticogging_active_step env c p q v vs).anticogging_average_error_ =
      c.anticogging_average_error_
        + c.anticogging_bandwidth_ * env.current_meas_period
          * (|c.anticogging_vel_error_filtered_
                + 10 * env.current_meas_period * ((vs - v) - c.anticogging_vel_error_filtered_)|
              / c.input_vel_ - c.anticogging_average_error_) := by
  unfold anticogging_active_step
  dsimp only
  generalize anticogging_schedule _ _ _ _ _ _ = s
  cases hd : s.done
  · exact ⟨rfl, rfl, rfl⟩
  · exact ⟨rfl, rfl, rfl⟩

/-- C18, as stated, fails: in the first turn of a calibration (turn count 0
before and after the step) an active learner step with velocity error 1 moves
`average_error` from 0 to `bandwidth * Ts * (|vel_error_filtered| / input_vel)`
`= 1/5120000`; the update of line 119 is not inside the `if (one_turn)`. -/
theorem average_error_updated_in_first_turn :
    (scenario_learning [0, 0, 0, 0, 0, 0, 0, 0]).config_.anticogging.calib_anticogging = true ∧
    (scenario_learning [0, 0, 0, 0, 0, 0, 0, 0]).config_.control_mode =
      CONTROL_MODE_VELOCITY_CONTROL ∧
    ¬ (((scenario_learning [0, 0, 0, 0, 0, 0, 0, 0]).anticogging_calibration scenario_env
        AXIS_STATE_CLOSED_LOOP_CONTROL 0 0 0 1).anticogging_turn_count_ > 0) ∧
    ((scenario_learning [0, 0, 0, 0, 0, 0, 0, 0]).anticogging_calibration scenario_env
        AXIS_STATE_CLOSED_LOOP_CONTROL 0 0 0 1).anticogging_average_error_ = 1 / 5120000 ∧
    ((scenario_learning [0, 0, 0, 0, 0, 0, 0, 0]).anticogging_calibration scenario_env
        AXIS_STATE_CLOSED_LOOP_CONTROL 0 0 0 1).anticogging_average_error_ ≠
      (scenario_learning [0, 0, 0, 0, 0, 0, 0, 0]).anticogging_average_error_ := by
  have hact : ((scenario_learning [0, 0, 0, 0, 0, 0, 0, 0]).anticogging_calibration scenario_env
      AXIS_STATE_CLOSED_LOOP_CONTROL 0 0 0 1) =
      anticogging_active_step scenario_env (scenario_learning [0, 0, 0, 0, 0, 0, 0, 0])
        0 0 0 1 := by
    unfold Controller.anticogging_calibration
    rw [if_pos ⟨rfl, rfl, rfl⟩]
  obtain ⟨-, hturn, havg⟩ :=
    active_step_statistics scenario_env (scenario_learning [0, 0, 0, 0, 0, 0, 0, 0]) 0 0 0 1
  rw [hact, hturn, havg]
  simp [scenario_learning, scenario_controller, scenario_env, float_to_int]
  norm_num [abs_of_pos]

/-- C18 (amended): in every active learner step (`calib_anticogging` set,
`control_mode = VELOCITY`, axis in closed loop), whatever the updated turn
count, `average_error` is updated by `average_error += bandwidth * Ts *
(|vel_error_filtered| / input_vel - average_error)`, with the
`vel_error_filtered` just updated by the same step and the `bandwidth` and
`input_vel` of step entry. -/
theorem average_error_update (env : Env) (axis_current_state : Nat) (c : Controller)
    (p q v vs : ℚ)
    (hactive : c.config_.anticogging.calib_anticogging = true ∧
      c.config_.control_mode = CONTROL_MODE_VELOCITY_CONTROL ∧
      axis_current_state = AXIS_STATE_CLOSED_LOOP_CONTROL) :
    (c.anticogging_calibration env axis_current_state p q v vs).anticogging_average_error_ =
      c.anticogging_average_error_
        + c.anticogging_bandwidth_ * env.current_meas_period
          * (|(c.anticogging_calibration env axis_current_state p q v vs
                ).anticogging_vel_error_filtered_| / c.input_vel_
              - c.anticogging_average_error_) ∧
    (c.anticogging_calibration env axis_current_state p q v vs
      ).anticogging_vel_error_filtered_ =
      c.anticogging_vel_error_filtered_
        + 10 * env.current_meas_period * ((vs - v) - c.anticogging_vel_error_filtered_) := by
  have hact : c.anticogging_calibration env axis_current_state p q v vs =
      anticogging_active_step env c p q v vs := by
    unfold Controller.anticogging_calibration
    rw [if_pos hactive]
  obtain ⟨hfilt, -, havg⟩ := active_step_statistics env c p q v vs
  rw [hact, hfilt]
  exact ⟨havg, rfl⟩

/-- C18 witness: the first-turn step of `scenario_learning` is active, and its
`average_error` is the value of the update formula. -/
theorem average_error_update_witness :
    ((scenario_learning [0, 0, 0, 0, 0, 0, 0, 0]).anticogging_calibration scenario_env
        AXIS_STATE_CLOSED_LOOP_CONTROL 0 0 0 1).anticogging_average_error_ =
      (scenario_learning [0, 0, 0, 0, 0, 0, 0, 0]).anticogging_average_error_
        + (scenario_learning [0, 0, 0, 0, 0, 0, 0, 0]).anticogging_bandwidth_
          * scenario_env.current_meas_period
          * (|((scenario_learning [0, 0, 0, 0, 0, 0, 0, 0]).anticogging_calibration
                scenario_env AXIS_STATE_CLOSED_LOOP_CONTROL 0 0 0 1
                ).anticogging_vel_error_filtered_|
              / (scenario_learning [0, 0, 0, 0, 0, 0, 0, 0]).input_vel_
              - (scenario_learning [0, 0, 0, 0, 0, 0, 0, 0]).anticogging_average_error_) :=
  (average_error_update scenario_env AXIS_STATE_CLOSED_LOOP_CONTROL
    (scenario_learning [0, 0, 0, 0, 0, 0, 0, 0]) 0 0 0 1 ⟨rfl, rfl, rfl⟩).1

/-! ## C19: sweep-velocity ratchet -/

theorem limitVel_sign (vel_limit vel_estimate vel_gain torque : ℚ)
    (hgain : 0 < vel_gain) (hlim : 0 ≤ vel_limit) :
    (vel_limit ≤ vel_estimate → limitVel vel_limit vel_estimate vel_gain torque ≤ 0) ∧
    (vel_estimate ≤ -vel_limit → 0 ≤ limitVel vel_limit vel_estimate vel_gain torque) := by
  unfold limitVel clamp
  dsimp only
  have hord : (-vel_limit - vel_estimate) * vel_gain ≤ (vel_limit - vel_estimate) * vel_gain :=
    mul_le_mul_of_nonneg_right (by linarith) (le_of_lt hgain)
  constructor
  · intro hv
    have hmax : (vel_limit - vel_estimate) * vel_gain ≤ 0 :=
      mul_nonpos_of_nonpos_of_nonneg (by linarith) (le_of_lt hgain)
    split_ifs <;> linarith
  · intro hv
    have hmin : 0 ≤ (-vel_limit - vel_estimate) * vel_gain :=
      mul_nonneg (by linarith) (le_of_lt hgain)
    split_ifs <;> linarith

theorem torque_limit_sign (torque Tlim : ℚ) (hT : 0 ≤ Tlim) :
    (torque ≤ 0 → (torque_limit torque Tlim).1 ≤ 0) ∧
    (0 ≤ torque → 0 ≤ (torque_limit torque Tlim).1) := by
  rw [torque_limit_eq_clamp _ _ hT]
  unfold clamp
  constructor <;> intro h <;> split_ifs <;> linarith

/-- C20: in a tick that returns ok with `control_mode < VELOCITY`,
`enable_current_mode_vel_limit` set, a non-ACIM motor, `vel_gain > 0`,
`vel_limit ≥ 0` and `Tmax ≥ 0`, if `vel_estimate ≥ vel_limit` then
`torque_output ≤ 0`, and if `vel_estimate ≤ -vel_limit` then `torque_output ≥ 0`,
whatever the torque setpoint and the anti-cogging feed-forward are. -/
theorem current_mode_limiter (env : Env) (inp : TickInput) (c : Controller) (v : ℚ)
    (hok : (c.update env inp).2 = true)
    (hmode : (c.update env inp).1.config_.control_mode < CONTROL_MODE_VELOCITY_CONTROL)
    (hen : c.config_.enable_current_mode_vel_limit = true)
    (hmotor : inp.motor_type ≠ MOTOR_TYPE_ACIM)
    (hgain : 0 < c.config_.vel_gain) (hlim : 0 ≤ c.config_.vel_limit)
    (hT : 0 ≤ inp.max_available_torque) (hv : inp.vel_estimate = some v) :
    (c.config_.vel_limit ≤ v → (c.update env inp).1.torque_output_ ≤ 0) ∧
    (v ≤ -c.config_.vel_limit → 0 ≤ (c.update env inp).1.torque_output_) := by
  obtain ⟨r, a, hr, hts, hac, hfin⟩ := update_ok_trace hok
  obtain ⟨ff, -, -, -, hcur⟩ := torque_stages_torque hts
  have hcfg := setpoint_stages_config hr
  rw [hfin] at hmode ⊢
  have hmode' : r.1.config_.control_mode < CONTROL_MODE_VELOCITY_CONTROL := by
    have : (finish env inp a).config_ = r.1.config_ := by rw [← hac]; rfl
    rw [← this]
    exact hmode
  have hen' : r.1.config_.enable_current_mode_vel_limit = true := by rw [hcfg]; exact hen
  have hlim' : r.1.config_.vel_limit = c.config_.vel_limit := by rw [hcfg]
  have hgain' : (acim_gains inp r.1).1 = c.config_.vel_gain := by
    rw [acim_gains_other r.1 hmotor, hcfg]
  obtain ⟨v', hv', ht⟩ := (hcur hmode').1 hen'
  rw [hv] at hv'
  injection hv' with hv'
  subst hv'
  rw [hlim', hgain'] at ht
  have hout : (finish env inp a).torque_output_ =
      (torque_limit a.torque inp.max_available_torque).1 := rfl
  rw [hout, ht]
  obtain ⟨h₁, h₂⟩ := limitVel_sign c.config_.vel_limit v c.config_.vel_gain ff hgain hlim
  obtain ⟨k₁, k₂⟩ := torque_limit_sign
    (limitVel c.config_.vel_limit v c.config_.vel_gain ff) inp.max_available_torque hT
  exact ⟨fun h => k₁ (h₁ h), fun h => k₂ (h₂ h)⟩

/-- C20 witness: torque mode with the current-mode limiter on, `vel_limit =
10`, `vel_gain = 1`, `torque_setpoint = 2` and `vel_estimate = 12`: the tick
returns ok and the output is not positive. -/
theorem current_mode_limiter_witness :
    (({ scenario_controller with
        config_ := { scenario_config with enable_current_mode_vel_limit := true } } :
      Controller).update scenario_env
      { scenario_input with vel_estimate := some 12 }).1.torque_output_ ≤ 0 :=
  (current_mode_limiter scenario_env { scenario_input with vel_estimate := some 12 }
    ({ scenario_controller with
        config_ := { scenario_config with enable_current_mode_vel_limit := true } } :
      Controller) 12
    (by simp [Controller.update, assemble, setpoint_stages, torque_stages, wrap_input_pos,
          input_stage, calibration_stage, position_stage, overspeed_check, feedforward_stage,
          velocity_stage, current_mode_limit, scenario_controller, scenario_config,
          scenario_anticogging, scenario_input, ControlMode.toNat])
    (by simp [Controller.update, assemble, setpoint_stages, torque_stages, wrap_input_pos,
          input_stage, calibration_stage, position_stage, overspeed_check, feedforward_stage,
          velocity_stage, current_mode_limit, scenario_controller, scenario_config,
          scenario_anticogging, scenario_input, ControlMode.toNat, finish])
    rfl (by simp [scenario_input])
    (by simp [scenario_config]) (by simp [scenario_config]) (by simp [scenario_input])
    rfl).1
    (by simp [scenario_config]; norm_num)

/-! ## C21: starting the calibration twice -/

/-- A start that is allowed saves the gain it finds and forces the config gain
to zero. -/
theorem start_saves_gain (c : Controller) (pos_estimate : ℚ) :
    (c.start_anticogging_calibration Axis_ERROR_NONE AXIS_STATE_CLOSED_LOOP_CONTROL
        pos_estimate).old_vel_integrator_gain_ = c.config_.vel_integrator_gain ∧
    (c.start_anticogging_calibration Axis_ERROR_NONE AXIS_STATE_CLOSED_LOOP_CONTROL
        pos_estimate).anticogging_integrator_gain_ =
      c.config_.anticogging.start_gain * c.config_.vel_integrator_gain ∧
    (c.start_anticogging_calibration Axis_ERROR_NONE AXIS_STATE_CLOSED_LOOP_CONTROL
        pos_estimate).config_.vel_integrator_gain = 0 ∧
    (c.start_anticogging_calibration Axis_ERROR_NONE AXIS_STATE_CLOSED_LOOP_CONTROL
        pos_estimate).config_.anticogging.start_gain = c.config_.anticogging.start_gain := by
  unfold Controller.start_anticogging_calibration
  rw [if_pos ⟨rfl, rfl⟩]
  exact ⟨rfl, rfl, rfl, rfl⟩

/-- Whatever the operator gain, a second allowed start saves the zero forced by
the first one: the learner gain becomes `start_gain * 0` and a stop restores
zero. -/
theorem second_start_saves_zero (c : Controller) (pos_estimate : ℚ) :
    ((c.start_anticogging_calibration Axis_ERROR_NONE AXIS_STATE_CLOSED_LOOP_CONTROL
        pos_estimate).start_anticogging_calibration Axis_ERROR_NONE
        AXIS_STATE_CLOSED_LOOP_CONTROL pos_estimate).anticogging_integrator_gain_ = 0 ∧
    ((c.start_anticogging_calibration Axis_ERROR_NONE AXIS_STATE_CLOSED_LOOP_CONTROL
        pos_estimate).start_anticogging_calibration Axis_ERROR_NONE
        AXIS_STATE_CLOSED_LOOP_CONTROL pos_estimate
      ).stop_anticogging_calibration.config_.vel_integrator_gain = 0 := by
  obtain ⟨-, -, hzero, -⟩ := start_saves_gain c pos_estimate
  obtain ⟨hold, hgain, -, -⟩ := start_saves_gain
    (c.start_anticogging_calibration Axis_ERROR_NONE AXIS_STATE_CLOSED_LOOP_CONTROL
      pos_estimate) pos_estimate
  refine ⟨by rw [hgain, hzero, mul_zero], ?_⟩
  show (Controller.start_anticogging_calibration _ _ _ _).old_vel_integrator_gain_ = 0
  rw [hold, hzero]

/-- C21 (fails on the code): with operator gain `g = 2` and `start_gain = 25`,
one start gives the learner gain `50 = start_gain * g` and a stop restores `2`;
a second start in a row (axis error-free, closed loop, same encoder reading)
gives the learner gain `0`, and the stop after it leaves config
`vel_integrator_gain = 0`, not `g`. -/
theorem repeated_start_forgets_gain :
    scenario_operator.config_.vel_integrator_gain = 2 ∧
    scenario_operator.config_.anticogging.start_gain = 25 ∧
    (scenario_operator.start_anticogging_calibration Axis_ERROR_NONE
        AXIS_STATE_CLOSED_LOOP_CONTROL 0).anticogging_integrator_gain_ = 50 ∧
    (scenario_operator.start_anticogging_calibration Axis_ERROR_NONE
        AXIS_STATE_CLOSED_LOOP_CONTROL 0
      ).stop_anticogging_calibration.config_.vel_integrator_gain = 2 ∧
    ((scenario_operator.start_anticogging_calibration Axis_ERROR_NONE
        AXIS_STATE_CLOSED_LOOP_CONTROL 0).start_anticogging_calibration Axis_ERROR_NONE
        AXIS_STATE_CLOSED_LOOP_CONTROL 0).anticogging_integrator_gain_ = 0 ∧
    ((scenario_operator.start_anticogging_calibration Axis_ERROR_NONE
        AXIS_STATE_CLOSED_LOOP_CONTROL 0).start_anticogging_calibration Axis_ERROR_NONE
        AXIS_STATE_CLOSED_LOOP_CONTROL 0
      ).stop_anticogging_calibration.config_.vel_integrator_gain = 0 := by
  refine ⟨rfl, rfl, ?_, ?_, ?_, ?_⟩
  · simp [Controller.start_anticogging_calibration, scenario_operator, scenario_config,
      scenario_anticogging, Axis_ERROR_NONE, AXIS_STATE_CLOSED_LOOP_CONTROL]
    norm_num
  · simp [Controller.start_anticogging_calibration, Controller.stop_anticogging_calibration,
      scenario_operator, Axis_ERROR_NONE, AXIS_STATE_CLOSED_LOOP_CONTROL]
  · simp [Controller.start_anticogging_calibration, scenario_operator, scenario_config,
      scenario_anticogging, Axis_ERROR_NONE, AXIS_STATE_CLOSED_LOOP_CONTROL]
  · simp [Controller.start_anticogging_calibration, Controller.stop_anticogging_calibration,
      scenario_operator, Axis_ERROR_NONE, AXIS_STATE_CLOSED_LOOP_CONTROL]

end ODrive
